import Mathlib

/-!
# Verification of the diagonal-Sudoku solver (`solution.py`)

Shallow embedding of the solver's data model and operations.

* A Python candidate-set string such as `'2357'` is embedded as `List Nat`
  (always an ordered subsequence of `[1,…,9]` in practice).
* The Python board dict `{'A1': …, …, 'I9': …}` preserves insertion order,
  which is the row-major order of the 81 boxes; it is embedded as a
  `List (List Nat)` of length 81, box `'A1'` at index 0 … `'I9'` at index 80.
* Python `set`s (`peers`, the twin set) have unspecified iteration order; the
  embedding fixes a concrete order.  All results proved below are independent
  of that order (removals of single values commute).
-/

abbrev Cell := List Nat
abbrev Board := List Cell

/-- The nine digits `'123456789'` in order. -/
def digits : List Nat := [1, 2, 3, 4, 5, 6, 7, 8, 9]

/-- `row_units`: for each row letter, its nine boxes in column order. -/
def row_units : List (List Nat) :=
  (List.range 9).map (fun r => (List.range 9).map (fun c => 9 * r + c))

/-- `column_units`: for each column, its nine boxes in row order. -/
def column_units : List (List Nat) :=
  (List.range 9).map (fun c => (List.range 9).map (fun r => 9 * r + c))

/-- `square_units`: the nine 3×3 boxes. -/
def square_units : List (List Nat) :=
  ([0, 3, 6].flatMap (fun rs => [0, 3, 6].map (fun cs =>
    [0, 1, 2].flatMap (fun r => [0, 1, 2].map (fun c => 9 * (rs + r) + (cs + c))))))

/-- `diagonal_units = [boxes[::10], boxes[8:73:8]]`: the main diagonal
    (indices 0,10,…,80) and the anti-diagonal (indices 8,16,…,72). -/
def diagonal_units : List (List Nat) :=
  [(List.range 9).map (fun i => 10 * i), (List.range 9).map (fun i => 8 * i + 8)]

/-- `unitlist = row_units + column_units + square_units + diagonal_units`. -/
def unitlist : List (List Nat) :=
  row_units ++ column_units ++ square_units ++ diagonal_units

/-- The units dict and the peers dict are computed once at startup (lines
    14–15) and never change; the embedding holds their values as literal
    tables.  `units_spec` and `peers_spec` below prove that the tables are
    exactly the source's comprehensions
    `units = dict((s, [u for u in unitlist if s in u]) for s in boxes)` and
    `peers = dict((s, set(sum(units[s],[]))-set([s])) for s in boxes)`
    (a Python set, embedded as a deduplicated list). -/
def unitsTable : List (List (List Nat)) :=
  [[[0, 1, 2, 3, 4, 5, 6, 7, 8],
   [0, 9, 18, 27, 36, 45, 54, 63, 72],
   [0, 1, 2, 9, 10, 11, 18, 19, 20],
   [0, 10, 20, 30, 40, 50, 60, 70, 80]],
  [[0, 1, 2, 3, 4, 5, 6, 7, 8],
   [1, 10, 19, 28, 37, 46, 55, 64, 73],
   [0, 1, 2, 9, 10, 11, 18, 19, 20]],
  [[0, 1, 2, 3, 4, 5, 6, 7, 8],
   [2, 11, 20, 29, 38, 47, 56, 65, 74],
   [0, 1, 2, 9, 10, 11, 18, 19, 20]],
  [[0, 1, 2, 3, 4, 5, 6, 7, 8],
   [3, 12, 21, 30, 39, 48, 57, 66, 75],
   [3, 4, 5, 12, 13, 14, 21, 22, 23]],
  [[0, 1, 2, 3, 4, 5, 6, 7, 8],
   [4, 13, 22, 31, 40, 49, 58, 67, 76],
   [3, 4, 5, 12, 13, 14, 21, 22, 23]],
  [[0, 1, 2, 3, 4, 5, 6, 7, 8],
   [5, 14, 23, 32, 41, 50, 59, 68, 77],
   [3, 4, 5, 12, 13, 14, 21, 22, 23]],
  [[0, 1, 2, 3, 4, 5, 6, 7, 8],
   [6, 15, 24, 33, 42, 51, 60, 69, 78],
   [6, 7, 8, 15, 16, 17, 24, 25, 26]],
  [[0, 1, 2, 3, 4, 5, 6, 7, 8],
   [7, 16, 25, 34, 43, 52, 61, 70, 79],
   [6, 7, 8, 15, 16, 17, 24, 25, 26]],
  [[0, 1, 2, 3, 4, 5, 6, 7, 8],
   [8, 17, 26, 35, 44, 53, 62, 71, 80],
   [6, 7, 8, 15, 16, 17, 24, 25, 26],
   [8, 16, 24, 32, 40, 48, 56, 64, 72]],
  [[9, 10, 11, 12, 13, 14, 15, 16, 17],
   [0, 9, 18, 27, 36, 45, 54, 63, 72],
   [0, 1, 2, 9, 10, 11, 18, 19, 20]],
  [[9, 10, 11, 12, 13, 14, 15, 16, 17],
   [1, 10, 19, 28, 37, 46, 55, 64, 73],
   [0, 1, 2, 9, 10, 11, 18, 19, 20],
   [0, 10, 20, 30, 40, 50, 60, 70, 80]],
  [[9, 10, 11, 12, 13, 14, 15, 16, 17],
   [2, 11, 20, 29, 38, 47, 56, 65, 74],
   [0, 1, 2, 9, 10, 11, 18, 19, 20]],
  [[9, 10, 11, 12, 13, 14, 15, 16, 17],
   [3, 12, 21, 30, 39, 48, 57, 66, 75],
   [3, 4, 5, 12, 13, 14, 21, 22, 23]],
  [[9, 10, 11, 12, 13, 14, 15, 16, 17],
   [4, 13, 22, 31, 40, 49, 58, 67, 76],
   [3, 4, 5, 12, 13, 14, 21, 22, 23]],
  [[9, 10, 11, 12, 13, 14, 15, 16, 17],
   [5, 14, 23, 32, 41, 50, 59, 68, 77],
   [3, 4, 5, 12, 13, 14, 21, 22, 23]],
  [[9, 10, 11, 12, 13, 14, 15, 16, 17],
   [6, 15, 24, 33, 42, 51, 60, 69, 78],
   [6, 7, 8, 15, 16, 17, 24, 25, 26]],
  [[9, 10, 11, 12, 13, 14, 15, 16, 17],
   [7, 16, 25, 34, 43, 52, 61, 70, 79],
   [6, 7, 8, 15, 16, 17, 24, 25, 26],
   [8, 16, 24, 32, 40, 48, 56, 64, 72]],
  [[9, 10, 11, 12, 13, 14, 15, 16, 17],
   [8, 17, 26, 35, 44, 53, 62, 71, 80],
   [6, 7, 8, 15, 16, 17, 24, 25, 26]],
  [[18, 19, 20, 21, 22, 23, 24, 25, 26],
   [0, 9, 18, 27, 36, 45, 54, 63, 72],
   [0, 1, 2, 9, 10, 11, 18, 19, 20]],
  [[18, 19, 20, 21, 22, 23, 24, 25, 26],
   [1, 10, 19, 28, 37, 46, 55, 64, 73],
   [0, 1, 2, 9, 10, 11, 18, 19, 20]],
  [[18, 19, 20, 21, 22, 23, 24, 25, 26],
   [2, 11, 20, 29, 38, 47, 56, 65, 74],
   [0, 1, 2, 9, 10, 11, 18, 19, 20],
   [0, 10, 20, 30, 40, 50, 60, 70, 80]],
  [[18, 19, 20, 21, 22, 23, 24, 25, 26],
   [3, 12, 21, 30, 39, 48, 57, 66, 75],
   [3, 4, 5, 12, 13, 14, 21, 22, 23]],
  [[18, 19, 20, 21, 22, 23, 24, 25, 26],
   [4, 13, 22, 31, 40, 49, 58, 67, 76],
   [3, 4, 5, 12, 13, 14, 21, 22, 23]],
  [[18, 19, 20, 21, 22, 23, 24, 25, 26],
   [5, 14, 23, 32, 41, 50, 59, 68, 77],
   [3, 4, 5, 12, 13, 14, 21, 22, 23]],
  [[18, 19, 20, 21, 22, 23, 24, 25, 26],
   [6, 15, 24, 33, 42, 51, 60, 69, 78],
   [6, 7, 8, 15, 16, 17, 24, 25, 26],
   [8, 16, 24, 32, 40, 48, 56, 64, 72]],
  [[18, 19, 20, 21, 22, 23, 24, 25, 26],
   [7, 16, 25, 34, 43, 52, 61, 70, 79],
   [6, 7, 8, 15, 16, 17, 24, 25, 26]],
  [[18, 19, 20, 21, 22, 23, 24, 25, 26],
   [8, 17, 26, 35, 44, 53, 62, 71, 80],
   [6, 7, 8, 15, 16, 17, 24, 25, 26]],
  [[27, 28, 29, 30, 31, 32, 33, 34, 35],
   [0, 9, 18, 27, 36, 45, 54, 63, 72],
   [27, 28, 29, 36, 37, 38, 45, 46, 47]],
  [[27, 28, 29, 30, 31, 32, 33, 34, 35],
   [1, 10, 19, 28, 37, 46, 55, 64, 73],
   [27, 28, 29, 36, 37, 38, 45, 46, 47]],
  [[27, 28, 29, 30, 31, 32, 33, 34, 35],
   [2, 11, 20, 29, 38, 47, 56, 65, 74],
   [27, 28, 29, 36, 37, 38, 45, 46, 47]],
  [[27, 28, 29, 30, 31, 32, 33, 34, 35],
   [3, 12, 21, 30, 39, 48, 57, 66, 75],
   [30, 31, 32, 39, 40, 41, 48, 49, 50],
   [0, 10, 20, 30, 40, 50, 60, 70, 80]],
  [[27, 28, 29, 30, 31, 32, 33, 34, 35],
   [4, 13, 22, 31, 40, 49, 58, 67, 76],
   [30, 31, 32, 39, 40, 41, 48, 49, 50]],
  [[27, 28, 29, 30, 31, 32, 33, 34, 35],
   [5, 14, 23, 32, 41, 50, 59, 68, 77],
   [30, 31, 32, 39, 40, 41, 48, 49, 50],
   [8, 16, 24, 32, 40, 48, 56, 64, 72]],
  [[27, 28, 29, 30, 31, 32, 33, 34, 35],
   [6, 15, 24, 33, 42, 51, 60, 69, 78],
   [33, 34, 35, 42, 43, 44, 51, 52, 53]],
  [[27, 28, 29, 30, 31, 32, 33, 34, 35],
   [7, 16, 25, 34, 43, 52, 61, 70, 79],
   [33, 34, 35, 42, 43, 44, 51, 52, 53]],
  [[27, 28, 29, 30, 31, 32, 33, 34, 35],
   [8, 17, 26, 35, 44, 53, 62, 71, 80],
   [33, 34, 35, 42, 43, 44, 51, 52, 53]],
  [[36, 37, 38, 39, 40, 41, 42, 43, 44],
   [0, 9, 18, 27, 36, 45, 54, 63, 72],
   [27, 28, 29, 36, 37, 38, 45, 46, 47]],
  [[36, 37, 38, 39, 40, 41, 42, 43, 44],
   [1, 10, 19, 28, 37, 46, 55, 64, 73],
   [27, 28, 29, 36, 37, 38, 45, 46, 47]],
  [[36, 37, 38, 39, 40, 41, 42, 43, 44],
   [2, 11, 20, 29, 38, 47, 56, 65, 74],
   [27, 28, 29, 36, 37, 38, 45, 46, 47]],
  [[36, 37, 38, 39, 40, 41, 42, 43, 44],
   [3, 12, 21, 30, 39, 48, 57, 66, 75],
   [30, 31, 32, 39, 40, 41, 48, 49, 50]],
  [[36, 37, 38, 39, 40, 41, 42, 43, 44],
   [4, 13, 22, 31, 40, 49, 58, 67, 76],
   [30, 31, 32, 39, 40, 41, 48, 49, 50],
   [0, 10, 20, 30, 40, 50, 60, 70, 80],
   [8, 16, 24, 32, 40, 48, 56, 64, 72]],
  [[36, 37, 38, 39, 40, 41, 42, 43, 44],
   [5, 14, 23, 32, 41, 50, 59, 68, 77],
   [30, 31, 32, 39, 40, 41, 48, 49, 50]],
  [[36, 37, 38, 39, 40, 41, 42, 43, 44],
   [6, 15, 24, 33, 42, 51, 60, 69, 78],
   [33, 34, 35, 42, 43, 44, 51, 52, 53]],
  [[36, 37, 38, 39, 40, 41, 42, 43, 44],
   [7, 16, 25, 34, 43, 52, 61, 70, 79],
   [33, 34, 35, 42, 43, 44, 51, 52, 53]],
  [[36, 37, 38, 39, 40, 41, 42, 43, 44],
   [8, 17, 26, 35, 44, 53, 62, 71, 80],
   [33, 34, 35, 42, 43, 44, 51, 52, 53]],
  [[45, 46, 47, 48, 49, 50, 51, 52, 53],
   [0, 9, 18, 27, 36, 45, 54, 63, 72],
   [27, 28, 29, 36, 37, 38, 45, 46, 47]],
  [[45, 46, 47, 48, 49, 50, 51, 52, 53],
   [1, 10, 19, 28, 37, 46, 55, 64, 73],
   [27, 28, 29, 36, 37, 38, 45, 46, 47]],
  [[45, 46, 47, 48, 49, 50, 51, 52, 53],
   [2, 11, 20, 29, 38, 47, 56, 65, 74],
   [27, 28, 29, 36, 37, 38, 45, 46, 47]],
  [[45, 46, 47, 48, 49, 50, 51, 52, 53],
   [3, 12, 21, 30, 39, 48, 57, 66, 75],
   [30, 31, 32, 39, 40, 41, 48, 49, 50],
   [8, 16, 24, 32, 40, 48, 56, 64, 72]],
  [[45, 46, 47, 48, 49, 50, 51, 52, 53],
   [4, 13, 22, 31, 40, 49, 58, 67, 76],
   [30, 31, 32, 39, 40, 41, 48, 49, 50]],
  [[45, 46, 47, 48, 49, 50, 51, 52, 53],
   [5, 14, 23, 32, 41, 50, 59, 68, 77],
   [30, 31, 32, 39, 40, 41, 48, 49, 50],
   [0, 10, 20, 30, 40, 50, 60, 70, 80]],
  [[45, 46, 47, 48, 49, 50, 51, 52, 53],
   [6, 15, 24, 33, 42, 51, 60, 69, 78],
   [33, 34, 35, 42, 43, 44, 51, 52, 53]],
  [[45, 46, 47, 48, 49, 50, 51, 52, 53],
   [7, 16, 25, 34, 43, 52, 61, 70, 79],
   [33, 34, 35, 42, 43, 44, 51, 52, 53]],
  [[45, 46, 47, 48, 49, 50, 51, 52, 53],
   [8, 17, 26, 35, 44, 53, 62, 71, 80],
   [33, 34, 35, 42, 43, 44, 51, 52, 53]],
  [[54, 55, 56, 57, 58, 59, 60, 61, 62],
   [0, 9, 18, 27, 36, 45, 54, 63, 72],
   [54, 55, 56, 63, 64, 65, 72, 73, 74]],
  [[54, 55, 56, 57, 58, 59, 60, 61, 62],
   [1, 10, 19, 28, 37, 46, 55, 64, 73],
   [54, 55, 56, 63, 64, 65, 72, 73, 74]],
  [[54, 55, 56, 57, 58, 59, 60, 61, 62],
   [2, 11, 20, 29, 38, 47, 56, 65, 74],
   [54, 55, 56, 63, 64, 65, 72, 73, 74],
   [8, 16, 24, 32, 40, 48, 56, 64, 72]],
  [[54, 55, 56, 57, 58, 59, 60, 61, 62],
   [3, 12, 21, 30, 39, 48, 57, 66, 75],
   [57, 58, 59, 66, 67, 68, 75, 76, 77]],
  [[54, 55, 56, 57, 58, 59, 60, 61, 62],
   [4, 13, 22, 31, 40, 49, 58, 67, 76],
   [57, 58, 59, 66, 67, 68, 75, 76, 77]],
  [[54, 55, 56, 57, 58, 59, 60, 61, 62],
   [5, 14, 23, 32, 41, 50, 59, 68, 77],
   [57, 58, 59, 66, 67, 68, 75, 76, 77]],
  [[54, 55, 56, 57, 58, 59, 60, 61, 62],
   [6, 15, 24, 33, 42, 51, 60, 69, 78],
   [60, 61, 62, 69, 70, 71, 78, 79, 80],
   [0, 10, 20, 30, 40, 50, 60, 70, 80]],
  [[54, 55, 56, 57, 58, 59, 60, 61, 62],
   [7, 16, 25, 34, 43, 52, 61, 70, 79],
   [60, 61, 62, 69, 70, 71, 78, 79, 80]],
  [[54, 55, 56, 57, 58, 59, 60, 61, 62],
   [8, 17, 26, 35, 44, 53, 62, 71, 80],
   [60, 61, 62, 69, 70, 71, 78, 79, 80]],
  [[63, 64, 65, 66, 67, 68, 69, 70, 71],
   [0, 9, 18, 27, 36, 45, 54, 63, 72],
   [54, 55, 56, 63, 64, 65, 72, 73, 74]],
  [[63, 64, 65, 66, 67, 68, 69, 70, 71],
   [1, 10, 19, 28, 37, 46, 55, 64, 73],
   [54, 55, 56, 63, 64, 65, 72, 73, 74],
   [8, 16, 24, 32, 40, 48, 56, 64, 72]],
  [[63, 64, 65, 66, 67, 68, 69, 70, 71],
   [2, 11, 20, 29, 38, 47, 56, 65, 74],
   [54, 55, 56, 63, 64, 65, 72, 73, 74]],
  [[63, 64, 65, 66, 67, 68, 69, 70, 71],
   [3, 12, 21, 30, 39, 48, 57, 66, 75],
   [57, 58, 59, 66, 67, 68, 75, 76, 77]],
  [[63, 64, 65, 66, 67, 68, 69, 70, 71],
   [4, 13, 22, 31, 40, 49, 58, 67, 76],
   [57, 58, 59, 66, 67, 68, 75, 76, 77]],
  [[63, 64, 65, 66, 67, 68, 69, 70, 71],
   [5, 14, 23, 32, 41, 50, 59, 68, 77],
   [57, 58, 59, 66, 67, 68, 75, 76, 77]],
  [[63, 64, 65, 66, 67, 68, 69, 70, 71],
   [6, 15, 24, 33, 42, 51, 60, 69, 78],
   [60, 61, 62, 69, 70, 71, 78, 79, 80]],
  [[63, 64, 65, 66, 67, 68, 69, 70, 71],
   [7, 16, 25, 34, 43, 52, 61, 70, 79],
   [60, 61, 62, 69, 70, 71, 78, 79, 80],
   [0, 10, 20, 30, 40, 50, 60, 70, 80]],
  [[63, 64, 65, 66, 67, 68, 69, 70, 71],
   [8, 17, 26, 35, 44, 53, 62, 71, 80],
   [60, 61, 62, 69, 70, 71, 78, 79, 80]],
  [[72, 73, 74, 75, 76, 77, 78, 79, 80],
   [0, 9, 18, 27, 36, 45, 54, 63, 72],
   [54, 55, 56, 63, 64, 65, 72, 73, 74],
   [8, 16, 24, 32, 40, 48, 56, 64, 72]],
  [[72, 73, 74, 75, 76, 77, 78, 79, 80],
   [1, 10, 19, 28, 37, 46, 55, 64, 73],
   [54, 55, 56, 63, 64, 65, 72, 73, 74]],
  [[72, 73, 74, 75, 76, 77, 78, 79, 80],
   [2, 11, 20, 29, 38, 47, 56, 65, 74],
   [54, 55, 56, 63, 64, 65, 72, 73, 74]],
  [[72, 73, 74, 75, 76, 77, 78, 79, 80],
   [3, 12, 21, 30, 39, 48, 57, 66, 75],
   [57, 58, 59, 66, 67, 68, 75, 76, 77]],
  [[72, 73, 74, 75, 76, 77, 78, 79, 80],
   [4, 13, 22, 31, 40, 49, 58, 67, 76],
   [57, 58, 59, 66, 67, 68, 75, 76, 77]],
  [[72, 73, 74, 75, 76, 77, 78, 79, 80],
   [5, 14, 23, 32, 41, 50, 59, 68, 77],
   [57, 58, 59, 66, 67, 68, 75, 76, 77]],
  [[72, 73, 74, 75, 76, 77, 78, 79, 80],
   [6, 15, 24, 33, 42, 51, 60, 69, 78],
   [60, 61, 62, 69, 70, 71, 78, 79, 80]],
  [[72, 73, 74, 75, 76, 77, 78, 79, 80],
   [7, 16, 25, 34, 43, 52, 61, 70, 79],
   [60, 61, 62, 69, 70, 71, 78, 79, 80]],
  [[72, 73, 74, 75, 76, 77, 78, 79, 80],
   [8, 17, 26, 35, 44, 53, 62, 71, 80],
   [60, 61, 62, 69, 70, 71, 78, 79, 80],
   [0, 10, 20, 30, 40, 50, 60, 70, 80]]]

def peersTable : List (List Nat) :=
  [[3, 4, 5, 6, 7, 8, 27, 36, 45, 54, 63, 72, 1, 2, 9, 11, 18, 19, 10, 20, 30, 40, 50, 60, 70, 80],
   [3, 4, 5, 6, 7, 8, 28, 37, 46, 55, 64, 73, 0, 2, 9, 10, 11, 18, 19, 20],
   [3, 4, 5, 6, 7, 8, 29, 38, 47, 56, 65, 74, 0, 1, 9, 10, 11, 18, 19, 20],
   [0, 1, 2, 6, 7, 8, 30, 39, 48, 57, 66, 75, 4, 5, 12, 13, 14, 21, 22, 23],
   [0, 1, 2, 6, 7, 8, 31, 40, 49, 58, 67, 76, 3, 5, 12, 13, 14, 21, 22, 23],
   [0, 1, 2, 6, 7, 8, 32, 41, 50, 59, 68, 77, 3, 4, 12, 13, 14, 21, 22, 23],
   [0, 1, 2, 3, 4, 5, 33, 42, 51, 60, 69, 78, 7, 8, 15, 16, 17, 24, 25, 26],
   [0, 1, 2, 3, 4, 5, 34, 43, 52, 61, 70, 79, 6, 8, 15, 16, 17, 24, 25, 26],
   [0, 1, 2, 3, 4, 5, 35, 44, 53, 62, 71, 80, 6, 7, 15, 17, 25, 26, 16, 24, 32, 40, 48, 56, 64, 72],
   [12, 13, 14, 15, 16, 17, 27, 36, 45, 54, 63, 72, 0, 1, 2, 10, 11, 18, 19, 20],
   [12, 13, 14, 15, 16, 17, 28, 37, 46, 55, 64, 73, 1, 2, 9, 11, 18, 19, 0, 20, 30, 40, 50, 60, 70, 80],
   [12, 13, 14, 15, 16, 17, 29, 38, 47, 56, 65, 74, 0, 1, 2, 9, 10, 18, 19, 20],
   [9, 10, 11, 15, 16, 17, 30, 39, 48, 57, 66, 75, 3, 4, 5, 13, 14, 21, 22, 23],
   [9, 10, 11, 15, 16, 17, 31, 40, 49, 58, 67, 76, 3, 4, 5, 12, 14, 21, 22, 23],
   [9, 10, 11, 15, 16, 17, 32, 41, 50, 59, 68, 77, 3, 4, 5, 12, 13, 21, 22, 23],
   [9, 10, 11, 12, 13, 14, 33, 42, 51, 60, 69, 78, 6, 7, 8, 16, 17, 24, 25, 26],
   [9, 10, 11, 12, 13, 14, 34, 43, 52, 61, 70, 79, 6, 7, 15, 17, 25, 26, 8, 24, 32, 40, 48, 56, 64, 72],
   [9, 10, 11, 12, 13, 14, 35, 44, 53, 62, 71, 80, 6, 7, 8, 15, 16, 24, 25, 26],
   [21, 22, 23, 24, 25, 26, 27, 36, 45, 54, 63, 72, 0, 1, 2, 9, 10, 11, 19, 20],
   [21, 22, 23, 24, 25, 26, 28, 37, 46, 55, 64, 73, 0, 1, 2, 9, 10, 11, 18, 20],
   [21, 22, 23, 24, 25, 26, 29, 38, 47, 56, 65, 74, 1, 2, 9, 11, 18, 19, 0, 10, 30, 40, 50, 60, 70, 80],
   [18, 19, 20, 24, 25, 26, 30, 39, 48, 57, 66, 75, 3, 4, 5, 12, 13, 14, 22, 23],
   [18, 19, 20, 24, 25, 26, 31, 40, 49, 58, 67, 76, 3, 4, 5, 12, 13, 14, 21, 23],
   [18, 19, 20, 24, 25, 26, 32, 41, 50, 59, 68, 77, 3, 4, 5, 12, 13, 14, 21, 22],
   [18, 19, 20, 21, 22, 23, 33, 42, 51, 60, 69, 78, 6, 7, 15, 17, 25, 26, 8, 16, 32, 40, 48, 56, 64, 72],
   [18, 19, 20, 21, 22, 23, 34, 43, 52, 61, 70, 79, 6, 7, 8, 15, 16, 17, 24, 26],
   [18, 19, 20, 21, 22, 23, 35, 44, 53, 62, 71, 80, 6, 7, 8, 15, 16, 17, 24, 25],
   [30, 31, 32, 33, 34, 35, 0, 9, 18, 54, 63, 72, 28, 29, 36, 37, 38, 45, 46, 47],
   [30, 31, 32, 33, 34, 35, 1, 10, 19, 55, 64, 73, 27, 29, 36, 37, 38, 45, 46, 47],
   [30, 31, 32, 33, 34, 35, 2, 11, 20, 56, 65, 74, 27, 28, 36, 37, 38, 45, 46, 47],
   [27, 28, 29, 33, 34, 35, 3, 12, 21, 57, 66, 75, 31, 32, 39, 41, 48, 49, 0, 10, 20, 40, 50, 60, 70, 80],
   [27, 28, 29, 33, 34, 35, 4, 13, 22, 58, 67, 76, 30, 32, 39, 40, 41, 48, 49, 50],
   [27, 28, 29, 33, 34, 35, 5, 14, 23, 59, 68, 77, 30, 31, 39, 41, 49, 50, 8, 16, 24, 40, 48, 56, 64, 72],
   [27, 28, 29, 30, 31, 32, 6, 15, 24, 60, 69, 78, 34, 35, 42, 43, 44, 51, 52, 53],
   [27, 28, 29, 30, 31, 32, 7, 16, 25, 61, 70, 79, 33, 35, 42, 43, 44, 51, 52, 53],
   [27, 28, 29, 30, 31, 32, 8, 17, 26, 62, 71, 80, 33, 34, 42, 43, 44, 51, 52, 53],
   [39, 40, 41, 42, 43, 44, 0, 9, 18, 54, 63, 72, 27, 28, 29, 37, 38, 45, 46, 47],
   [39, 40, 41, 42, 43, 44, 1, 10, 19, 55, 64, 73, 27, 28, 29, 36, 38, 45, 46, 47],
   [39, 40, 41, 42, 43, 44, 2, 11, 20, 56, 65, 74, 27, 28, 29, 36, 37, 45, 46, 47],
   [36, 37, 38, 42, 43, 44, 3, 12, 21, 57, 66, 75, 30, 31, 32, 40, 41, 48, 49, 50],
   [36, 37, 38, 42, 43, 44, 4, 13, 22, 58, 67, 76, 31, 39, 41, 49, 0, 10, 20, 30, 50, 60, 70, 80, 8, 16, 24, 32, 48, 56, 64, 72],
   [36, 37, 38, 42, 43, 44, 5, 14, 23, 59, 68, 77, 30, 31, 32, 39, 40, 48, 49, 50],
   [36, 37, 38, 39, 40, 41, 6, 15, 24, 60, 69, 78, 33, 34, 35, 43, 44, 51, 52, 53],
   [36, 37, 38, 39, 40, 41, 7, 16, 25, 61, 70, 79, 33, 34, 35, 42, 44, 51, 52, 53],
   [36, 37, 38, 39, 40, 41, 8, 17, 26, 62, 71, 80, 33, 34, 35, 42, 43, 51, 52, 53],
   [48, 49, 50, 51, 52, 53, 0, 9, 18, 54, 63, 72, 27, 28, 29, 36, 37, 38, 46, 47],
   [48, 49, 50, 51, 52, 53, 1, 10, 19, 55, 64, 73, 27, 28, 29, 36, 37, 38, 45, 47],
   [48, 49, 50, 51, 52, 53, 2, 11, 20, 56, 65, 74, 27, 28, 29, 36, 37, 38, 45, 46],
   [45, 46, 47, 51, 52, 53, 3, 12, 21, 57, 66, 75, 30, 31, 39, 41, 49, 50, 8, 16, 24, 32, 40, 56, 64, 72],
   [45, 46, 47, 51, 52, 53, 4, 13, 22, 58, 67, 76, 30, 31, 32, 39, 40, 41, 48, 50],
   [45, 46, 47, 51, 52, 53, 5, 14, 23, 59, 68, 77, 31, 32, 39, 41, 48, 49, 0, 10, 20, 30, 40, 60, 70, 80],
   [45, 46, 47, 48, 49, 50, 6, 15, 24, 60, 69, 78, 33, 34, 35, 42, 43, 44, 52, 53],
   [45, 46, 47, 48, 49, 50, 7, 16, 25, 61, 70, 79, 33, 34, 35, 42, 43, 44, 51, 53],
   [45, 46, 47, 48, 49, 50, 8, 17, 26, 62, 71, 80, 33, 34, 35, 42, 43, 44, 51, 52],
   [57, 58, 59, 60, 61, 62, 0, 9, 18, 27, 36, 45, 55, 56, 63, 64, 65, 72, 73, 74],
   [57, 58, 59, 60, 61, 62, 1, 10, 19, 28, 37, 46, 54, 56, 63, 64, 65, 72, 73, 74],
   [57, 58, 59, 60, 61, 62, 2, 11, 20, 29, 38, 47, 54, 55, 63, 65, 73, 74, 8, 16, 24, 32, 40, 48, 64, 72],
   [54, 55, 56, 60, 61, 62, 3, 12, 21, 30, 39, 48, 58, 59, 66, 67, 68, 75, 76, 77],
   [54, 55, 56, 60, 61, 62, 4, 13, 22, 31, 40, 49, 57, 59, 66, 67, 68, 75, 76, 77],
   [54, 55, 56, 60, 61, 62, 5, 14, 23, 32, 41, 50, 57, 58, 66, 67, 68, 75, 76, 77],
   [54, 55, 56, 57, 58, 59, 6, 15, 24, 33, 42, 51, 61, 62, 69, 71, 78, 79, 0, 10, 20, 30, 40, 50, 70, 80],
   [54, 55, 56, 57, 58, 59, 7, 16, 25, 34, 43, 52, 60, 62, 69, 70, 71, 78, 79, 80],
   [54, 55, 56, 57, 58, 59, 8, 17, 26, 35, 44, 53, 60, 61, 69, 70, 71, 78, 79, 80],
   [66, 67, 68, 69, 70, 71, 0, 9, 18, 27, 36, 45, 54, 55, 56, 64, 65, 72, 73, 74],
   [66, 67, 68, 69, 70, 71, 1, 10, 19, 28, 37, 46, 54, 55, 63, 65, 73, 74, 8, 16, 24, 32, 40, 48, 56, 72],
   [66, 67, 68, 69, 70, 71, 2, 11, 20, 29, 38, 47, 54, 55, 56, 63, 64, 72, 73, 74],
   [63, 64, 65, 69, 70, 71, 3, 12, 21, 30, 39, 48, 57, 58, 59, 67, 68, 75, 76, 77],
   [63, 64, 65, 69, 70, 71, 4, 13, 22, 31, 40, 49, 57, 58, 59, 66, 68, 75, 76, 77],
   [63, 64, 65, 69, 70, 71, 5, 14, 23, 32, 41, 50, 57, 58, 59, 66, 67, 75, 76, 77],
   [63, 64, 65, 66, 67, 68, 6, 15, 24, 33, 42, 51, 60, 61, 62, 70, 71, 78, 79, 80],
   [63, 64, 65, 66, 67, 68, 7, 16, 25, 34, 43, 52, 61, 62, 69, 71, 78, 79, 0, 10, 20, 30, 40, 50, 60, 80],
   [63, 64, 65, 66, 67, 68, 8, 17, 26, 35, 44, 53, 60, 61, 62, 69, 70, 78, 79, 80],
   [75, 76, 77, 78, 79, 80, 0, 9, 18, 27, 36, 45, 54, 55, 63, 65, 73, 74, 8, 16, 24, 32, 40, 48, 56, 64],
   [75, 76, 77, 78, 79, 80, 1, 10, 19, 28, 37, 46, 54, 55, 56, 63, 64, 65, 72, 74],
   [75, 76, 77, 78, 79, 80, 2, 11, 20, 29, 38, 47, 54, 55, 56, 63, 64, 65, 72, 73],
   [72, 73, 74, 78, 79, 80, 3, 12, 21, 30, 39, 48, 57, 58, 59, 66, 67, 68, 76, 77],
   [72, 73, 74, 78, 79, 80, 4, 13, 22, 31, 40, 49, 57, 58, 59, 66, 67, 68, 75, 77],
   [72, 73, 74, 78, 79, 80, 5, 14, 23, 32, 41, 50, 57, 58, 59, 66, 67, 68, 75, 76],
   [72, 73, 74, 75, 76, 77, 6, 15, 24, 33, 42, 51, 60, 61, 62, 69, 70, 71, 79, 80],
   [72, 73, 74, 75, 76, 77, 7, 16, 25, 34, 43, 52, 60, 61, 62, 69, 70, 71, 78, 80],
   [72, 73, 74, 75, 76, 77, 8, 17, 26, 35, 44, 53, 61, 62, 69, 71, 78, 79, 0, 10, 20, 30, 40, 50, 60, 70]]

/-- `units[s]` (line 14). -/
def units (s : Nat) : List (List Nat) := unitsTable.getD s []

/-- `peers[s]` (line 15). -/
def peers (s : Nat) : List Nat := peersTable.getD s []

/-- Read a cell of the board (the dict lookup `values[box]`). -/
def getCell (values : Board) (box : Nat) : Cell := values.getD box []

/-- Write a cell of the board (`values[box] = …`; `assign_value` from `utils`
    additionally records the assignment for visualization, which has no effect
    on the board). -/
def setCell (values : Board) (box : Nat) (c : Cell) : Board := values.set box c

/-! ## naked_twins (lines 17–57) -/

/-- Line 26: `doubles = [box for box in values.keys() if len(values[box]) == 2]`. -/
def doubles (values : Board) : List Nat :=
  (List.range 81).filter (fun box => (getCell values box).length == 2)

def canonPair (a b : Nat) : Nat × Nat := if a ≤ b then (a, b) else (b, a)

/-- Lines 30–35: the deduplicated set of twin pairs, as canonical `(lo, hi)`
    pairs (the Python code stores `frozenset((box, twin))` in a set). -/
def twinPairs (values : Board) : List (Nat × Nat) :=
  (doubles values).foldl (fun acc box =>
    (peers box).foldl (fun acc2 twin =>
      if getCell values box = getCell values twin then
        if acc2.contains (canonPair box twin) then acc2
        else acc2 ++ [canonPair box twin]
      else acc2) acc) []

/-- Lines 42–50, inner loop for one twin pair: the `(box, value)` removals
    recorded for the shared peers of the pair.  `values[twin1][0]` and
    `values[twin1][1]` are the two twin values (twin cells have length 2). -/
def pairRemovals (values : Board) (p : Nat × Nat) : List (Nat × Nat) :=
  let common := (peers p.1).filter (fun box => (peers p.2).contains box)
  let fv := (getCell values p.1).getD 0 0
  let sv := (getCell values p.1).getD 1 0
  common.foldl (fun acc box =>
    let acc1 := if (getCell values box).contains fv then acc ++ [(box, fv)] else acc
    if (getCell values box).contains sv then acc1 ++ [(box, sv)] else acc1) []

/-- Lines 41–50: `values_to_replace`, computed before any mutation. -/
def values_to_replace (values : Board) : List (Nat × Nat) :=
  (twinPairs values).foldl (fun acc p => acc ++ pairRemovals values p) []

/-- Lines 54–55: apply one recorded removal (`values[box].replace(value,'')`). -/
def applyRemoval (vs : Board) (pr : Nat × Nat) : Board :=
  setCell vs pr.1 ((getCell vs pr.1).filter (fun x => x ≠ pr.2))

/-- `naked_twins` (lines 17–57): detect twins and shared-peer removals on the
    input board, then apply all removals sequentially. -/
def naked_twins (values : Board) : Board :=
  (values_to_replace values).foldl applyRemoval values

/-! ## eliminate (lines 60–79) -/

/-- One iteration of the outer loop of `eliminate` for box `box`: if the box
    has exactly one value, remove that value from every peer. -/
def elimStep (vs : Board) (box : Nat) : Board :=
  match getCell vs box with
  | [d] => (peers box).foldl
      (fun c p => setCell c p ((getCell c p).filter (fun x => x ≠ d))) vs
  | _ => vs

/-- `eliminate` (lines 60–79): iterate over the boxes in dict order, mutating
    the board in place. -/
def eliminate (values : Board) : Board :=
  (List.range 81).foldl elimStep values

/-! ## only_choice (lines 82–102) -/

/-- One step of `only_choice` for a unit and a digit: if exactly one box of
    the unit can contain the digit, assign it. -/
def ocStep (vs : Board) (u : List Nat) (d : Nat) : Board :=
  match u.filter (fun box => (getCell vs box).contains d) with
  | [box] => setCell vs box [d]
  | _ => vs

/-- The inner loop of `only_choice` for one unit: try every digit 1–9. -/
def ocUnit (vs : Board) (u : List Nat) : Board :=
  digits.foldl (fun c d => ocStep c u d) vs

/-- `only_choice` (lines 82–102). -/
def only_choice (values : Board) : Board :=
  unitlist.foldl ocUnit values

/-! ## reduce_puzzle (lines 105–134) -/

/-- One full pass of the reducer: Elimination → Only-Choice → Naked-Twins. -/
def onePass (values : Board) : Board :=
  naked_twins (only_choice (eliminate values))

/-- `len([box for box in values.keys() if len(values[box]) == 1])`. -/
def solvedCount (values : Board) : Nat :=
  (values.filter (fun c => c.length == 1)).length

/-- `'' in list(values.values())` (line 131). -/
def hasEmpty (values : Board) : Bool :=
  values.any (fun c => c.isEmpty)

/-- Sum of the candidate-set sizes; the termination measure of the embedding. -/
def totalSize (values : Board) : Nat :=
  (values.map List.length).sum

/-- Result of `reduce_puzzle`: a board or the Python value `False`. -/
inductive RRes where
  | board (b : Board)
  | fail
  deriving DecidableEq, Repr

/-- The `while not stalled` loop of `reduce_puzzle` (lines 118–134), with
    explicit fuel (`none` = fuel exhausted, proved unreachable below). -/
def reduceLoop : Nat → Board → Option RRes
  | 0, _ => none
  | fuel + 1, values =>
    let before := solvedCount values
    let v := onePass values
    if solvedCount v == before then
      some (if hasEmpty v then RRes.fail else RRes.board v)
    else reduceLoop fuel v

/-- `reduce_puzzle` (lines 105–134); `totalSize values + 1` passes always
    suffice (`reduceLoop_enough_fuel`). -/
def reduce_puzzle (values : Board) : Option RRes :=
  reduceLoop (totalSize values + 1) values

/-- Number of passes the `while` loop of `reduce_puzzle` executes. -/
def reducePassesAux : Nat → Board → Nat
  | 0, _ => 0
  | fuel + 1, values =>
    let v := onePass values
    if solvedCount v == solvedCount values then 1
    else 1 + reducePassesAux fuel v

def reducePasses (values : Board) : Nat :=
  reducePassesAux (totalSize values + 1) values

/-! ## search (lines 137–173) -/

/-- Line 160: `[(box, len(values[box])) for box in values.keys() if len(values[box]) > 1]`. -/
def boxesLengths (values : Board) : List (Nat × Nat) :=
  (values.enum.filter (fun p => p.2.length > 1)).map (fun p => (p.1, p.2.length))

/-- Line 161: `sorted(boxes_lengths, key=lambda box: box[1])` (stable sort by
    the second component). -/
def sortByLen (l : List (Nat × Nat)) : List (Nat × Nat) :=
  l.insertionSort (fun a b => a.2 ≤ b.2)

/-- Python tuple comparison `<` on `(box, len)` pairs. -/
def pairLt (a b : Nat × Nat) : Bool :=
  a.1 < b.1 || (a.1 == b.1 && a.2 < b.2)

/-- Python `min` over a list of tuples (raises on an empty list: `none`). -/
def pyMin : List (Nat × Nat) → Option (Nat × Nat)
  | [] => none
  | x :: xs => some (xs.foldl (fun m y => if pairLt y m then y else m) x)

/-- Line 162: `chosen_box = min(sorted_by_length)[0]`. -/
def chooseBox (values : Board) : Option (Nat × Nat) :=
  pyMin (sortByLen (boxesLengths values))

/-- Result of `search`/`solve`.  Python distinguishes a solved dict, the value
    `False` (from `reduce_puzzle`), and `None` (the implicit return when the
    `for` loop over candidates finishes without success).  `error` models the
    `ValueError` of `min([])`; `outOfFuel` is the embedding's fuel marker.
    Both are proved unreachable below. -/
inductive SRes where
  | ok (b : Board)
  | pyFalse
  | pyNone
  | error
  | outOfFuel
  deriving DecidableEq, Repr

/-- `all(len(values[box]) == 1 for box in boxes)` (line 156). -/
def allSolved (values : Board) : Bool :=
  values.all (fun c => c.length == 1)

/-- One iteration of the candidate loop of `search` (lines 167–173): if a
    previous candidate already succeeded (`if attempt: return attempt`), keep
    that result; otherwise try the next candidate on a copy of the board. -/
def branchStep (recur : Board → SRes) (v : Board) (i : Nat) (acc : SRes) (d : Nat) : SRes :=
  match acc with
  | .pyNone =>
    match recur (setCell v i [d]) with
    | .ok b => .ok b
    | .outOfFuel => .outOfFuel
    | .error => .error
    | _ => .pyNone
  | a => a

/-- The body of `search` after the recursive reduction (lines 149–173): fail
    on `False`, succeed on a fully solved board, otherwise run the candidate
    loop on the chosen box. -/
def searchCore (recur : Board → SRes) (rr : Option RRes) : SRes :=
  match rr with
  | none => .outOfFuel
  | some .fail => .pyFalse
  | some (.board v) =>
    if allSolved v then .ok v
    else
      match chooseBox v with
      | none => .error
      | some m => (getCell v m.1).foldl (branchStep recur v m.1) .pyNone

/-- `search` (lines 137–173) with explicit recursion fuel.  The loop over the
    candidates of the chosen box (lines 167–173) returns the first truthy
    recursive result, else falls through to Python's implicit `None`.
    `display(new_grid)` (line 170) only prints and is omitted. -/
def searchFuel : Nat → Board → SRes
  | 0, _ => .outOfFuel
  | fuel + 1, values => searchCore (fun g => searchFuel fuel g) (reduce_puzzle values)

/-- `search`; `totalSize values + 1` levels of recursion always suffice
    (`searchFuel_enough_fuel`). -/
def search (values : Board) : SRes :=
  searchFuel (totalSize values + 1) values

/-- Modelled from the spec: `grid2values` lives in `utils.py`, which is not
    part of the sources.  Per §6, the input is an 81-character string over
    `{'1'..'9','.'}`, row-major, `'.'` meaning an unconstrained cell (full
    candidate set); a digit character yields a single-candidate cell. -/
def charToCell (ch : Char) : Cell :=
  if ch = '.' then [1, 2, 3, 4, 5, 6, 7, 8, 9] else [ch.toNat - 48]

/-- Modelled from the spec (parsing collaborator of §6): the board produced
    from a grid string. -/
def grid2values (grid : String) : Board :=
  grid.toList.map charToCell

/-- `solve` (lines 176–189). -/
def solve (grid : String) : SRes :=
  search (grid2values grid)

/-! ## Well-formedness -/

/-- A well-formed board: 81 cells, every candidate a digit 1–9.  This is the
    §7 precondition (boards come from the external parser). -/
def WF (values : Board) : Prop :=
  values.length = 81 ∧ ∀ c ∈ values, ∀ d ∈ c, d ∈ digits

/-! ## Concrete boards used in the evaluations below -/

/-- Box-index chunks, for piecewise evaluation of `eliminate`. -/
def idxC0 : List Nat := [0, 1, 2, 3, 4, 5, 6, 7, 8]

def idxC1 : List Nat := [9, 10, 11, 12, 13, 14, 15, 16, 17]

def idxC2 : List Nat := [18, 19, 20, 21, 22, 23, 24, 25, 26]

def idxC3 : List Nat := [27, 28, 29, 30, 31, 32, 33, 34, 35]

def idxC4 : List Nat := [36, 37, 38, 39, 40, 41, 42, 43, 44]

def idxC5 : List Nat := [45, 46, 47, 48, 49, 50, 51, 52, 53]

def idxC6 : List Nat := [54, 55, 56, 57, 58, 59, 60, 61, 62]

def idxC7 : List Nat := [63, 64, 65, 66, 67, 68, 69, 70, 71]

def idxC8 : List Nat := [72, 73, 74, 75, 76, 77, 78, 79, 80]

/-- Unit-list chunks, for piecewise evaluation of `only_choice`. -/
def unitC0 : List (List Nat) :=
  [[0, 1, 2, 3, 4, 5, 6, 7, 8],
   [9, 10, 11, 12, 13, 14, 15, 16, 17],
   [18, 19, 20, 21, 22, 23, 24, 25, 26],
   [27, 28, 29, 30, 31, 32, 33, 34, 35],
   [36, 37, 38, 39, 40, 41, 42, 43, 44],
   [45, 46, 47, 48, 49, 50, 51, 52, 53],
   [54, 55, 56, 57, 58, 59, 60, 61, 62],
   [63, 64, 65, 66, 67, 68, 69, 70, 71],
   [72, 73, 74, 75, 76, 77, 78, 79, 80],
   [0, 9, 18, 27, 36, 45, 54, 63, 72]]

def unitC1 : List (List Nat) :=
  [[1, 10, 19, 28, 37, 46, 55, 64, 73],
   [2, 11, 20, 29, 38, 47, 56, 65, 74],
   [3, 12, 21, 30, 39, 48, 57, 66, 75],
   [4, 13, 22, 31, 40, 49, 58, 67, 76],
   [5, 14, 23, 32, 41, 50, 59, 68, 77],
   [6, 15, 24, 33, 42, 51, 60, 69, 78],
   [7, 16, 25, 34, 43, 52, 61, 70, 79],
   [8, 17, 26, 35, 44, 53, 62, 71, 80],
   [0, 1, 2, 9, 10, 11, 18, 19, 20],
   [3, 4, 5, 12, 13, 14, 21, 22, 23]]

def unitC2 : List (List Nat) :=
  [[6, 7, 8, 15, 16, 17, 24, 25, 26],
   [27, 28, 29, 36, 37, 38, 45, 46, 47],
   [30, 31, 32, 39, 40, 41, 48, 49, 50],
   [33, 34, 35, 42, 43, 44, 51, 52, 53],
   [54, 55, 56, 63, 64, 65, 72, 73, 74],
   [57, 58, 59, 66, 67, 68, 75, 76, 77],
   [60, 61, 62, 69, 70, 71, 78, 79, 80],
   [0, 10, 20, 30, 40, 50, 60, 70, 80],
   [8, 16, 24, 32, 40, 48, 56, 64, 72]]

/-- An unsolvable diagonal-Sudoku grid on which propagation stalls: derived
    from a solved diagonal grid by blanking 14 cells and changing the givens
    at boxes `D7` and `I8` to 9.  Reduction stalls after one pass with box
    `A1` holding `{1, 2}`, and both branches die in the reducer, so `solve`
    exhausts every branch and returns Python `None`. -/
def noneGrid : String :=
  ".6794538.8537.6.4949.8.35765764389..384192657..965743864.3798.59352817647.8564.93"

/-- A grid with a single given (`H9 = 5`), whose reduction stalls with box
    `A1` holding 9 candidates while `H7` holds 8. -/
def c2Grid : String :=
  ".......................................................................5........."

/-- A complete, valid diagonal-Sudoku solution (the solution of the example
    grid from the repository). -/
def solvedGrid : String :=
  "267945381853716249491823576576438192384192657129657438642379815935281764718564923"

/-- Counterexample board: `A1` and `A2` (peers) both solved to 1, all other
    cells unconstrained. -/
def cexBoard : Board := [[1], [1]] ++ List.replicate 79 [1, 2, 3, 4, 5, 6, 7, 8, 9]

/-- A board whose 81 cells are all solved to the digit 1. -/
def allOnes : Board := List.replicate 81 [1]

/-- The fully unconstrained board. -/
def blankBoard : Board := List.replicate 81 [1, 2, 3, 4, 5, 6, 7, 8, 9]

/-- A board with the naked twin pair `A1`, `A2` = 12. -/
def twinBoard : Board := [[1, 2], [1, 2]] ++ List.replicate 79 [1, 2, 3, 4, 5, 6, 7, 8, 9]

def gB0 : Board :=
  [[1, 2, 3, 4, 5, 6, 7, 8, 9],
  [6],
  [7],
  [9],
  [4],
  [5],
  [3],
  [8],
  [1, 2, 3, 4, 5, 6, 7, 8, 9],
  [8],
  [5],
  [3],
  [7],
  [1, 2, 3, 4, 5, 6, 7, 8, 9],
  [6],
  [1, 2, 3, 4, 5, 6, 7, 8, 9],
  [4],
  [9],
  [4],
  [9],
  [1, 2, 3, 4, 5, 6, 7, 8, 9],
  [8],
  [1, 2, 3, 4, 5, 6, 7, 8, 9],
  [3],
  [5],
  [7],
  [6],
  [5],
  [7],
  [6],
  [4],
  [3],
  [8],
  [9],
  [1, 2, 3, 4, 5, 6, 7, 8, 9],
  [1, 2, 3, 4, 5, 6, 7, 8, 9],
  [3],
  [8],
  [4],
  [1],
  [9],
  [2],
  [6],
  [5],
  [7],
  [1, 2, 3, 4, 5, 6, 7, 8, 9],
  [1, 2, 3, 4, 5, 6, 7, 8, 9],
  [9],
  [6],
  [5],
  [7],
  [4],
  [3],
  [8],
  [6],
  [4],
  [1, 2, 3, 4, 5, 6, 7, 8, 9],
  [3],
  [7],
  [9],
  [8],
  [1, 2, 3, 4, 5, 6, 7, 8, 9],
  [5],
  [9],
  [3],
  [5],
  [2],
  [8],
  [1],
  [7],
  [6],
  [4],
  [7],
  [1, 2, 3, 4, 5, 6, 7, 8, 9],
  [8],
  [5],
  [6],
  [4],
  [1, 2, 3, 4, 5, 6, 7, 8, 9],
  [9],
  [3]]

def gB1 : Board :=
  [[1, 2],
  [6],
  [7],
  [9],
  [4],
  [5],
  [3],
  [8],
  [1, 2],
  [8],
  [5],
  [3],
  [7],
  [1, 2],
  [6],
  [1, 2],
  [4],
  [9],
  [4],
  [9],
  [1, 2],
  [8],
  [1, 2],
  [3],
  [5],
  [7],
  [6],
  [5],
  [7],
  [6],
  [4],
  [3],
  [8],
  [9],
  [1, 2],
  [1, 2],
  [3],
  [8],
  [4],
  [1],
  [9],
  [2],
  [6],
  [5],
  [7],
  [1, 2],
  [1, 2],
  [9],
  [6],
  [5],
  [7],
  [4],
  [3],
  [8],
  [6],
  [4],
  [1, 2],
  [3],
  [7],
  [9],
  [8],
  [1, 2],
  [5],
  [9],
  [3],
  [5],
  [2],
  [8],
  [1],
  [7],
  [6],
  [4],
  [7],
  [1, 2],
  [8],
  [5],
  [6],
  [4],
  [1, 2],
  [9],
  [3]]

def gB2 : Board :=
  [[1, 2],
  [6],
  [7],
  [9],
  [4],
  [5],
  [3],
  [8],
  [1, 2],
  [8],
  [5],
  [3],
  [7],
  [1, 2, 3, 6, 7, 8],
  [6],
  [1, 2, 4, 5, 6, 7, 9],
  [4],
  [9],
  [4],
  [9],
  [1, 2, 3, 4, 5, 8, 9],
  [8],
  [1, 2, 3, 6, 7, 8],
  [3],
  [5],
  [7],
  [6],
  [5],
  [7],
  [6],
  [4],
  [3],
  [8],
  [9],
  [1, 2, 3, 4, 5, 6, 7, 9],
  [1, 2, 3, 4, 5, 6, 7, 8, 9],
  [3],
  [8],
  [4],
  [1],
  [9],
  [2],
  [6],
  [5],
  [7],
  [1, 2, 3, 4, 5, 6, 7, 8, 9],
  [1, 2, 3, 4, 5, 7, 8, 9],
  [9],
  [6],
  [5],
  [7],
  [4],
  [3],
  [8],
  [6],
  [4],
  [1, 2, 3, 4, 5, 6, 8, 9],
  [3],
  [7],
  [9],
  [8],
  [1, 2, 3, 4, 5, 6, 7, 9],
  [5],
  [9],
  [3],
  [5],
  [2],
  [8],
  [1],
  [7],
  [6],
  [4],
  [7],
  [1, 2, 3, 4, 5, 7, 8, 9],
  [8],
  [5],
  [6],
  [4],
  [1, 2, 4, 5, 6, 7, 8, 9],
  [9],
  [3]]

def gB3 : Board :=
  [[1, 2],
  [6],
  [7],
  [9],
  [4],
  [5],
  [3],
  [8],
  [1, 2],
  [8],
  [5],
  [3],
  [7],
  [1, 2],
  [6],
  [1, 2],
  [4],
  [9],
  [4],
  [9],
  [1, 2, 4, 9],
  [8],
  [1, 2, 3, 8],
  [3],
  [5],
  [7],
  [6],
  [5],
  [7],
  [6],
  [4],
  [3],
  [8],
  [9],
  [1, 2, 3, 5, 6, 7, 9],
  [1, 2, 3, 4, 5, 6, 7, 8],
  [3],
  [8],
  [4],
  [1],
  [9],
  [2],
  [6],
  [5],
  [7],
  [1, 2, 3, 4, 5, 6, 7, 9],
  [1, 2, 3, 4, 7, 8, 9],
  [9],
  [6],
  [5],
  [7],
  [4],
  [3],
  [8],
  [6],
  [4],
  [1, 2, 5, 6, 8, 9],
  [3],
  [7],
  [9],
  [8],
  [1, 2, 3, 5, 6, 7, 9],
  [5],
  [9],
  [3],
  [5],
  [2],
  [8],
  [1],
  [7],
  [6],
  [4],
  [7],
  [1, 2, 3, 4, 7, 8, 9],
  [8],
  [5],
  [6],
  [4],
  [1, 2, 4, 5, 6, 7, 8, 9],
  [9],
  [3]]

def gB4 : Board :=
  [[1, 2],
  [6],
  [7],
  [9],
  [4],
  [5],
  [3],
  [8],
  [1, 2],
  [8],
  [5],
  [3],
  [7],
  [1, 2],
  [6],
  [1, 2],
  [4],
  [9],
  [4],
  [9],
  [1, 2],
  [8],
  [1, 2],
  [3],
  [5],
  [7],
  [6],
  [5],
  [7],
  [6],
  [4],
  [3],
  [8],
  [9],
  [1, 2, 3, 5, 6, 9],
  [1, 2, 3, 4, 5, 7, 8],
  [3],
  [8],
  [4],
  [1],
  [9],
  [2],
  [6],
  [5],
  [7],
  [1, 2, 3, 5, 6, 7, 9],
  [1, 2, 3, 4, 7, 8],
  [9],
  [6],
  [5],
  [7],
  [4],
  [3],
  [8],
  [6],
  [4],
  [1, 2, 6, 8, 9],
  [3],
  [7],
  [9],
  [8],
  [1, 2, 3, 5, 6, 9],
  [5],
  [9],
  [3],
  [5],
  [2],
  [8],
  [1],
  [7],
  [6],
  [4],
  [7],
  [1, 2, 3, 4, 7, 8],
  [8],
  [5],
  [6],
  [4],
  [1, 2, 4, 6, 7, 8, 9],
  [9],
  [3]]

def gB5 : Board :=
  [[1, 2],
  [6],
  [7],
  [9],
  [4],
  [5],
  [3],
  [8],
  [1, 2],
  [8],
  [5],
  [3],
  [7],
  [1, 2],
  [6],
  [1, 2],
  [4],
  [9],
  [4],
  [9],
  [1, 2],
  [8],
  [1, 2],
  [3],
  [5],
  [7],
  [6],
  [5],
  [7],
  [6],
  [4],
  [3],
  [8],
  [9],
  [1, 2],
  [1, 2],
  [3],
  [8],
  [4],
  [1],
  [9],
  [2],
  [6],
  [5],
  [7],
  [1, 2, 3, 9],
  [1, 2, 3, 4, 8],
  [9],
  [6],
  [5],
  [7],
  [4],
  [3],
  [8],
  [6],
  [4],
  [1, 2, 9],
  [3],
  [7],
  [9],
  [8],
  [1, 2, 3, 5, 6, 9],
  [5],
  [9],
  [3],
  [5],
  [2],
  [8],
  [1],
  [7],
  [6],
  [4],
  [7],
  [1, 2, 3, 4, 8],
  [8],
  [5],
  [6],
  [4],
  [1, 2, 4, 6, 7, 8],
  [9],
  [3]]

def gB6 : Board :=
  [[1, 2],
  [6],
  [7],
  [9],
  [4],
  [5],
  [3],
  [8],
  [1, 2],
  [8],
  [5],
  [3],
  [7],
  [1, 2],
  [6],
  [1, 2],
  [4],
  [9],
  [4],
  [9],
  [1, 2],
  [8],
  [1, 2],
  [3],
  [5],
  [7],
  [6],
  [5],
  [7],
  [6],
  [4],
  [3],
  [8],
  [9],
  [1, 2],
  [1, 2],
  [3],
  [8],
  [4],
  [1],
  [9],
  [2],
  [6],
  [5],
  [7],
  [1, 2, 9],
  [1, 2],
  [9],
  [6],
  [5],
  [7],
  [4],
  [3],
  [8],
  [6],
  [4],
  [1, 2],
  [3],
  [7],
  [9],
  [8],
  [1, 2, 3, 6, 9],
  [5],
  [9],
  [3],
  [5],
  [2],
  [8],
  [1],
  [7],
  [6],
  [4],
  [7],
  [1, 2, 3, 4],
  [8],
  [5],
  [6],
  [4],
  [1, 2, 4, 7, 8],
  [9],
  [3]]

def gB7 : Board :=
  [[1, 2],
  [6],
  [7],
  [9],
  [4],
  [5],
  [3],
  [8],
  [1, 2],
  [8],
  [5],
  [3],
  [7],
  [1, 2],
  [6],
  [1, 2],
  [4],
  [9],
  [4],
  [9],
  [1, 2],
  [8],
  [1, 2],
  [3],
  [5],
  [7],
  [6],
  [5],
  [7],
  [6],
  [4],
  [3],
  [8],
  [9],
  [1, 2],
  [1, 2],
  [3],
  [8],
  [4],
  [1],
  [9],
  [2],
  [6],
  [5],
  [7],
  [1, 2],
  [1, 2],
  [9],
  [6],
  [5],
  [7],
  [4],
  [3],
  [8],
  [6],
  [4],
  [1, 2],
  [3],
  [7],
  [9],
  [8],
  [1, 2, 6, 9],
  [5],
  [9],
  [3],
  [5],
  [2],
  [8],
  [1],
  [7],
  [6],
  [4],
  [7],
  [1, 2, 3, 4],
  [8],
  [5],
  [6],
  [4],
  [1, 2, 7, 8],
  [9],
  [3]]

def gB8 : Board :=
  [[1, 2],
  [6],
  [7],
  [9],
  [4],
  [5],
  [3],
  [8],
  [1, 2],
  [8],
  [5],
  [3],
  [7],
  [1, 2],
  [6],
  [1, 2],
  [4],
  [9],
  [4],
  [9],
  [1, 2],
  [8],
  [1, 2],
  [3],
  [5],
  [7],
  [6],
  [5],
  [7],
  [6],
  [4],
  [3],
  [8],
  [9],
  [1, 2],
  [1, 2],
  [3],
  [8],
  [4],
  [1],
  [9],
  [2],
  [6],
  [5],
  [7],
  [1, 2],
  [1, 2],
  [9],
  [6],
  [5],
  [7],
  [4],
  [3],
  [8],
  [6],
  [4],
  [1, 2],
  [3],
  [7],
  [9],
  [8],
  [1, 2],
  [5],
  [9],
  [3],
  [5],
  [2],
  [8],
  [1],
  [7],
  [6],
  [4],
  [7],
  [1, 2, 3],
  [8],
  [5],
  [6],
  [4],
  [1, 2, 7],
  [9],
  [3]]

def gB9 : Board :=
  [[1],
  [6],
  [7],
  [9],
  [4],
  [5],
  [3],
  [8],
  [1, 2],
  [8],
  [5],
  [3],
  [7],
  [1, 2],
  [6],
  [1, 2],
  [4],
  [9],
  [4],
  [9],
  [1, 2],
  [8],
  [1, 2],
  [3],
  [5],
  [7],
  [6],
  [5],
  [7],
  [6],
  [4],
  [3],
  [8],
  [9],
  [1, 2],
  [1, 2],
  [3],
  [8],
  [4],
  [1],
  [9],
  [2],
  [6],
  [5],
  [7],
  [1, 2],
  [1, 2],
  [9],
  [6],
  [5],
  [7],
  [4],
  [3],
  [8],
  [6],
  [4],
  [1, 2],
  [3],
  [7],
  [9],
  [8],
  [1, 2],
  [5],
  [9],
  [3],
  [5],
  [2],
  [8],
  [1],
  [7],
  [6],
  [4],
  [7],
  [1, 2],
  [8],
  [5],
  [6],
  [4],
  [1, 2],
  [9],
  [3]]

def gB10 : Board :=
  [[1],
  [6],
  [7],
  [9],
  [4],
  [5],
  [3],
  [8],
  [2],
  [8],
  [5],
  [3],
  [7],
  [2],
  [6],
  [1],
  [4],
  [9],
  [4],
  [9],
  [2],
  [8],
  [1],
  [3],
  [5],
  [7],
  [6],
  [5],
  [7],
  [6],
  [4],
  [3],
  [8],
  [9],
  [],
  [1],
  [3],
  [8],
  [4],
  [1],
  [9],
  [2],
  [6],
  [5],
  [7],
  [2],
  [1],
  [9],
  [6],
  [5],
  [7],
  [4],
  [3],
  [8],
  [6],
  [4],
  [1],
  [3],
  [7],
  [9],
  [8],
  [2],
  [5],
  [9],
  [3],
  [5],
  [2],
  [8],
  [1],
  [7],
  [6],
  [4],
  [7],
  [2],
  [8],
  [5],
  [6],
  [4],
  [],
  [9],
  [3]]

def gB11 : Board :=
  [[1],
  [6],
  [7],
  [9],
  [4],
  [5],
  [3],
  [8],
  [2],
  [8],
  [5],
  [3],
  [7],
  [1, 2],
  [6],
  [1],
  [4],
  [9],
  [4],
  [9],
  [2],
  [8],
  [1, 2],
  [3],
  [5],
  [7],
  [6],
  [5],
  [7],
  [6],
  [4],
  [3],
  [8],
  [9],
  [1, 2],
  [1],
  [3],
  [8],
  [4],
  [1],
  [9],
  [2],
  [6],
  [5],
  [7],
  [2],
  [1, 2],
  [9],
  [6],
  [5],
  [7],
  [4],
  [3],
  [8],
  [6],
  [4],
  [1],
  [3],
  [7],
  [9],
  [8],
  [1, 2],
  [5],
  [9],
  [3],
  [5],
  [2],
  [8],
  [1],
  [7],
  [6],
  [4],
  [7],
  [1, 2],
  [8],
  [5],
  [6],
  [4],
  [1, 2],
  [9],
  [3]]

def gB12 : Board :=
  [[1],
  [6],
  [7],
  [9],
  [4],
  [5],
  [3],
  [8],
  [2],
  [8],
  [5],
  [3],
  [7],
  [2],
  [6],
  [1],
  [4],
  [9],
  [4],
  [9],
  [2],
  [8],
  [1, 2],
  [3],
  [5],
  [7],
  [6],
  [5],
  [7],
  [6],
  [4],
  [3],
  [8],
  [9],
  [1, 2],
  [1],
  [3],
  [8],
  [4],
  [1],
  [9],
  [2],
  [6],
  [5],
  [7],
  [2],
  [1, 2],
  [9],
  [6],
  [5],
  [7],
  [4],
  [3],
  [8],
  [6],
  [4],
  [1],
  [3],
  [7],
  [9],
  [8],
  [1, 2],
  [5],
  [9],
  [3],
  [5],
  [2],
  [8],
  [1],
  [7],
  [6],
  [4],
  [7],
  [1, 2],
  [8],
  [5],
  [6],
  [4],
  [2],
  [9],
  [3]]

def gB13 : Board :=
  [[1],
  [6],
  [7],
  [9],
  [4],
  [5],
  [3],
  [8],
  [2],
  [8],
  [5],
  [3],
  [7],
  [2],
  [6],
  [1],
  [4],
  [9],
  [4],
  [9],
  [2],
  [8],
  [1],
  [3],
  [5],
  [7],
  [6],
  [5],
  [7],
  [6],
  [4],
  [3],
  [8],
  [9],
  [1, 2],
  [1],
  [3],
  [8],
  [4],
  [1],
  [9],
  [2],
  [6],
  [5],
  [7],
  [2],
  [1, 2],
  [9],
  [6],
  [5],
  [7],
  [4],
  [3],
  [8],
  [6],
  [4],
  [1],
  [3],
  [7],
  [9],
  [8],
  [1, 2],
  [5],
  [9],
  [3],
  [5],
  [2],
  [8],
  [1],
  [7],
  [6],
  [4],
  [7],
  [1, 2],
  [8],
  [5],
  [6],
  [4],
  [2],
  [9],
  [3]]

def gB14 : Board :=
  [[1],
  [6],
  [7],
  [9],
  [4],
  [5],
  [3],
  [8],
  [2],
  [8],
  [5],
  [3],
  [7],
  [2],
  [6],
  [1],
  [4],
  [9],
  [4],
  [9],
  [2],
  [8],
  [1],
  [3],
  [5],
  [7],
  [6],
  [5],
  [7],
  [6],
  [4],
  [3],
  [8],
  [9],
  [2],
  [1],
  [3],
  [8],
  [4],
  [1],
  [9],
  [2],
  [6],
  [5],
  [7],
  [2],
  [1, 2],
  [9],
  [6],
  [5],
  [7],
  [4],
  [3],
  [8],
  [6],
  [4],
  [1],
  [3],
  [7],
  [9],
  [8],
  [1, 2],
  [5],
  [9],
  [3],
  [5],
  [2],
  [8],
  [1],
  [7],
  [6],
  [4],
  [7],
  [1, 2],
  [8],
  [5],
  [6],
  [4],
  [2],
  [9],
  [3]]

def gB15 : Board :=
  [[1],
  [6],
  [7],
  [9],
  [4],
  [5],
  [3],
  [8],
  [2],
  [8],
  [5],
  [3],
  [7],
  [2],
  [6],
  [1],
  [4],
  [9],
  [4],
  [9],
  [2],
  [8],
  [1],
  [3],
  [5],
  [7],
  [6],
  [5],
  [7],
  [6],
  [4],
  [3],
  [8],
  [9],
  [2],
  [1],
  [3],
  [8],
  [4],
  [1],
  [9],
  [2],
  [6],
  [5],
  [7],
  [2],
  [1],
  [9],
  [6],
  [5],
  [7],
  [4],
  [3],
  [8],
  [6],
  [4],
  [1],
  [3],
  [7],
  [9],
  [8],
  [1, 2],
  [5],
  [9],
  [3],
  [5],
  [2],
  [8],
  [1],
  [7],
  [6],
  [4],
  [7],
  [2],
  [8],
  [5],
  [6],
  [4],
  [2],
  [9],
  [3]]

def gB16 : Board :=
  [[2],
  [6],
  [7],
  [9],
  [4],
  [5],
  [3],
  [8],
  [1, 2],
  [8],
  [5],
  [3],
  [7],
  [1, 2],
  [6],
  [1, 2],
  [4],
  [9],
  [4],
  [9],
  [1, 2],
  [8],
  [1, 2],
  [3],
  [5],
  [7],
  [6],
  [5],
  [7],
  [6],
  [4],
  [3],
  [8],
  [9],
  [1, 2],
  [1, 2],
  [3],
  [8],
  [4],
  [1],
  [9],
  [2],
  [6],
  [5],
  [7],
  [1, 2],
  [1, 2],
  [9],
  [6],
  [5],
  [7],
  [4],
  [3],
  [8],
  [6],
  [4],
  [1, 2],
  [3],
  [7],
  [9],
  [8],
  [1, 2],
  [5],
  [9],
  [3],
  [5],
  [2],
  [8],
  [1],
  [7],
  [6],
  [4],
  [7],
  [1, 2],
  [8],
  [5],
  [6],
  [4],
  [1, 2],
  [9],
  [3]]

def gB17 : Board :=
  [[2],
  [6],
  [7],
  [9],
  [4],
  [5],
  [3],
  [8],
  [1],
  [8],
  [5],
  [3],
  [7],
  [1],
  [6],
  [2],
  [4],
  [9],
  [4],
  [9],
  [1],
  [8],
  [2],
  [3],
  [5],
  [7],
  [6],
  [5],
  [7],
  [6],
  [4],
  [3],
  [8],
  [9],
  [],
  [2],
  [3],
  [8],
  [4],
  [1],
  [9],
  [2],
  [6],
  [5],
  [7],
  [1],
  [2],
  [9],
  [6],
  [5],
  [7],
  [4],
  [3],
  [8],
  [6],
  [4],
  [2],
  [3],
  [7],
  [9],
  [8],
  [1],
  [5],
  [9],
  [3],
  [5],
  [2],
  [8],
  [1],
  [7],
  [6],
  [4],
  [7],
  [1],
  [8],
  [5],
  [6],
  [4],
  [],
  [9],
  [3]]

def gB18 : Board :=
  [[2],
  [6],
  [7],
  [9],
  [4],
  [5],
  [3],
  [8],
  [1],
  [8],
  [5],
  [3],
  [7],
  [1, 2],
  [6],
  [2],
  [4],
  [9],
  [4],
  [9],
  [1],
  [8],
  [1, 2],
  [3],
  [5],
  [7],
  [6],
  [5],
  [7],
  [6],
  [4],
  [3],
  [8],
  [9],
  [1, 2],
  [2],
  [3],
  [8],
  [4],
  [1],
  [9],
  [2],
  [6],
  [5],
  [7],
  [1],
  [1, 2],
  [9],
  [6],
  [5],
  [7],
  [4],
  [3],
  [8],
  [6],
  [4],
  [2],
  [3],
  [7],
  [9],
  [8],
  [1, 2],
  [5],
  [9],
  [3],
  [5],
  [2],
  [8],
  [1],
  [7],
  [6],
  [4],
  [7],
  [1, 2],
  [8],
  [5],
  [6],
  [4],
  [1, 2],
  [9],
  [3]]

def gB19 : Board :=
  [[2],
  [6],
  [7],
  [9],
  [4],
  [5],
  [3],
  [8],
  [1],
  [8],
  [5],
  [3],
  [7],
  [1],
  [6],
  [2],
  [4],
  [9],
  [4],
  [9],
  [1],
  [8],
  [1, 2],
  [3],
  [5],
  [7],
  [6],
  [5],
  [7],
  [6],
  [4],
  [3],
  [8],
  [9],
  [1, 2],
  [2],
  [3],
  [8],
  [4],
  [1],
  [9],
  [2],
  [6],
  [5],
  [7],
  [1],
  [1, 2],
  [9],
  [6],
  [5],
  [7],
  [4],
  [3],
  [8],
  [6],
  [4],
  [2],
  [3],
  [7],
  [9],
  [8],
  [1, 2],
  [5],
  [9],
  [3],
  [5],
  [2],
  [8],
  [1],
  [7],
  [6],
  [4],
  [7],
  [1, 2],
  [8],
  [5],
  [6],
  [4],
  [1],
  [9],
  [3]]

def gB20 : Board :=
  [[2],
  [6],
  [7],
  [9],
  [4],
  [5],
  [3],
  [8],
  [1],
  [8],
  [5],
  [3],
  [7],
  [1],
  [6],
  [2],
  [4],
  [9],
  [4],
  [9],
  [1],
  [8],
  [2],
  [3],
  [5],
  [7],
  [6],
  [5],
  [7],
  [6],
  [4],
  [3],
  [8],
  [9],
  [1, 2],
  [2],
  [3],
  [8],
  [4],
  [1],
  [9],
  [2],
  [6],
  [5],
  [7],
  [1],
  [1, 2],
  [9],
  [6],
  [5],
  [7],
  [4],
  [3],
  [8],
  [6],
  [4],
  [2],
  [3],
  [7],
  [9],
  [8],
  [1, 2],
  [5],
  [9],
  [3],
  [5],
  [2],
  [8],
  [1],
  [7],
  [6],
  [4],
  [7],
  [1, 2],
  [8],
  [5],
  [6],
  [4],
  [1],
  [9],
  [3]]

def gB21 : Board :=
  [[2],
  [6],
  [7],
  [9],
  [4],
  [5],
  [3],
  [8],
  [1],
  [8],
  [5],
  [3],
  [7],
  [1],
  [6],
  [2],
  [4],
  [9],
  [4],
  [9],
  [1],
  [8],
  [2],
  [3],
  [5],
  [7],
  [6],
  [5],
  [7],
  [6],
  [4],
  [3],
  [8],
  [9],
  [1],
  [2],
  [3],
  [8],
  [4],
  [1],
  [9],
  [2],
  [6],
  [5],
  [7],
  [1],
  [1, 2],
  [9],
  [6],
  [5],
  [7],
  [4],
  [3],
  [8],
  [6],
  [4],
  [2],
  [3],
  [7],
  [9],
  [8],
  [1, 2],
  [5],
  [9],
  [3],
  [5],
  [2],
  [8],
  [1],
  [7],
  [6],
  [4],
  [7],
  [1, 2],
  [8],
  [5],
  [6],
  [4],
  [1],
  [9],
  [3]]

def gB22 : Board :=
  [[2],
  [6],
  [7],
  [9],
  [4],
  [5],
  [3],
  [8],
  [1],
  [8],
  [5],
  [3],
  [7],
  [1],
  [6],
  [2],
  [4],
  [9],
  [4],
  [9],
  [1],
  [8],
  [2],
  [3],
  [5],
  [7],
  [6],
  [5],
  [7],
  [6],
  [4],
  [3],
  [8],
  [9],
  [1],
  [2],
  [3],
  [8],
  [4],
  [1],
  [9],
  [2],
  [6],
  [5],
  [7],
  [1],
  [2],
  [9],
  [6],
  [5],
  [7],
  [4],
  [3],
  [8],
  [6],
  [4],
  [2],
  [3],
  [7],
  [9],
  [8],
  [1, 2],
  [5],
  [9],
  [3],
  [5],
  [2],
  [8],
  [1],
  [7],
  [6],
  [4],
  [7],
  [1],
  [8],
  [5],
  [6],
  [4],
  [1],
  [9],
  [3]]

def gB23 : Board :=
  [[1, 2, 3, 4, 5, 6, 7, 8, 9],
  [1, 2, 3, 4, 5, 6, 7, 8, 9],
  [1, 2, 3, 4, 5, 6, 7, 8, 9],
  [1, 2, 3, 4, 5, 6, 7, 8, 9],
  [1, 2, 3, 4, 5, 6, 7, 8, 9],
  [1, 2, 3, 4, 5, 6, 7, 8, 9],
  [1, 2, 3, 4, 5, 6, 7, 8, 9],
  [1, 2, 3, 4, 5, 6, 7, 8, 9],
  [1, 2, 3, 4, 5, 6, 7, 8, 9],
  [1, 2, 3, 4, 5, 6, 7, 8, 9],
  [1, 2, 3, 4, 5, 6, 7, 8, 9],
  [1, 2, 3, 4, 5, 6, 7, 8, 9],
  [1, 2, 3, 4, 5, 6, 7, 8, 9],
  [1, 2, 3, 4, 5, 6, 7, 8, 9],
  [1, 2, 3, 4, 5, 6, 7, 8, 9],
  [1, 2, 3, 4, 5, 6, 7, 8, 9],
  [1, 2, 3, 4, 5, 6, 7, 8, 9],
  [1, 2, 3, 4, 5, 6, 7, 8, 9],
  [1, 2, 3, 4, 5, 6, 7, 8, 9],
  [1, 2, 3, 4, 5, 6, 7, 8, 9],
  [1, 2, 3, 4, 5, 6, 7, 8, 9],
  [1, 2, 3, 4, 5, 6, 7, 8, 9],
  [1, 2, 3, 4, 5, 6, 7, 8, 9],
  [1, 2, 3, 4, 5, 6, 7, 8, 9],
  [1, 2, 3, 4, 5, 6, 7, 8, 9],
  [1, 2, 3, 4, 5, 6, 7, 8, 9],
  [1, 2, 3, 4, 5, 6, 7, 8, 9],
  [1, 2, 3, 4, 5, 6, 7, 8, 9],
  [1, 2, 3, 4, 5, 6, 7, 8, 9],
  [1, 2, 3, 4, 5, 6, 7, 8, 9],
  [1, 2, 3, 4, 5, 6, 7, 8, 9],
  [1, 2, 3, 4, 5, 6, 7, 8, 9],
  [1, 2, 3, 4, 5, 6, 7, 8, 9],
  [1, 2, 3, 4, 5, 6, 7, 8, 9],
  [1, 2, 3, 4, 5, 6, 7, 8, 9],
  [1, 2, 3, 4, 5, 6, 7, 8, 9],
  [1, 2, 3, 4, 5, 6, 7, 8, 9],
  [1, 2, 3, 4, 5, 6, 7, 8, 9],
  [1, 2, 3, 4, 5, 6, 7, 8, 9],
  [1, 2, 3, 4, 5, 6, 7, 8, 9],
  [1, 2, 3, 4, 5, 6, 7, 8, 9],
  [1, 2, 3, 4, 5, 6, 7, 8, 9],
  [1, 2, 3, 4, 5, 6, 7, 8, 9],
  [1, 2, 3, 4, 5, 6, 7, 8, 9],
  [1, 2, 3, 4, 5, 6, 7, 8, 9],
  [1, 2, 3, 4, 5, 6, 7, 8, 9],
  [1, 2, 3, 4, 5, 6, 7, 8, 9],
  [1, 2, 3, 4, 5, 6, 7, 8, 9],
  [1, 2, 3, 4, 5, 6, 7, 8, 9],
  [1, 2, 3, 4, 5, 6, 7, 8, 9],
  [1, 2, 3, 4, 5, 6, 7, 8, 9],
  [1, 2, 3, 4, 5, 6, 7, 8, 9],
  [1, 2, 3, 4, 5, 6, 7, 8, 9],
  [1, 2, 3, 4, 5, 6, 7, 8, 9],
  [1, 2, 3, 4, 5, 6, 7, 8, 9],
  [1, 2, 3, 4, 5, 6, 7, 8, 9],
  [1, 2, 3, 4, 5, 6, 7, 8, 9],
  [1, 2, 3, 4, 5, 6, 7, 8, 9],
  [1, 2, 3, 4, 5, 6, 7, 8, 9],
  [1, 2, 3, 4, 5, 6, 7, 8, 9],
  [1, 2, 3, 4, 5, 6, 7, 8, 9],
  [1, 2, 3, 4, 5, 6, 7, 8, 9],
  [1, 2, 3, 4, 5, 6, 7, 8, 9],
  [1, 2, 3, 4, 5, 6, 7, 8, 9],
  [1, 2, 3, 4, 5, 6, 7, 8, 9],
  [1, 2, 3, 4, 5, 6, 7, 8, 9],
  [1, 2, 3, 4, 5, 6, 7, 8, 9],
  [1, 2, 3, 4, 5, 6, 7, 8, 9],
  [1, 2, 3, 4, 5, 6, 7, 8, 9],
  [1, 2, 3, 4, 5, 6, 7, 8, 9],
  [1, 2, 3, 4, 5, 6, 7, 8, 9],
  [5],
  [1, 2, 3, 4, 5, 6, 7, 8, 9],
  [1, 2, 3, 4, 5, 6, 7, 8, 9],
  [1, 2, 3, 4, 5, 6, 7, 8, 9],
  [1, 2, 3, 4, 5, 6, 7, 8, 9],
  [1, 2, 3, 4, 5, 6, 7, 8, 9],
  [1, 2, 3, 4, 5, 6, 7, 8, 9],
  [1, 2, 3, 4, 5, 6, 7, 8, 9],
  [1, 2, 3, 4, 5, 6, 7, 8, 9],
  [1, 2, 3, 4, 5, 6, 7, 8, 9]]

def gB24 : Board :=
  [[1, 2, 3, 4, 5, 6, 7, 8, 9],
  [1, 2, 3, 4, 5, 6, 7, 8, 9],
  [1, 2, 3, 4, 5, 6, 7, 8, 9],
  [1, 2, 3, 4, 5, 6, 7, 8, 9],
  [1, 2, 3, 4, 5, 6, 7, 8, 9],
  [1, 2, 3, 4, 5, 6, 7, 8, 9],
  [1, 2, 3, 4, 5, 6, 7, 8, 9],
  [1, 2, 3, 4, 5, 6, 7, 8, 9],
  [1, 2, 3, 4, 6, 7, 8, 9],
  [1, 2, 3, 4, 5, 6, 7, 8, 9],
  [1, 2, 3, 4, 5, 6, 7, 8, 9],
  [1, 2, 3, 4, 5, 6, 7, 8, 9],
  [1, 2, 3, 4, 5, 6, 7, 8, 9],
  [1, 2, 3, 4, 5, 6, 7, 8, 9],
  [1, 2, 3, 4, 5, 6, 7, 8, 9],
  [1, 2, 3, 4, 5, 6, 7, 8, 9],
  [1, 2, 3, 4, 5, 6, 7, 8, 9],
  [1, 2, 3, 4, 6, 7, 8, 9],
  [1, 2, 3, 4, 5, 6, 7, 8, 9],
  [1, 2, 3, 4, 5, 6, 7, 8, 9],
  [1, 2, 3, 4, 5, 6, 7, 8, 9],
  [1, 2, 3, 4, 5, 6, 7, 8, 9],
  [1, 2, 3, 4, 5, 6, 7, 8, 9],
  [1, 2, 3, 4, 5, 6, 7, 8, 9],
  [1, 2, 3, 4, 5, 6, 7, 8, 9],
  [1, 2, 3, 4, 5, 6, 7, 8, 9],
  [1, 2, 3, 4, 6, 7, 8, 9],
  [1, 2, 3, 4, 5, 6, 7, 8, 9],
  [1, 2, 3, 4, 5, 6, 7, 8, 9],
  [1, 2, 3, 4, 5, 6, 7, 8, 9],
  [1, 2, 3, 4, 5, 6, 7, 8, 9],
  [1, 2, 3, 4, 5, 6, 7, 8, 9],
  [1, 2, 3, 4, 5, 6, 7, 8, 9],
  [1, 2, 3, 4, 5, 6, 7, 8, 9],
  [1, 2, 3, 4, 5, 6, 7, 8, 9],
  [1, 2, 3, 4, 6, 7, 8, 9],
  [1, 2, 3, 4, 5, 6, 7, 8, 9],
  [1, 2, 3, 4, 5, 6, 7, 8, 9],
  [1, 2, 3, 4, 5, 6, 7, 8, 9],
  [1, 2, 3, 4, 5, 6, 7, 8, 9],
  [1, 2, 3, 4, 5, 6, 7, 8, 9],
  [1, 2, 3, 4, 5, 6, 7, 8, 9],
  [1, 2, 3, 4, 5, 6, 7, 8, 9],
  [1, 2, 3, 4, 5, 6, 7, 8, 9],
  [1, 2, 3, 4, 6, 7, 8, 9],
  [1, 2, 3, 4, 5, 6, 7, 8, 9],
  [1, 2, 3, 4, 5, 6, 7, 8, 9],
  [1, 2, 3, 4, 5, 6, 7, 8, 9],
  [1, 2, 3, 4, 5, 6, 7, 8, 9],
  [1, 2, 3, 4, 5, 6, 7, 8, 9],
  [1, 2, 3, 4, 5, 6, 7, 8, 9],
  [1, 2, 3, 4, 5, 6, 7, 8, 9],
  [1, 2, 3, 4, 5, 6, 7, 8, 9],
  [1, 2, 3, 4, 6, 7, 8, 9],
  [1, 2, 3, 4, 5, 6, 7, 8, 9],
  [1, 2, 3, 4, 5, 6, 7, 8, 9],
  [1, 2, 3, 4, 5, 6, 7, 8, 9],
  [1, 2, 3, 4, 5, 6, 7, 8, 9],
  [1, 2, 3, 4, 5, 6, 7, 8, 9],
  [1, 2, 3, 4, 5, 6, 7, 8, 9],
  [1, 2, 3, 4, 6, 7, 8, 9],
  [1, 2, 3, 4, 6, 7, 8, 9],
  [1, 2, 3, 4, 6, 7, 8, 9],
  [1, 2, 3, 4, 6, 7, 8, 9],
  [1, 2, 3, 4, 6, 7, 8, 9],
  [1, 2, 3, 4, 6, 7, 8, 9],
  [1, 2, 3, 4, 6, 7, 8, 9],
  [1, 2, 3, 4, 6, 7, 8, 9],
  [1, 2, 3, 4, 6, 7, 8, 9],
  [1, 2, 3, 4, 6, 7, 8, 9],
  [1, 2, 3, 4, 6, 7, 8, 9],
  [5],
  [1, 2, 3, 4, 5, 6, 7, 8, 9],
  [1, 2, 3, 4, 5, 6, 7, 8, 9],
  [1, 2, 3, 4, 5, 6, 7, 8, 9],
  [1, 2, 3, 4, 5, 6, 7, 8, 9],
  [1, 2, 3, 4, 5, 6, 7, 8, 9],
  [1, 2, 3, 4, 5, 6, 7, 8, 9],
  [1, 2, 3, 4, 6, 7, 8, 9],
  [1, 2, 3, 4, 6, 7, 8, 9],
  [1, 2, 3, 4, 6, 7, 8, 9]]

def gB25 : Board :=
  [[1],
  [1],
  [1, 2, 3, 4, 5, 6, 7, 8, 9],
  [1, 2, 3, 4, 5, 6, 7, 8, 9],
  [1, 2, 3, 4, 5, 6, 7, 8, 9],
  [1, 2, 3, 4, 5, 6, 7, 8, 9],
  [1, 2, 3, 4, 5, 6, 7, 8, 9],
  [1, 2, 3, 4, 5, 6, 7, 8, 9],
  [1, 2, 3, 4, 5, 6, 7, 8, 9],
  [1, 2, 3, 4, 5, 6, 7, 8, 9],
  [1, 2, 3, 4, 5, 6, 7, 8, 9],
  [1, 2, 3, 4, 5, 6, 7, 8, 9],
  [1, 2, 3, 4, 5, 6, 7, 8, 9],
  [1, 2, 3, 4, 5, 6, 7, 8, 9],
  [1, 2, 3, 4, 5, 6, 7, 8, 9],
  [1, 2, 3, 4, 5, 6, 7, 8, 9],
  [1, 2, 3, 4, 5, 6, 7, 8, 9],
  [1, 2, 3, 4, 5, 6, 7, 8, 9],
  [1, 2, 3, 4, 5, 6, 7, 8, 9],
  [1, 2, 3, 4, 5, 6, 7, 8, 9],
  [1, 2, 3, 4, 5, 6, 7, 8, 9],
  [1, 2, 3, 4, 5, 6, 7, 8, 9],
  [1, 2, 3, 4, 5, 6, 7, 8, 9],
  [1, 2, 3, 4, 5, 6, 7, 8, 9],
  [1, 2, 3, 4, 5, 6, 7, 8, 9],
  [1, 2, 3, 4, 5, 6, 7, 8, 9],
  [1, 2, 3, 4, 5, 6, 7, 8, 9],
  [1, 2, 3, 4, 5, 6, 7, 8, 9],
  [1, 2, 3, 4, 5, 6, 7, 8, 9],
  [1, 2, 3, 4, 5, 6, 7, 8, 9],
  [1, 2, 3, 4, 5, 6, 7, 8, 9],
  [1, 2, 3, 4, 5, 6, 7, 8, 9],
  [1, 2, 3, 4, 5, 6, 7, 8, 9],
  [1, 2, 3, 4, 5, 6, 7, 8, 9],
  [1, 2, 3, 4, 5, 6, 7, 8, 9],
  [1, 2, 3, 4, 5, 6, 7, 8, 9],
  [1, 2, 3, 4, 5, 6, 7, 8, 9],
  [1, 2, 3, 4, 5, 6, 7, 8, 9],
  [1, 2, 3, 4, 5, 6, 7, 8, 9],
  [1, 2, 3, 4, 5, 6, 7, 8, 9],
  [1, 2, 3, 4, 5, 6, 7, 8, 9],
  [1, 2, 3, 4, 5, 6, 7, 8, 9],
  [1, 2, 3, 4, 5, 6, 7, 8, 9],
  [1, 2, 3, 4, 5, 6, 7, 8, 9],
  [1, 2, 3, 4, 5, 6, 7, 8, 9],
  [1, 2, 3, 4, 5, 6, 7, 8, 9],
  [1, 2, 3, 4, 5, 6, 7, 8, 9],
  [1, 2, 3, 4, 5, 6, 7, 8, 9],
  [1, 2, 3, 4, 5, 6, 7, 8, 9],
  [1, 2, 3, 4, 5, 6, 7, 8, 9],
  [1, 2, 3, 4, 5, 6, 7, 8, 9],
  [1, 2, 3, 4, 5, 6, 7, 8, 9],
  [1, 2, 3, 4, 5, 6, 7, 8, 9],
  [1, 2, 3, 4, 5, 6, 7, 8, 9],
  [1, 2, 3, 4, 5, 6, 7, 8, 9],
  [1, 2, 3, 4, 5, 6, 7, 8, 9],
  [1, 2, 3, 4, 5, 6, 7, 8, 9],
  [1, 2, 3, 4, 5, 6, 7, 8, 9],
  [1, 2, 3, 4, 5, 6, 7, 8, 9],
  [1, 2, 3, 4, 5, 6, 7, 8, 9],
  [1, 2, 3, 4, 5, 6, 7, 8, 9],
  [1, 2, 3, 4, 5, 6, 7, 8, 9],
  [1, 2, 3, 4, 5, 6, 7, 8, 9],
  [1, 2, 3, 4, 5, 6, 7, 8, 9],
  [1, 2, 3, 4, 5, 6, 7, 8, 9],
  [1, 2, 3, 4, 5, 6, 7, 8, 9],
  [1, 2, 3, 4, 5, 6, 7, 8, 9],
  [1, 2, 3, 4, 5, 6, 7, 8, 9],
  [1, 2, 3, 4, 5, 6, 7, 8, 9],
  [1, 2, 3, 4, 5, 6, 7, 8, 9],
  [1, 2, 3, 4, 5, 6, 7, 8, 9],
  [1, 2, 3, 4, 5, 6, 7, 8, 9],
  [1, 2, 3, 4, 5, 6, 7, 8, 9],
  [1, 2, 3, 4, 5, 6, 7, 8, 9],
  [1, 2, 3, 4, 5, 6, 7, 8, 9],
  [1, 2, 3, 4, 5, 6, 7, 8, 9],
  [1, 2, 3, 4, 5, 6, 7, 8, 9],
  [1, 2, 3, 4, 5, 6, 7, 8, 9],
  [1, 2, 3, 4, 5, 6, 7, 8, 9],
  [1, 2, 3, 4, 5, 6, 7, 8, 9],
  [1, 2, 3, 4, 5, 6, 7, 8, 9]]

def gB26 : Board :=
  [[1],
  [],
  [2, 3, 4, 5, 6, 7, 8, 9],
  [2, 3, 4, 5, 6, 7, 8, 9],
  [2, 3, 4, 5, 6, 7, 8, 9],
  [2, 3, 4, 5, 6, 7, 8, 9],
  [2, 3, 4, 5, 6, 7, 8, 9],
  [2, 3, 4, 5, 6, 7, 8, 9],
  [2, 3, 4, 5, 6, 7, 8, 9],
  [2, 3, 4, 5, 6, 7, 8, 9],
  [2, 3, 4, 5, 6, 7, 8, 9],
  [2, 3, 4, 5, 6, 7, 8, 9],
  [1, 2, 3, 4, 5, 6, 7, 8, 9],
  [1, 2, 3, 4, 5, 6, 7, 8, 9],
  [1, 2, 3, 4, 5, 6, 7, 8, 9],
  [1, 2, 3, 4, 5, 6, 7, 8, 9],
  [1, 2, 3, 4, 5, 6, 7, 8, 9],
  [1, 2, 3, 4, 5, 6, 7, 8, 9],
  [2, 3, 4, 5, 6, 7, 8, 9],
  [2, 3, 4, 5, 6, 7, 8, 9],
  [2, 3, 4, 5, 6, 7, 8, 9],
  [1, 2, 3, 4, 5, 6, 7, 8, 9],
  [1, 2, 3, 4, 5, 6, 7, 8, 9],
  [1, 2, 3, 4, 5, 6, 7, 8, 9],
  [1, 2, 3, 4, 5, 6, 7, 8, 9],
  [1, 2, 3, 4, 5, 6, 7, 8, 9],
  [1, 2, 3, 4, 5, 6, 7, 8, 9],
  [2, 3, 4, 5, 6, 7, 8, 9],
  [1, 2, 3, 4, 5, 6, 7, 8, 9],
  [1, 2, 3, 4, 5, 6, 7, 8, 9],
  [2, 3, 4, 5, 6, 7, 8, 9],
  [1, 2, 3, 4, 5, 6, 7, 8, 9],
  [1, 2, 3, 4, 5, 6, 7, 8, 9],
  [1, 2, 3, 4, 5, 6, 7, 8, 9],
  [1, 2, 3, 4, 5, 6, 7, 8, 9],
  [1, 2, 3, 4, 5, 6, 7, 8, 9],
  [2, 3, 4, 5, 6, 7, 8, 9],
  [1, 2, 3, 4, 5, 6, 7, 8, 9],
  [1, 2, 3, 4, 5, 6, 7, 8, 9],
  [1, 2, 3, 4, 5, 6, 7, 8, 9],
  [2, 3, 4, 5, 6, 7, 8, 9],
  [1, 2, 3, 4, 5, 6, 7, 8, 9],
  [1, 2, 3, 4, 5, 6, 7, 8, 9],
  [1, 2, 3, 4, 5, 6, 7, 8, 9],
  [1, 2, 3, 4, 5, 6, 7, 8, 9],
  [2, 3, 4, 5, 6, 7, 8, 9],
  [1, 2, 3, 4, 5, 6, 7, 8, 9],
  [1, 2, 3, 4, 5, 6, 7, 8, 9],
  [1, 2, 3, 4, 5, 6, 7, 8, 9],
  [1, 2, 3, 4, 5, 6, 7, 8, 9],
  [2, 3, 4, 5, 6, 7, 8, 9],
  [1, 2, 3, 4, 5, 6, 7, 8, 9],
  [1, 2, 3, 4, 5, 6, 7, 8, 9],
  [1, 2, 3, 4, 5, 6, 7, 8, 9],
  [2, 3, 4, 5, 6, 7, 8, 9],
  [1, 2, 3, 4, 5, 6, 7, 8, 9],
  [1, 2, 3, 4, 5, 6, 7, 8, 9],
  [1, 2, 3, 4, 5, 6, 7, 8, 9],
  [1, 2, 3, 4, 5, 6, 7, 8, 9],
  [1, 2, 3, 4, 5, 6, 7, 8, 9],
  [2, 3, 4, 5, 6, 7, 8, 9],
  [1, 2, 3, 4, 5, 6, 7, 8, 9],
  [1, 2, 3, 4, 5, 6, 7, 8, 9],
  [2, 3, 4, 5, 6, 7, 8, 9],
  [1, 2, 3, 4, 5, 6, 7, 8, 9],
  [1, 2, 3, 4, 5, 6, 7, 8, 9],
  [1, 2, 3, 4, 5, 6, 7, 8, 9],
  [1, 2, 3, 4, 5, 6, 7, 8, 9],
  [1, 2, 3, 4, 5, 6, 7, 8, 9],
  [1, 2, 3, 4, 5, 6, 7, 8, 9],
  [2, 3, 4, 5, 6, 7, 8, 9],
  [1, 2, 3, 4, 5, 6, 7, 8, 9],
  [2, 3, 4, 5, 6, 7, 8, 9],
  [1, 2, 3, 4, 5, 6, 7, 8, 9],
  [1, 2, 3, 4, 5, 6, 7, 8, 9],
  [1, 2, 3, 4, 5, 6, 7, 8, 9],
  [1, 2, 3, 4, 5, 6, 7, 8, 9],
  [1, 2, 3, 4, 5, 6, 7, 8, 9],
  [1, 2, 3, 4, 5, 6, 7, 8, 9],
  [1, 2, 3, 4, 5, 6, 7, 8, 9],
  [2, 3, 4, 5, 6, 7, 8, 9]]

def gB27 : Board :=
  [[2],
  [6],
  [7],
  [9],
  [4],
  [5],
  [3],
  [8],
  [1],
  [8],
  [5],
  [3],
  [7],
  [1],
  [6],
  [2],
  [4],
  [9],
  [4],
  [9],
  [1],
  [8],
  [2],
  [3],
  [5],
  [7],
  [6],
  [5],
  [7],
  [6],
  [4],
  [3],
  [8],
  [1],
  [9],
  [2],
  [3],
  [8],
  [4],
  [1],
  [9],
  [2],
  [6],
  [5],
  [7],
  [1],
  [2],
  [9],
  [6],
  [5],
  [7],
  [4],
  [3],
  [8],
  [6],
  [4],
  [2],
  [3],
  [7],
  [9],
  [8],
  [1],
  [5],
  [9],
  [3],
  [5],
  [2],
  [8],
  [1],
  [7],
  [6],
  [4],
  [7],
  [1],
  [8],
  [5],
  [6],
  [4],
  [9],
  [2],
  [3]]

/-! ## Basic cell/board lemmas -/

lemma getCell_eq_getElem? (b : Board) (i : Nat) : getCell b i = b[i]?.getD [] := by
  simp [getCell, List.getD_eq_getElem?_getD]

lemma length_setCell (b : Board) (i : Nat) (c : Cell) :
    (setCell b i c).length = b.length := by
  simp [setCell]

lemma getCell_setCell_self (b : Board) (i : Nat) (c : Cell) (h : i < b.length) :
    getCell (setCell b i c) i = c := by
  simp [getCell_eq_getElem?, setCell, List.getElem?_set_eq_of_lt _ h]

lemma setCell_of_le (b : Board) (i : Nat) (c : Cell) (h : b.length ≤ i) :
    setCell b i c = b := by
  simp [setCell, List.set_eq_of_length_le h]

lemma getCell_setCell_ne (b : Board) (i j : Nat) (c : Cell) (h : i ≠ j) :
    getCell (setCell b i c) j = getCell b j := by
  simp [getCell_eq_getElem?, setCell, List.getElem?_set_ne h]

lemma getCell_setCell_cases (b : Board) (i j : Nat) (c : Cell) :
    getCell (setCell b i c) j = c ∨ getCell (setCell b i c) j = getCell b j := by
  by_cases hij : i = j
  · subst hij
    by_cases hlt : i < b.length
    · exact Or.inl (getCell_setCell_self b i c hlt)
    · exact Or.inr (by rw [setCell_of_le b i c (Nat.le_of_not_lt hlt)])
  · exact Or.inr (getCell_setCell_ne b i j c hij)

lemma board_ext (b b' : Board) (hlen : b.length = b'.length)
    (h : ∀ j, getCell b j = getCell b' j) : b = b' := by
  apply List.ext_getElem?
  intro j
  by_cases hj : j < b.length
  · have hj' : j < b'.length := hlen ▸ hj
    have := h j
    rw [getCell_eq_getElem?, getCell_eq_getElem?] at this
    rw [List.getElem?_eq_getElem hj, List.getElem?_eq_getElem hj'] at this ⊢
    simp only [Option.getD_some] at this
    simp [this]
  · rw [List.getElem?_eq_none (Nat.le_of_not_lt hj),
        List.getElem?_eq_none (hlen ▸ Nat.le_of_not_lt hj : b'.length ≤ j)]

/-! ## Shrinking: every operation only removes candidates (cellwise sublists) -/

lemma shrink_foldl {α : Type} (f : Board → α → Board)
    (hf : ∀ b x j, List.Sublist (getCell (f b x) j) (getCell b j)) :
    ∀ (l : List α) (b : Board) (j : Nat),
      List.Sublist (getCell (l.foldl f b) j) (getCell b j) := by
  intro l
  induction l with
  | nil => intro b j; exact List.Sublist.refl _
  | cons x xs ih =>
    intro b j
    exact (ih (f b x) j).trans (hf b x j)

lemma shrink_setCell_filter (b : Board) (i : Nat) (p : Nat → Bool) (j : Nat) :
    List.Sublist (getCell (setCell b i ((getCell b i).filter p)) j) (getCell b j) := by
  by_cases hij : i = j
  · subst hij
    rcases getCell_setCell_cases b i i ((getCell b i).filter p) with h | h
    · rw [h]; exact List.filter_sublist _
    · rw [h]
  · rw [getCell_setCell_ne b i j _ hij]

lemma shrink_setCell_mem (b : Board) (i : Nat) (d : Nat) (hd : d ∈ getCell b i) (j : Nat) :
    List.Sublist (getCell (setCell b i [d]) j) (getCell b j) := by
  by_cases hij : i = j
  · subst hij
    rcases getCell_setCell_cases b i i [d] with h | h
    · rw [h]; exact List.singleton_sublist.2 hd
    · rw [h]
  · rw [getCell_setCell_ne b i j _ hij]

lemma shrink_elimStep (b : Board) (x : Nat) (j : Nat) :
    List.Sublist (getCell (elimStep b x) j) (getCell b j) := by
  unfold elimStep
  rcases hc : getCell b x with _ | ⟨d, rest⟩
  · exact List.Sublist.refl _
  rcases rest with _ | _
  · exact shrink_foldl _ (fun c p j => shrink_setCell_filter c p _ j) (peers x) b j
  · exact List.Sublist.refl _

lemma shrink_eliminate (b : Board) (j : Nat) :
    List.Sublist (getCell (eliminate b) j) (getCell b j) :=
  shrink_foldl elimStep shrink_elimStep (List.range 81) b j

lemma shrink_ocStep (b : Board) (u : List Nat) (d : Nat) (j : Nat) :
    List.Sublist (getCell (ocStep b u d) j) (getCell b j) := by
  unfold ocStep
  rcases hu : u.filter (fun box => (getCell b box).contains d) with _ | ⟨box, rest⟩
  · exact List.Sublist.refl _
  rcases rest with _ | _
  · have hmem : box ∈ u.filter (fun box => (getCell b box).contains d) := by
      rw [hu]; exact List.mem_singleton.2 rfl
    have := List.of_mem_filter hmem
    exact shrink_setCell_mem b box d (by simpa using this) j
  · exact List.Sublist.refl _

lemma shrink_ocUnit (b : Board) (u : List Nat) (j : Nat) :
    List.Sublist (getCell (ocUnit b u) j) (getCell b j) := by
  unfold ocUnit
  exact shrink_foldl _ (fun c d j => shrink_ocStep c u d j) digits b j

lemma shrink_only_choice (b : Board) (j : Nat) :
    List.Sublist (getCell (only_choice b) j) (getCell b j) := by
  unfold only_choice
  exact shrink_foldl ocUnit (fun b u j => shrink_ocUnit b u j) unitlist b j

lemma shrink_applyRemoval (b : Board) (pr : Nat × Nat) (j : Nat) :
    List.Sublist (getCell (applyRemoval b pr) j) (getCell b j) := by
  unfold applyRemoval
  exact shrink_setCell_filter b pr.1 _ j

lemma shrink_naked_twins (b : Board) (j : Nat) :
    List.Sublist (getCell (naked_twins b) j) (getCell b j) := by
  unfold naked_twins
  exact shrink_foldl applyRemoval shrink_applyRemoval (values_to_replace b) b j

lemma shrink_onePass (b : Board) (j : Nat) :
    List.Sublist (getCell (onePass b) j) (getCell b j) := by
  unfold onePass
  exact ((shrink_naked_twins _ j).trans (shrink_only_choice _ j)).trans (shrink_eliminate b j)

/-! ## Length preservation -/

lemma length_foldl {α : Type} (f : Board → α → Board)
    (hf : ∀ b x, (f b x).length = b.length) :
    ∀ (l : List α) (b : Board), (l.foldl f b).length = b.length := by
  intro l
  induction l with
  | nil => intro b; rfl
  | cons x xs ih => intro b; rw [List.foldl_cons, ih, hf]

lemma length_elimStep (b : Board) (x : Nat) : (elimStep b x).length = b.length := by
  unfold elimStep
  rcases getCell b x with _ | ⟨d, _ | _⟩
  · rfl
  · exact length_foldl _ (fun c p => length_setCell c p _) (peers x) b
  · rfl

lemma length_eliminate (b : Board) : (eliminate b).length = b.length :=
  length_foldl elimStep length_elimStep (List.range 81) b

lemma length_ocStep (b : Board) (u : List Nat) (d : Nat) :
    (ocStep b u d).length = b.length := by
  unfold ocStep
  rcases u.filter (fun box => (getCell b box).contains d) with _ | ⟨box, _ | _⟩
  · rfl
  · exact length_setCell b box [d]
  · rfl

lemma length_ocUnit (b : Board) (u : List Nat) : (ocUnit b u).length = b.length := by
  unfold ocUnit
  exact length_foldl _ (fun c d => length_ocStep c u d) digits b

lemma length_only_choice (b : Board) : (only_choice b).length = b.length := by
  unfold only_choice
  exact length_foldl ocUnit (fun b u => length_ocUnit b u) unitlist b

lemma length_naked_twins (b : Board) : (naked_twins b).length = b.length := by
  unfold naked_twins
  exact length_foldl applyRemoval (fun c pr => length_setCell c pr.1 _) (values_to_replace b) b

lemma length_onePass (b : Board) : (onePass b).length = b.length := by
  unfold onePass
  rw [length_naked_twins, length_only_choice, length_eliminate]

/-! ## The size measure -/

lemma totalSize_cons (c : Cell) (t : Board) : totalSize (c :: t) = c.length + totalSize t := by
  simp [totalSize]

lemma getCell_cons_succ (c : Cell) (t : Board) (j : Nat) :
    getCell (c :: t) (j + 1) = getCell t j := rfl

lemma getCell_cons_zero (c : Cell) (t : Board) : getCell (c :: t) 0 = c := rfl

lemma totalSize_le_of_cellwise :
    ∀ (b' b : Board), b'.length = b.length →
      (∀ j, List.Sublist (getCell b' j) (getCell b j)) → totalSize b' ≤ totalSize b := by
  intro b'
  induction b' with
  | nil => intro b _ _; simp [totalSize]
  | cons c' t' ih =>
    intro b hlen h
    rcases b with _ | ⟨c, t⟩
    · simp at hlen
    · rw [totalSize_cons, totalSize_cons]
      have h0 := h 0
      rw [getCell_cons_zero, getCell_cons_zero] at h0
      have hrest : ∀ j, List.Sublist (getCell t' j) (getCell t j) := by
        intro j
        have := h (j + 1)
        rwa [getCell_cons_succ, getCell_cons_succ] at this
      exact Nat.add_le_add h0.length_le (ih t (by simpa using hlen) hrest)

lemma totalSize_lt_of_cellwise_ne :
    ∀ (b' b : Board), b'.length = b.length →
      (∀ j, List.Sublist (getCell b' j) (getCell b j)) → b' ≠ b →
      totalSize b' < totalSize b := by
  intro b'
  induction b' with
  | nil =>
    intro b hlen _ hne
    rcases b with _ | _
    · exact absurd rfl hne
    · simp at hlen
  | cons c' t' ih =>
    intro b hlen h hne
    rcases b with _ | ⟨c, t⟩
    · simp at hlen
    · rw [totalSize_cons, totalSize_cons]
      have h0 := h 0
      rw [getCell_cons_zero, getCell_cons_zero] at h0
      have hrest : ∀ j, List.Sublist (getCell t' j) (getCell t j) := by
        intro j
        have := h (j + 1)
        rwa [getCell_cons_succ, getCell_cons_succ] at this
      have hlen' : t'.length = t.length := by simpa using hlen
      by_cases hc : c' = c
      · subst hc
        have ht : t' ≠ t := fun ht => hne (by rw [ht])
        exact Nat.add_lt_add_left (ih t hlen' hrest ht) _
      · have hclt : c'.length < c.length := by
          rcases Nat.lt_or_ge c'.length c.length with hlt | hge
          · exact hlt
          · exact absurd (h0.eq_of_length (Nat.le_antisymm h0.length_le hge)) hc
        exact Nat.add_lt_add_of_lt_of_le hclt (totalSize_le_of_cellwise t' t hlen' hrest)

lemma totalSize_onePass_le (b : Board) : totalSize (onePass b) ≤ totalSize b :=
  totalSize_le_of_cellwise _ b (length_onePass b) (shrink_onePass b)

lemma onePass_ne_of_count_ne (b : Board) (h : solvedCount (onePass b) ≠ solvedCount b) :
    onePass b ≠ b := fun he => h (by rw [he])

lemma totalSize_onePass_lt (b : Board) (h : solvedCount (onePass b) ≠ solvedCount b) :
    totalSize (onePass b) < totalSize b :=
  totalSize_lt_of_cellwise_ne _ b (length_onePass b) (shrink_onePass b)
    (onePass_ne_of_count_ne b h)

/-! ## reduceLoop: step equations, fuel sufficiency, characterization -/

lemma reduceLoop_succ (fuel : Nat) (b : Board) :
    reduceLoop (fuel + 1) b =
      if solvedCount (onePass b) == solvedCount b then
        some (if hasEmpty (onePass b) then RRes.fail else RRes.board (onePass b))
      else reduceLoop fuel (onePass b) := rfl

lemma reduceLoop_step_cont (fuel : Nat) (b b' : Board) (h : onePass b = b')
    (hne : solvedCount b' ≠ solvedCount b) :
    reduceLoop (fuel + 1) b = reduceLoop fuel b' := by
  rw [reduceLoop_succ, h, if_neg (by simpa using hne)]

lemma reduceLoop_step_stop_board (fuel : Nat) (b b' : Board) (h : onePass b = b')
    (heq : solvedCount b' = solvedCount b) (hemp : hasEmpty b' = false) :
    reduceLoop (fuel + 1) b = some (RRes.board b') := by
  rw [reduceLoop_succ, h, if_pos (by simpa using heq), hemp]
  rfl

lemma reduceLoop_step_stop_fail (fuel : Nat) (b b' : Board) (h : onePass b = b')
    (heq : solvedCount b' = solvedCount b) (hemp : hasEmpty b' = true) :
    reduceLoop (fuel + 1) b = some RRes.fail := by
  rw [reduceLoop_succ, h, if_pos (by simpa using heq), hemp]
  rfl

/-- Fuel is irrelevant once the loop finishes: more fuel gives the same result. -/
lemma reduceLoop_mono :
    ∀ (f1 f2 : Nat) (b : Board) (r : RRes),
      reduceLoop f1 b = some r → f1 ≤ f2 → reduceLoop f2 b = some r := by
  intro f1
  induction f1 with
  | zero => intro f2 b r h; simp [reduceLoop] at h
  | succ n ih =>
    intro f2 b r h hle
    rcases f2 with _ | m
    · omega
    rw [reduceLoop_succ] at h ⊢
    by_cases hc : solvedCount (onePass b) == solvedCount b
    · rw [if_pos hc] at h ⊢; exact h
    · rw [if_neg hc] at h ⊢
      exact ih m (onePass b) r h (by omega)

/-- `totalSize b + 1` passes always suffice: the while-loop of `reduce_puzzle`
    always reaches a stalled pass. -/
lemma reduceLoop_enough_fuel :
    ∀ (fuel : Nat) (b : Board), totalSize b < fuel → reduceLoop fuel b ≠ none := by
  intro fuel
  induction fuel with
  | zero => intro b h; omega
  | succ n ih =>
    intro b _
    rw [reduceLoop_succ]
    by_cases hc : solvedCount (onePass b) == solvedCount b
    · rw [if_pos hc]; exact Option.some_ne_none _
    · rw [if_neg hc]
      have hlt : totalSize (onePass b) < totalSize b :=
        totalSize_onePass_lt b (by simpa using hc)
      exact ih (onePass b) (by omega)

lemma reduce_puzzle_ne_none (b : Board) : reduce_puzzle b ≠ none :=
  reduceLoop_enough_fuel (totalSize b + 1) b (Nat.lt_succ_self _)

lemma reduce_puzzle_of_reduceLoop (b : Board) (k : Nat) (r : RRes)
    (h : reduceLoop k b = some r) (hk : k ≤ totalSize b + 1) :
    reduce_puzzle b = some r :=
  reduceLoop_mono k (totalSize b + 1) b r h hk

/-- Iterating whole passes. -/
def passIter : Nat → Board → Board
  | 0, b => b
  | k + 1, b => passIter k (onePass b)

lemma passIter_succ_out (k : Nat) (b : Board) :
    passIter (k + 1) b = onePass (passIter k b) := by
  induction k generalizing b with
  | zero => rfl
  | succ n ih => rw [passIter, ih, passIter]

lemma passIter_shrink (k : Nat) (b : Board) (j : Nat) :
    List.Sublist (getCell (passIter k b) j) (getCell b j) := by
  induction k generalizing b with
  | zero => exact List.Sublist.refl _
  | succ n ih => exact (ih (onePass b)).trans (shrink_onePass b j)

lemma passIter_length (k : Nat) (b : Board) : (passIter k b).length = b.length := by
  induction k generalizing b with
  | zero => rfl
  | succ n ih => rw [passIter, ih, length_onePass]

/-- What a successful `reduceLoop` run means: some pass `k ≥ 1` stalls, the
    result is the board after pass `k` (or `fail` when that board has an empty
    cell), and no earlier pass stalled. -/
lemma reduceLoop_sound :
    ∀ (fuel : Nat) (b : Board) (r : RRes), reduceLoop fuel b = some r →
      ∃ k, 1 ≤ k ∧ k ≤ fuel ∧
        solvedCount (passIter k b) = solvedCount (passIter (k - 1) b) ∧
        r = (if hasEmpty (passIter k b) then RRes.fail else RRes.board (passIter k b)) := by
  intro fuel
  induction fuel with
  | zero => intro b r h; simp [reduceLoop] at h
  | succ n ih =>
    intro b r h
    rw [reduceLoop_succ] at h
    by_cases hc : solvedCount (onePass b) == solvedCount b
    · rw [if_pos hc] at h
      refine ⟨1, Nat.le_refl 1, Nat.one_le_iff_ne_zero.2 (by omega), ?_, ?_⟩
      · have hc' : solvedCount (onePass b) = solvedCount b := by
          have := of_decide_eq_true (by simpa using hc)
          exact this
        simpa [passIter] using hc'
      · simpa [passIter] using h.symm
    · rw [if_neg hc] at h
      obtain ⟨k, hk1, hkn, hstall, hr⟩ := ih (onePass b) r h
      refine ⟨k + 1, by omega, by omega, ?_, ?_⟩
      · have h2 : passIter (k + 1) b = passIter k (onePass b) := rfl
        have h3 : passIter k b = passIter (k - 1) (onePass b) := by
          rcases k with _ | m
          · omega
          · rfl
        rw [h2, Nat.add_sub_cancel, h3]
        rcases k with _ | m
        · omega
        · simpa [Nat.succ_sub_one] using hstall
      · have h2 : passIter (k + 1) b = passIter k (onePass b) := rfl
        rw [h2]; exact hr

/-! ## Empty cells persist -/

lemma hasEmpty_iff (b : Board) :
    hasEmpty b = true ↔ ∃ j, j < b.length ∧ getCell b j = [] := by
  unfold hasEmpty
  rw [List.any_eq_true]
  constructor
  · rintro ⟨c, hc, hce⟩
    obtain ⟨j, hj, hget⟩ := List.mem_iff_getElem.1 hc
    refine ⟨j, hj, ?_⟩
    rw [getCell_eq_getElem?, List.getElem?_eq_getElem hj, hget, Option.getD_some]
    simpa using hce
  · rintro ⟨j, hj, hget⟩
    refine ⟨[], ?_, rfl⟩
    have hbj : b[j] = getCell b j := by
      rw [getCell_eq_getElem?, List.getElem?_eq_getElem hj, Option.getD_some]
    have hnil : b[j] = [] := by rw [hbj, hget]
    exact hnil ▸ List.getElem_mem hj

lemma hasEmpty_onePass_of_hasEmpty (b : Board) (h : hasEmpty b = true) :
    hasEmpty (onePass b) = true := by
  rw [hasEmpty_iff] at h ⊢
  obtain ⟨j, hj, hget⟩ := h
  refine ⟨j, by rw [length_onePass]; exact hj, ?_⟩
  have := shrink_onePass b j
  rw [hget] at this
  exact List.sublist_nil.1 this

lemma hasEmpty_passIter_of_hasEmpty (k : Nat) (b : Board) (h : hasEmpty b = true) :
    hasEmpty (passIter k b) = true := by
  induction k generalizing b with
  | zero => exact h
  | succ n ih => exact ih (onePass b) (hasEmpty_onePass_of_hasEmpty b h)

/-! ## searchFuel: case equations -/

lemma searchFuel_succ (fuel : Nat) (values : Board) :
    searchFuel (fuel + 1) values =
      searchCore (fun g => searchFuel fuel g) (reduce_puzzle values) := by
  rw [searchFuel]

lemma searchCore_fail (r : Board → SRes) : searchCore r (some RRes.fail) = SRes.pyFalse := rfl

lemma searchCore_solved (r : Board → SRes) (v : Board) (hs : allSolved v = true) :
    searchCore r (some (RRes.board v)) = SRes.ok v := by
  unfold searchCore
  simp only [hs, if_true]

lemma searchCore_branch (r : Board → SRes) (v : Board) (m : Nat × Nat)
    (hs : allSolved v = false) (hc : chooseBox v = some m) :
    searchCore r (some (RRes.board v)) =
      (getCell v m.1).foldl (branchStep r v m.1) SRes.pyNone := by
  unfold searchCore
  simp only [hs, Bool.false_eq_true, if_false, hc]

lemma searchFuel_succ_fail (fuel : Nat) (values : Board)
    (h : reduce_puzzle values = some RRes.fail) :
    searchFuel (fuel + 1) values = SRes.pyFalse := by
  rw [searchFuel_succ, h, searchCore_fail]

lemma searchFuel_succ_solved (fuel : Nat) (values v : Board)
    (h : reduce_puzzle values = some (RRes.board v)) (hs : allSolved v = true) :
    searchFuel (fuel + 1) values = SRes.ok v := by
  rw [searchFuel_succ, h, searchCore_solved _ _ hs]

lemma searchFuel_succ_branch (fuel : Nat) (values v : Board) (m : Nat × Nat)
    (h : reduce_puzzle values = some (RRes.board v)) (hs : allSolved v = false)
    (hc : chooseBox v = some m) :
    searchFuel (fuel + 1) values =
      (getCell v m.1).foldl (branchStep (fun g => searchFuel fuel g) v m.1) SRes.pyNone := by
  rw [searchFuel_succ, h, searchCore_branch _ _ _ hs hc]

/-! ## The candidate loop -/

lemma branch_foldl_skip (r : Board → SRes) (v : Board) (i : Nat) (acc : SRes)
    (hacc : acc ≠ SRes.pyNone) :
    ∀ ds : List Nat, ds.foldl (branchStep r v i) acc = acc := by
  intro ds
  induction ds with
  | nil => rfl
  | cons d ds ih =>
    rw [List.foldl_cons]
    have hstep : branchStep r v i acc d = acc := by
      unfold branchStep
      rcases acc with _ | _ | _ | _ | _ <;> first | rfl | exact absurd rfl hacc
    rw [hstep, ih]

lemma branch_foldl_cons_ok (r : Board → SRes) (v : Board) (i : Nat) (d : Nat)
    (ds : List Nat) (w : Board) (h : r (setCell v i [d]) = SRes.ok w) :
    (d :: ds).foldl (branchStep r v i) SRes.pyNone = SRes.ok w := by
  rw [List.foldl_cons]
  have hstep : branchStep r v i SRes.pyNone d = SRes.ok w := by
    unfold branchStep; rw [h]
  rw [hstep, branch_foldl_skip r v i _ (by simp) ds]

lemma branch_foldl_cons_falsy (r : Board → SRes) (v : Board) (i : Nat) (d : Nat)
    (ds : List Nat) (h : r (setCell v i [d]) = SRes.pyFalse ∨ r (setCell v i [d]) = SRes.pyNone) :
    (d :: ds).foldl (branchStep r v i) SRes.pyNone = ds.foldl (branchStep r v i) SRes.pyNone := by
  rw [List.foldl_cons]
  have hstep : branchStep r v i SRes.pyNone d = SRes.pyNone := by
    unfold branchStep
    rcases h with h | h <;> rw [h]
  rw [hstep]

lemma branch_foldl_nil (r : Board → SRes) (v : Board) (i : Nat) :
    ([] : List Nat).foldl (branchStep r v i) SRes.pyNone = SRes.pyNone := rfl

/-- If the candidate loop succeeds, some candidate's recursive search
    succeeded. -/
lemma branch_foldl_ok_inv (r : Board → SRes) (v : Board) (i : Nat) (w : Board) :
    ∀ (ds : List Nat) (acc : SRes),
      ds.foldl (branchStep r v i) acc = SRes.ok w →
      acc = SRes.ok w ∨ ∃ d ∈ ds, r (setCell v i [d]) = SRes.ok w := by
  intro ds
  induction ds with
  | nil => intro acc h; exact Or.inl h
  | cons d ds ih =>
    intro acc h
    rw [List.foldl_cons] at h
    rcases ih (branchStep r v i acc d) h with hacc | ⟨d', hd', hr⟩
    · rcases acc with b' | _ | _ | _ | _
      · exact Or.inl hacc
      · rw [show branchStep r v i SRes.pyFalse d = SRes.pyFalse from rfl] at hacc
        simp at hacc
      · rcases hrr : r (setCell v i [d]) with w' | _ | _ | _ | _
        · have hstep : branchStep r v i SRes.pyNone d = SRes.ok w' := by
            unfold branchStep; rw [hrr]
          rw [hstep] at hacc
          cases hacc
          exact Or.inr ⟨d, List.mem_cons_self d ds, hrr⟩
        · have hstep : branchStep r v i SRes.pyNone d = SRes.pyNone := by
            unfold branchStep; rw [hrr]
          rw [hstep] at hacc; simp at hacc
        · have hstep : branchStep r v i SRes.pyNone d = SRes.pyNone := by
            unfold branchStep; rw [hrr]
          rw [hstep] at hacc; simp at hacc
        · have hstep : branchStep r v i SRes.pyNone d = SRes.error := by
            unfold branchStep; rw [hrr]
          rw [hstep] at hacc; simp at hacc
        · have hstep : branchStep r v i SRes.pyNone d = SRes.outOfFuel := by
            unfold branchStep; rw [hrr]
          rw [hstep] at hacc; simp at hacc
      · rw [show branchStep r v i SRes.error d = SRes.error from rfl] at hacc
        simp at hacc
      · rw [show branchStep r v i SRes.outOfFuel d = SRes.outOfFuel from rfl] at hacc
        simp at hacc
    · exact Or.inr ⟨d', List.mem_cons_of_mem d hd', hr⟩

/-- If the candidate loop never runs out of fuel in recursion, it does not
    return the fuel marker. -/
lemma branch_foldl_ne_oof (r : Board → SRes) (v : Board) (i : Nat)
    (hr : ∀ d, r (setCell v i [d]) ≠ SRes.outOfFuel) :
    ∀ (ds : List Nat) (acc : SRes), acc ≠ SRes.outOfFuel →
      ds.foldl (branchStep r v i) acc ≠ SRes.outOfFuel := by
  intro ds
  induction ds with
  | nil => intro acc hacc; exact hacc
  | cons d ds ih =>
    intro acc hacc
    rw [List.foldl_cons]
    apply ih
    unfold branchStep
    rcases heq : acc with _ | _ | _ | _ | _
    · simp
    · simp
    · rcases hrr : r (setCell v i [d]) with _ | _ | _ | _ | _ <;> simp
      exact absurd hrr (hr d)
    · simp
    · exact absurd heq hacc

/-! ## The chosen box -/

lemma pyMin_foldl_mem :
    ∀ (xs : List (Nat × Nat)) (a : Nat × Nat),
      xs.foldl (fun m y => if pairLt y m then y else m) a = a ∨
      xs.foldl (fun m y => if pairLt y m then y else m) a ∈ xs := by
  intro xs
  induction xs with
  | nil => intro a; exact Or.inl rfl
  | cons y ys ih =>
    intro a
    rw [List.foldl_cons]
    rcases ih (if pairLt y a then y else a) with h | h
    · rw [h]
      by_cases hy : pairLt y a
      · rw [if_pos hy]; exact Or.inr (List.mem_cons_self y ys)
      · rw [if_neg hy]; exact Or.inl rfl
    · exact Or.inr (List.mem_cons_of_mem y h)

lemma pyMin_mem (l : List (Nat × Nat)) (m : Nat × Nat) (h : pyMin l = some m) : m ∈ l := by
  rcases l with _ | ⟨x, xs⟩
  · simp [pyMin] at h
  · simp only [pyMin, Option.some_inj] at h
    subst h
    rcases pyMin_foldl_mem xs x with h | h
    · rw [h]; exact List.mem_cons_self x xs
    · exact List.mem_cons_of_mem x h

lemma mem_boxesLengths (v : Board) (m : Nat × Nat) (h : m ∈ boxesLengths v) :
    m.1 < v.length ∧ (getCell v m.1).length = m.2 ∧ 1 < m.2 := by
  unfold boxesLengths at h
  obtain ⟨⟨i, c⟩, hmem, hm⟩ := List.mem_map.1 h
  have hfil := List.mem_filter.1 hmem
  have henum : v[i]? = some c := List.mk_mem_enum_iff_getElem?.1 hfil.1
  have hlen : i < v.length := by
    by_contra hge
    rw [List.getElem?_eq_none (Nat.le_of_not_lt hge)] at henum
    exact Option.noConfusion henum
  have hget : getCell v i = c := by
    rw [getCell_eq_getElem?, henum, Option.getD_some]
  cases hm
  exact ⟨hlen, by rw [hget], by simpa using hfil.2⟩

lemma chooseBox_spec (v : Board) (m : Nat × Nat) (h : chooseBox v = some m) :
    m.1 < v.length ∧ (getCell v m.1).length = m.2 ∧ 1 < m.2 := by
  unfold chooseBox at h
  have hmem := pyMin_mem _ _ h
  have : m ∈ boxesLengths v := (List.perm_insertionSort _ _).mem_iff.1 hmem
  exact mem_boxesLengths v m this

lemma totalSize_setCell_lt (b : Board) (i : Nat) (d : Nat)
    (hi : i < b.length) (hlen : 1 < (getCell b i).length) :
    totalSize (setCell b i [d]) < totalSize b := by
  induction b generalizing i with
  | nil => simp at hi
  | cons c t ih =>
    rcases i with _ | j
    · rw [getCell_cons_zero] at hlen
      show totalSize ([d] :: t) < totalSize (c :: t)
      rw [totalSize_cons, totalSize_cons]
      have : ([d] : Cell).length = 1 := rfl
      omega
    · rw [getCell_cons_succ] at hlen
      have hj : j < t.length := by simpa using hi
      show totalSize (c :: setCell t j [d]) < totalSize (c :: t)
      rw [totalSize_cons, totalSize_cons]
      exact Nat.add_lt_add_left (ih j hj hlen) _

/-! ## Fuel sufficiency for search -/

lemma reduce_board_shrink (b v : Board) (h : reduce_puzzle b = some (RRes.board v)) :
    (∀ j, List.Sublist (getCell v j) (getCell b j)) ∧ v.length = b.length := by
  obtain ⟨k, _, _, _, hr⟩ := reduceLoop_sound _ b _ h
  by_cases he : hasEmpty (passIter k b)
  · rw [if_pos he] at hr; exact absurd hr (by simp)
  · rw [if_neg he] at hr
    cases hr
    exact ⟨passIter_shrink k b, passIter_length k b⟩

lemma totalSize_reduce_le (b v : Board) (h : reduce_puzzle b = some (RRes.board v)) :
    totalSize v ≤ totalSize b := by
  obtain ⟨hsh, hlen⟩ := reduce_board_shrink b v h
  exact totalSize_le_of_cellwise v b hlen hsh

/-- Enough fuel: `search` never hits the fuel marker — the recursion always
    bottoms out. -/
lemma searchFuel_enough_fuel :
    ∀ (fuel : Nat) (b : Board), totalSize b < fuel → searchFuel fuel b ≠ SRes.outOfFuel := by
  intro fuel
  induction fuel with
  | zero => intro b h; omega
  | succ n ih =>
    intro b hb
    rcases hred : reduce_puzzle b with _ | r
    · exact absurd hred (reduce_puzzle_ne_none b)
    rcases r with v | _
    · by_cases hs : allSolved v
      · rw [searchFuel_succ_solved n b v hred hs]; simp
      · rcases hcb : chooseBox v with _ | m
        · rw [searchFuel_succ, hred]
          unfold searchCore
          simp only [Bool.not_eq_true] at hs
          simp only [hs, Bool.false_eq_true, if_false, hcb]
          simp
        · rw [searchFuel_succ_branch n b v m hred (by simpa using hs) hcb]
          obtain ⟨hi, hlen, hgt⟩ := chooseBox_spec v m hcb
          have hv : totalSize v ≤ totalSize b := totalSize_reduce_le b v hred
          apply branch_foldl_ne_oof
          · intro d
            apply ih
            have : totalSize (setCell v m.1 [d]) < totalSize v :=
              totalSize_setCell_lt v m.1 d hi (by omega)
            omega
          · simp
    · rw [searchFuel_succ_fail n b hred]; simp

/-! ## Peers: generic characterization -/

lemma units_spec : ∀ s : Nat, units s = unitlist.filter (fun u => u.contains s) := by
  intro s
  by_cases hs : s < 81
  · revert s
    decide!
  · have hlt : unitlist.all (fun u => u.all (fun x => x < 81)) = true := by decide
    have hempty : unitlist.filter (fun u => u.contains s) = [] := by
      rw [List.filter_eq_nil_iff]
      intro u hu hc
      have hmem : s ∈ u := by simpa using hc
      have := List.all_eq_true.1 (List.all_eq_true.1 hlt u hu) s hmem
      simp at this
      omega
    rw [hempty]
    unfold units
    apply List.getD_eq_default
    have hlen : unitsTable.length = 81 := by rfl
    omega

lemma peers_spec :
    ∀ s : Nat, peers s = ((units s).flatten.filter (fun t => t ≠ s)).dedup := by
  intro s
  by_cases hs : s < 81
  · revert s
    decide!
  · have hu : units s = [] := by
      unfold units
      apply List.getD_eq_default
      have hlen : unitsTable.length = 81 := by rfl
      omega
    rw [hu]
    unfold peers
    apply List.getD_eq_default
    have hlen : peersTable.length = 81 := by rfl
    omega

lemma mem_peers (s t : Nat) :
    t ∈ peers s ↔ t ≠ s ∧ ∃ u, u ∈ unitlist ∧ s ∈ u ∧ t ∈ u := by
  rw [peers_spec, units_spec]
  rw [List.mem_dedup, List.mem_filter]
  constructor
  · rintro ⟨hflat, hne⟩
    obtain ⟨u, hu, htu⟩ := List.mem_flatten.1 hflat
    have := List.mem_filter.1 hu
    refine ⟨by simpa using hne, u, this.1, ?_, htu⟩
    simpa using this.2
  · rintro ⟨hne, u, hu, hsu, htu⟩
    refine ⟨List.mem_flatten.2 ⟨u, ?_, htu⟩, by simpa using hne⟩
    exact List.mem_filter.2 ⟨hu, by simpa using hsu⟩

lemma not_self_mem_peers (s : Nat) : s ∉ peers s := by
  intro h
  exact ((mem_peers s s).1 h).1 rfl

lemma peers_of_unit_mates (u : List Nat) (hu : u ∈ unitlist) (s t : Nat)
    (hs : s ∈ u) (ht : t ∈ u) (hne : t ≠ s) : t ∈ peers s :=
  (mem_peers s t).2 ⟨hne, u, hu, hs, ht⟩

/-- Every box mentioned in a unit is a valid index. -/
lemma unit_mem_lt (u : List Nat) (hu : u ∈ unitlist) (s : Nat) (hs : s ∈ u) : s < 81 := by
  have hchk : unitlist.all (fun u => u.all (fun s => s < 81)) = true := by decide
  rw [List.all_eq_true] at hchk
  have := hchk u hu
  rw [List.all_eq_true] at this
  simpa using this s hs

lemma peers_lt (s t : Nat) (h : t ∈ peers s) : t < 81 := by
  obtain ⟨-, u, hu, -, htu⟩ := (mem_peers s t).1 h
  exact unit_mem_lt u hu t htu

/-! ## Fixed points of the propagation folds -/

lemma foldl_fix {α : Type} (f : Board → α → Board)
    (hsh : ∀ b x j, List.Sublist (getCell (f b x) j) (getCell b j))
    (hlen : ∀ b x, (f b x).length = b.length) :
    ∀ (l : List α) (b : Board), l.foldl f b = b → ∀ x ∈ l, f b x = b := by
  intro l
  induction l with
  | nil => intro b _ x hx; simp at hx
  | cons y ys ih =>
    intro b h x hx
    rw [List.foldl_cons] at h
    have hstep : f b y = b := by
      apply board_ext _ _ (hlen b y)
      intro j
      refine List.Sublist.antisymm (hsh b y j) ?_
      have hb : getCell b j = getCell (ys.foldl f (f b y)) j := by rw [h]
      rw [hb]
      exact shrink_foldl f hsh ys (f b y) j
    rcases List.mem_cons.1 hx with hx | hx
    · rw [hx]; exact hstep
    · rw [hstep] at h
      exact ih b h x hx

lemma eliminate_fix (b : Board) (h : eliminate b = b) :
    ∀ x ∈ List.range 81, elimStep b x = b :=
  foldl_fix elimStep shrink_elimStep length_elimStep (List.range 81) b h

/-- At a fixed point of `eliminate`, no peer of a solved box holds the same
    single value. -/
lemma elimStep_fix_no_conflict (b : Board) (s : Nat) (d : Nat) (t : Nat)
    (hfix : elimStep b s = b) (hs : getCell b s = [d]) (ht : t ∈ peers s)
    (htlen : t < b.length) : getCell b t ≠ [d] := by
  intro habs
  have hinner : (peers s).foldl
      (fun c p => setCell c p ((getCell c p).filter (fun x => x ≠ d))) b = b := by
    unfold elimStep at hfix
    rw [hs] at hfix
    exact hfix
  have hstep := foldl_fix _
    (fun c p j => shrink_setCell_filter c p _ j)
    (fun c p => length_setCell c p _) (peers s) b hinner t ht
  have : getCell b t = (getCell b t).filter (fun x => x ≠ d) := by
    have := congrArg (fun bb => getCell bb t) hstep
    simpa [getCell_setCell_self b t _ htlen] using this.symm
  rw [habs] at this
  simp at this

/-! ## Solved boards -/

lemma solvedCount_eq_countP (b : Board) :
    solvedCount b = b.countP (fun c => c.length == 1) := by
  unfold solvedCount
  rw [List.countP_eq_length_filter]

lemma allSolved_iff_count (b : Board) : allSolved b = true ↔ solvedCount b = b.length := by
  rw [solvedCount_eq_countP]
  unfold allSolved
  rw [List.all_eq_true, List.countP_eq_length]

lemma allSolved_cell (b : Board) (h : allSolved b = true) (j : Nat) (hj : j < b.length) :
    ∃ d, getCell b j = [d] := by
  unfold allSolved at h
  rw [List.all_eq_true] at h
  have hmem : b[j] ∈ b := List.getElem_mem hj
  have hlen := h _ hmem
  have hget : getCell b j = b[j] := by
    rw [getCell_eq_getElem?, List.getElem?_eq_getElem hj, Option.getD_some]
  rcases hc : b[j] with _ | ⟨d, rest⟩
  · rw [hc] at hlen; simp at hlen
  · rcases rest with _ | ⟨e, rest2⟩
    · exact ⟨d, by rw [hget, hc]⟩
    · rw [hc] at hlen; simp at hlen

/-- A stalled pass ending in an all-solved board: the pre-pass board equals the
    post-pass board, so the result is a fixed point of the whole pass, and in
    particular of `eliminate`. -/
lemma stalled_solved_fixed (bprev v : Board) (hpass : onePass bprev = v)
    (hcnt : solvedCount v = solvedCount bprev) (hall : allSolved v = true) :
    eliminate v = v := by
  have hlen : v.length = bprev.length := by rw [← hpass]; exact length_onePass bprev
  have hallprev : allSolved bprev = true := by
    rw [allSolved_iff_count] at hall ⊢
    omega
  have hveq : v = bprev := by
    apply board_ext v bprev hlen
    intro j
    by_cases hj : j < v.length
    · obtain ⟨d, hd⟩ := allSolved_cell v hall j hj
      obtain ⟨e, he⟩ := allSolved_cell bprev hallprev j (hlen ▸ hj)
      have hsub : List.Sublist (getCell v j) (getCell bprev j) := by
        rw [← hpass]; exact shrink_onePass bprev j
      rw [hd, he] at hsub ⊢
      exact hsub.eq_of_length (by simp)
    · rw [getCell_eq_getElem?, getCell_eq_getElem?,
          List.getElem?_eq_none (Nat.le_of_not_lt hj),
          List.getElem?_eq_none (hlen ▸ Nat.le_of_not_lt hj : bprev.length ≤ j)]
  have hfix : onePass v = v := by rw [hveq] at hpass ⊢; exact hpass
  apply board_ext _ _ (length_eliminate v)
  intro j
  refine List.Sublist.antisymm (shrink_eliminate v j) ?_
  have h1 : getCell v j = getCell (onePass v) j := by rw [hfix]
  rw [h1]
  unfold onePass
  exact ((shrink_naked_twins _ j).trans (shrink_only_choice _ j))

/-! ## Unit permutation at a solved fixed point -/

lemma no_unit_conflict (v : Board) (hlen : v.length = 81) (hfix : eliminate v = v)
    (hall : allSolved v = true) (u : List Nat) (hu : u ∈ unitlist) (s t : Nat)
    (hs : s ∈ u) (ht : t ∈ u) (hne : t ≠ s) : getCell v t ≠ getCell v s := by
  have hslt : s < 81 := unit_mem_lt u hu s hs
  have htlt : t < 81 := unit_mem_lt u hu t ht
  have hpeer : t ∈ peers s := peers_of_unit_mates u hu s t hs ht hne
  have hstep : elimStep v s = v :=
    eliminate_fix v hfix s (List.mem_range.2 hslt)
  obtain ⟨d, hd⟩ := allSolved_cell v hall s (by omega)
  have := elimStep_fix_no_conflict v s d t hstep hd hpeer (by omega)
  rw [hd]
  exact this

lemma unitlist_nodup_and_len :
    unitlist.all (fun u => decide (u.Nodup) && (u.length == 9)) = true := by decide

/-- Digits of a unit on a solved, eliminate-fixed, well-formed board form a
    permutation of 1–9. -/
lemma unit_perm (v : Board) (hlen : v.length = 81) (hfix : eliminate v = v)
    (hall : allSolved v = true)
    (hwf : ∀ j, j < 81 → ∀ d, d ∈ getCell v j → d ∈ digits)
    (u : List Nat) (hu : u ∈ unitlist) :
    List.Perm (u.map (fun s => (getCell v s).headD 0)) digits := by
  have hkey := List.all_eq_true.1 unitlist_nodup_and_len u hu
  rw [Bool.and_eq_true] at hkey
  have hnodup : u.Nodup := of_decide_eq_true hkey.1
  have hulen : u.length = 9 := by simpa using hkey.2
  have hmapnd : (u.map (fun s => (getCell v s).headD 0)).Nodup := by
    refine List.Nodup.map_on ?_ hnodup
    intro x hx y hy hxy
    by_contra hne
    obtain ⟨dx, hdx⟩ := allSolved_cell v hall x (by rw [hlen]; exact unit_mem_lt u hu x hx)
    obtain ⟨dy, hdy⟩ := allSolved_cell v hall y (by rw [hlen]; exact unit_mem_lt u hu y hy)
    have : getCell v x ≠ getCell v y :=
      no_unit_conflict v hlen hfix hall u hu y x hy hx hne
    apply this
    rw [hdx, hdy]
    rw [hdx, hdy] at hxy
    simpa using hxy
  have hsub : (u.map (fun s => (getCell v s).headD 0)) ⊆ digits := by
    intro x hx
    obtain ⟨s, hsu, hxs⟩ := List.mem_map.1 hx
    obtain ⟨d, hd⟩ := allSolved_cell v hall s (by rw [hlen]; exact unit_mem_lt u hu s hsu)
    have hxd : x = d := by rw [← hxs, hd]; rfl
    rw [hxd]
    exact hwf s (unit_mem_lt u hu s hsu) d (by rw [hd]; exact List.mem_singleton.2 rfl)
  have hsp : List.Subperm (u.map (fun s => (getCell v s).headD 0)) digits :=
    List.subperm_of_subset hmapnd hsub
  refine hsp.perm_of_length_le ?_
  rw [List.length_map, hulen]
  rfl

/-! ## Well-formedness is preserved -/

lemma wf_transfer (b v : Board) (hlen : v.length = b.length)
    (hsh : ∀ j, List.Sublist (getCell v j) (getCell b j)) (hwf : WF b) : WF v := by
  obtain ⟨hb81, hbd⟩ := hwf
  refine ⟨by omega, ?_⟩
  intro c hc d hd
  obtain ⟨j, hj, hget⟩ := List.mem_iff_getElem.1 hc
  have hgc : getCell v j = c := by
    rw [getCell_eq_getElem?, List.getElem?_eq_getElem hj, Option.getD_some, hget]
  have hdj : d ∈ getCell b j := (hsh j).mem (by rw [hgc]; exact hd)
  by_cases hjb : j < b.length
  · have hmem : getCell b j ∈ b := by
      rw [getCell_eq_getElem?, List.getElem?_eq_getElem hjb, Option.getD_some]
      exact List.getElem_mem hjb
    exact hbd _ hmem d hdj
  · rw [getCell_eq_getElem?, List.getElem?_eq_none (Nat.le_of_not_lt hjb)] at hdj
    simp at hdj

lemma wf_setCell (v : Board) (i : Nat) (d : Nat) (hwf : WF v) (hd : d ∈ getCell v i) :
    WF (setCell v i [d]) := by
  obtain ⟨hlen, hcells⟩ := hwf
  refine ⟨by rw [length_setCell]; exact hlen, ?_⟩
  intro c hc e he
  rcases List.mem_or_eq_of_mem_set hc with hc | hc
  · exact hcells c hc e he
  · subst hc
    have hde : e = d := by simpa using he
    rw [hde]
    by_cases hi : i < v.length
    · have hmem : getCell v i ∈ v := by
        rw [getCell_eq_getElem?, List.getElem?_eq_getElem hi, Option.getD_some]
        exact List.getElem_mem hi
      exact hcells _ hmem d hd
    · rw [getCell_eq_getElem?, List.getElem?_eq_none (Nat.le_of_not_lt hi)] at hd
      simp at hd

/-! ## The reduced board at a stall -/

lemma searchCore_none (r : Board → SRes) : searchCore r none = SRes.outOfFuel := rfl

lemma searchCore_noBox (r : Board → SRes) (v : Board) (hs : allSolved v = false)
    (hc : chooseBox v = none) : searchCore r (some (RRes.board v)) = SRes.error := by
  unfold searchCore
  simp only [hs, Bool.false_eq_true, if_false, hc]

lemma reduce_board_not_empty (b v : Board) (h : reduce_puzzle b = some (RRes.board v)) :
    hasEmpty v = false := by
  obtain ⟨k, _, _, _, hr⟩ := reduceLoop_sound _ b _ h
  by_cases he : hasEmpty (passIter k b)
  · rw [if_pos he] at hr; exact absurd hr (by simp)
  · rw [if_neg he] at hr
    cases hr
    simpa using he

lemma reduce_solved_fix (b v : Board) (h : reduce_puzzle b = some (RRes.board v))
    (hall : allSolved v = true) : eliminate v = v := by
  obtain ⟨k, hk1, _, hstall, hr⟩ := reduceLoop_sound _ b _ h
  by_cases he : hasEmpty (passIter k b)
  · rw [if_pos he] at hr; exact absurd hr (by simp)
  · rw [if_neg he] at hr
    have hv : v = passIter k b := by
      cases hr; rfl
    have hks : k = (k - 1) + 1 := by omega
    have hpass : onePass (passIter (k - 1) b) = v := by
      rw [hv]
      conv_rhs => rw [hks, passIter_succ_out]
    refine stalled_solved_fixed (passIter (k - 1) b) v hpass ?_ hall
    rw [hv, hks, Nat.add_sub_cancel]
    rw [hks] at hstall
    simpa using hstall

lemma WF_getCell (v : Board) (hwf : WF v) (j : Nat) (hj : j < 81) :
    ∀ d ∈ getCell v j, d ∈ digits := by
  obtain ⟨hlen, hcells⟩ := hwf
  intro d hd
  have hjv : j < v.length := by omega
  have hmem : getCell v j ∈ v := by
    rw [getCell_eq_getElem?, List.getElem?_eq_getElem hjv, Option.getD_some]
    exact List.getElem_mem hjv
  exact hcells _ hmem d hd

/-! ## Invariants of a successful search -/

lemma search_ok_inv :
    ∀ (fuel : Nat) (b v : Board), WF b → searchFuel fuel b = SRes.ok v →
      allSolved v = true ∧ WF v ∧
        ∀ u ∈ unitlist, List.Perm (u.map (fun s => (getCell v s).headD 0)) digits := by
  intro fuel
  induction fuel with
  | zero => intro b v _ h; simp [searchFuel] at h
  | succ n ih =>
    intro b v hwf h
    rcases hred : reduce_puzzle b with _ | r
    · rw [searchFuel_succ, hred, searchCore_none] at h
      simp at h
    rcases r with w | _
    · rcases hs : allSolved w with _ | _
      · rcases hcb : chooseBox w with _ | m
        · rw [searchFuel_succ, hred, searchCore_noBox _ w hs hcb] at h
          simp at h
        · rw [searchFuel_succ_branch n b w m hred hs hcb] at h
          rcases branch_foldl_ok_inv _ w m.1 v (getCell w m.1) SRes.pyNone h with hacc | ⟨d, hd, hr⟩
          · simp at hacc
          · have hwfw : WF w := by
              obtain ⟨hsh, hlen⟩ := reduce_board_shrink b w hred
              exact wf_transfer b w hlen hsh hwf
            have hwfnew : WF (setCell w m.1 [d]) := wf_setCell w m.1 d hwfw hd
            exact ih _ v hwfnew hr
      · rw [searchFuel_succ_solved n b w hred hs] at h
        have hv : w = v := by
          cases h; rfl
        subst hv
        have hwfw : WF w := by
          obtain ⟨hsh, hlen⟩ := reduce_board_shrink b w hred
          exact wf_transfer b w hlen hsh hwf
        have hlen81 : w.length = 81 := hwfw.1
        have hfix : eliminate w = w := reduce_solved_fix b w hred hs
        refine ⟨hs, hwfw, ?_⟩
        intro u hu
        exact unit_perm w hlen81 hfix hs (fun j hj => WF_getCell w hwfw j hj) u hu
    · rw [searchFuel_succ_fail n b hred] at h
      simp at h

lemma branch_foldl_ne_error (r : Board → SRes) (v : Board) (i : Nat)
    (hr : ∀ d, r (setCell v i [d]) ≠ SRes.error) :
    ∀ (ds : List Nat) (acc : SRes), acc ≠ SRes.error →
      ds.foldl (branchStep r v i) acc ≠ SRes.error := by
  intro ds
  induction ds with
  | nil => intro acc hacc; exact hacc
  | cons d ds ih =>
    intro acc hacc
    rw [List.foldl_cons]
    apply ih
    unfold branchStep
    rcases heq : acc with _ | _ | _ | _ | _
    · simp
    · simp
    · rcases hrr : r (setCell v i [d]) with _ | _ | _ | _ | _ <;> simp
      exact absurd hrr (hr d)
    · exact absurd heq hacc
    · simp

lemma allSolved_false_cell (v : Board) (hns : allSolved v = false)
    (hne : hasEmpty v = false) :
    ∃ j, j < v.length ∧ 1 < (getCell v j).length := by
  unfold allSolved at hns
  obtain ⟨c, hc, hcl⟩ : ∃ c ∈ v, ¬(c.length == 1) = true := by
    by_contra hno
    push_neg at hno
    have : v.all (fun c => c.length == 1) = true := List.all_eq_true.2 (by
      intro c hc
      exact hno c hc)
    rw [this] at hns
    exact Bool.noConfusion hns
  obtain ⟨j, hj, hget⟩ := List.mem_iff_getElem.1 hc
  refine ⟨j, hj, ?_⟩
  have hgc : getCell v j = c := by
    rw [getCell_eq_getElem?, List.getElem?_eq_getElem hj, Option.getD_some, hget]
  have hc0 : c.length ≠ 0 := by
    intro h0
    have : hasEmpty v = true := by
      rw [hasEmpty_iff]
      exact ⟨j, hj, by rw [hgc]; exact List.length_eq_zero.1 h0⟩
    rw [this] at hne
    exact Bool.noConfusion hne
  have hc1 : c.length ≠ 1 := by simpa using hcl
  rw [hgc]
  omega

lemma chooseBox_isSome (v : Board) (hne : hasEmpty v = false) (hns : allSolved v = false) :
    ∃ m, chooseBox v = some m := by
  obtain ⟨j, hj, hlen⟩ := allSolved_false_cell v hns hne
  have hmem : (j, (getCell v j).length) ∈ boxesLengths v := by
    unfold boxesLengths
    apply List.mem_map.2
    refine ⟨(j, getCell v j), ?_, rfl⟩
    apply List.mem_filter.2
    refine ⟨List.mk_mem_enum_iff_getElem?.2 ?_, by simpa using hlen⟩
    rw [getCell_eq_getElem?, List.getElem?_eq_getElem hj]
    rfl
  unfold chooseBox
  rcases hsl : sortByLen (boxesLengths v) with _ | ⟨x, xs⟩
  · have : (j, (getCell v j).length) ∈ sortByLen (boxesLengths v) :=
      (List.perm_insertionSort _ _).mem_iff.2 hmem
    rw [hsl] at this
    simp at this
  · exact ⟨_, rfl⟩

lemma searchFuel_ne_error :
    ∀ (fuel : Nat) (b : Board), searchFuel fuel b ≠ SRes.error := by
  intro fuel
  induction fuel with
  | zero => intro b; simp [searchFuel]
  | succ n ih =>
    intro b
    rcases hred : reduce_puzzle b with _ | r
    · rw [searchFuel_succ, hred, searchCore_none]; simp
    rcases r with v | _
    · rcases hs : allSolved v with _ | _
      · obtain ⟨m, hcb⟩ := chooseBox_isSome v (reduce_board_not_empty b v hred) hs
        rw [searchFuel_succ_branch n b v m hred hs hcb]
        refine branch_foldl_ne_error _ v m.1 ?_ _ _ (by simp)
        intro d
        exact ih (setCell v m.1 [d])
      · rw [searchFuel_succ_solved n b v hred hs]; simp
    · rw [searchFuel_succ_fail n b hred]; simp

lemma search_ok_solved :
    ∀ (fuel : Nat) (b v : Board), searchFuel fuel b = SRes.ok v → allSolved v = true := by
  intro fuel
  induction fuel with
  | zero => intro b v h; simp [searchFuel] at h
  | succ n ih =>
    intro b v h
    rcases hred : reduce_puzzle b with _ | r
    · rw [searchFuel_succ, hred, searchCore_none] at h; simp at h
    rcases r with w | _
    · rcases hs : allSolved w with _ | _
      · rcases hcb : chooseBox w with _ | m
        · rw [searchFuel_succ, hred, searchCore_noBox _ w hs hcb] at h; simp at h
        · rw [searchFuel_succ_branch n b w m hred hs hcb] at h
          rcases branch_foldl_ok_inv _ w m.1 v _ SRes.pyNone h with hacc | ⟨d, _, hr⟩
          · simp at hacc
          · exact ih _ v hr
      · rw [searchFuel_succ_solved n b w hred hs] at h
        cases h
        exact hs
    · rw [searchFuel_succ_fail n b hred] at h; simp at h

/-! ## Monotonicity of a pass on boards it does not empty -/

lemma solvedCount_eq_range :
    ∀ (b : Board),
      solvedCount b = (List.range b.length).countP (fun j => (getCell b j).length == 1) := by
  intro b
  induction b with
  | nil => rfl
  | cons c t ih =>
    rw [solvedCount_eq_countP, List.countP_cons]
    rw [solvedCount_eq_countP] at ih
    show _ = (List.range (t.length + 1)).countP _
    rw [List.range_succ_eq_map, List.countP_cons, List.countP_map]
    congr 1

lemma cell_of_length_one (c : Cell) (h : c.length = 1) : ∃ d, c = [d] := by
  rcases c with _ | ⟨d, _ | _⟩
  · simp at h
  · exact ⟨d, rfl⟩
  · simp at h

lemma pass_mono (b : Board) (h : hasEmpty (onePass b) = false) :
    solvedCount b ≤ solvedCount (onePass b) := by
  rw [solvedCount_eq_range b, solvedCount_eq_range (onePass b), length_onePass]
  apply List.countP_mono_left
  intro j hj hsolved
  obtain ⟨d, hd⟩ := cell_of_length_one (getCell b j) (by simpa using hsolved)
  have hsub := shrink_onePass b j
  rw [hd] at hsub
  rcases List.sublist_singleton.1 hsub with hnil | hone
  · exfalso
    have : hasEmpty (onePass b) = true := by
      rw [hasEmpty_iff]
      refine ⟨j, ?_, hnil⟩
      rw [length_onePass]
      exact List.mem_range.1 hj
    rw [this] at h
    exact Bool.noConfusion h
  · rw [hone]
    rfl

/-! ## Identity on solved boards -/

lemma setCell_same (b : Board) (i : Nat) (c : Cell) (h : getCell b i = c) :
    setCell b i c = b := by
  apply board_ext _ _ (length_setCell b i c)
  intro j
  by_cases hij : i = j
  · subst hij
    by_cases hi : i < b.length
    · rw [getCell_setCell_self b i c hi, h]
    · rw [setCell_of_le b i c (Nat.le_of_not_lt hi)]
  · rw [getCell_setCell_ne b i j c hij]

lemma foldl_id {α : Type} (f : Board → α → Board) (b : Board) :
    ∀ l : List α, (∀ x ∈ l, f b x = b) → l.foldl f b = b := by
  intro l
  induction l with
  | nil => intro _; rfl
  | cons x xs ih =>
    intro hf
    rw [List.foldl_cons, hf x (List.mem_cons_self x xs)]
    exact ih (fun y hy => hf y (List.mem_cons_of_mem x hy))

lemma doubles_nil_of_allSolved (b : Board) (h : allSolved b = true) : doubles b = [] := by
  unfold doubles
  rw [List.filter_eq_nil]
  intro box _
  by_cases hb : box < b.length
  · obtain ⟨d, hd⟩ := allSolved_cell b h box hb
    rw [hd]
    simp
  · rw [getCell_eq_getElem?, List.getElem?_eq_none (Nat.le_of_not_lt hb)]
    simp

lemma naked_twins_id_of_allSolved (b : Board) (h : allSolved b = true) :
    naked_twins b = b := by
  unfold naked_twins values_to_replace twinPairs
  rw [doubles_nil_of_allSolved b h]
  rfl

lemma ocStep_id_of_allSolved (b : Board) (h : allSolved b = true) (u : List Nat) (d : Nat) :
    ocStep b u d = b := by
  unfold ocStep
  rcases hf : u.filter (fun box => (getCell b box).contains d) with _ | ⟨box, rest⟩
  · rfl
  rcases rest with _ | _
  · have hmem : box ∈ u.filter (fun box => (getCell b box).contains d) := by
      rw [hf]; exact List.mem_singleton.2 rfl
    have hcond := List.of_mem_filter hmem
    have hd : d ∈ getCell b box := by simpa using hcond
    by_cases hb : box < b.length
    · obtain ⟨e, he⟩ := allSolved_cell b h box hb
      have : d = e := by
        rw [he] at hd
        simpa using hd
      apply setCell_same
      rw [he, this]
    · rw [getCell_eq_getElem?, List.getElem?_eq_none (Nat.le_of_not_lt hb)] at hd
      simp at hd
  · rfl

lemma only_choice_id_of_allSolved (b : Board) (h : allSolved b = true) :
    only_choice b = b := by
  unfold only_choice
  apply foldl_id
  intro u _
  unfold ocUnit
  apply foldl_id
  intro d _
  exact ocStep_id_of_allSolved b h u d

/-- No two peers hold the same candidate set (for solved boards: no conflict). -/
def noPeerConflict (b : Board) : Prop :=
  ∀ s, s < 81 → ∀ t, t ∈ peers s → getCell b t ≠ getCell b s

lemma elimStep_id_of_valid (b : Board) (hlen : b.length = 81) (h : allSolved b = true)
    (hv : noPeerConflict b) (s : Nat) (hs : s < 81) : elimStep b s = b := by
  unfold elimStep
  rcases hc : getCell b s with _ | ⟨d, rest⟩
  · rfl
  rcases rest with _ | _
  · apply foldl_id
    intro p hp
    have hplt : p < 81 := peers_lt s p hp
    obtain ⟨e, he⟩ := allSolved_cell b h p (by omega)
    have hne : getCell b p ≠ getCell b s := hv s hs p hp
    rw [hc, he] at hne
    have hde : e ≠ d := fun hh => hne (by rw [hh])
    apply setCell_same
    rw [he]
    simp [hde]
  · rfl

lemma eliminate_id_of_valid (b : Board) (hlen : b.length = 81) (h : allSolved b = true)
    (hv : noPeerConflict b) : eliminate b = b := by
  unfold eliminate
  apply foldl_id
  intro s hs
  exact elimStep_id_of_valid b hlen h hv s (List.mem_range.1 hs)

/-! ## Characterizing the recorded twin pairs and removals -/

lemma twin_inner_mem (v : Board) (box : Nat) (q : Nat × Nat) :
    ∀ (l : List Nat) (acc : List (Nat × Nat)),
      (q ∈ l.foldl (fun acc2 twin =>
        if getCell v box = getCell v twin then
          if acc2.contains (canonPair box twin) then acc2
          else acc2 ++ [canonPair box twin]
        else acc2) acc) ↔
      (q ∈ acc ∨ ∃ twin ∈ l, getCell v box = getCell v twin ∧ q = canonPair box twin) := by
  intro l
  induction l with
  | nil => intro acc; simp
  | cons t ts ih =>
    intro acc
    rw [List.foldl_cons, ih]
    constructor
    · rintro (hin | ⟨tw, htw, hcond, hq⟩)
      · by_cases hc : getCell v box = getCell v t
        · rw [if_pos hc] at hin
          by_cases hdup : acc.contains (canonPair box t)
          · rw [if_pos hdup] at hin
            exact Or.inl hin
          · rw [if_neg hdup] at hin
            rcases List.mem_append.1 hin with hin | hin
            · exact Or.inl hin
            · exact Or.inr ⟨t, List.mem_cons_self t ts, hc, by simpa using hin⟩
        · rw [if_neg hc] at hin
          exact Or.inl hin
      · exact Or.inr ⟨tw, List.mem_cons_of_mem t htw, hcond, hq⟩
    · rintro (hin | ⟨tw, htw, hcond, hq⟩)
      · left
        by_cases hc : getCell v box = getCell v t
        · rw [if_pos hc]
          by_cases hdup : acc.contains (canonPair box t)
          · rw [if_pos hdup]; exact hin
          · rw [if_neg hdup]; exact List.mem_append_left _ hin
        · rw [if_neg hc]; exact hin
      · rcases List.mem_cons.1 htw with htw | htw
        · subst htw
          left
          rw [if_pos hcond]
          by_cases hdup : acc.contains (canonPair box tw)
          · rw [if_pos hdup]
            rw [hq]
            simpa using hdup
          · rw [if_neg hdup]
            exact List.mem_append_right _ (by simpa using hq)
        · exact Or.inr ⟨tw, htw, hcond, hq⟩

lemma twin_inner_nodup (v : Board) (box : Nat) :
    ∀ (l : List Nat) (acc : List (Nat × Nat)), acc.Nodup →
      (l.foldl (fun acc2 twin =>
        if getCell v box = getCell v twin then
          if acc2.contains (canonPair box twin) then acc2
          else acc2 ++ [canonPair box twin]
        else acc2) acc).Nodup := by
  intro l
  induction l with
  | nil => intro acc h; exact h
  | cons t ts ih =>
    intro acc h
    rw [List.foldl_cons]
    apply ih
    by_cases hc : getCell v box = getCell v t
    · rw [if_pos hc]
      by_cases hdup : acc.contains (canonPair box t)
      · rw [if_pos hdup]; exact h
      · rw [if_neg hdup]
        rw [List.nodup_append]
        refine ⟨h, List.nodup_singleton _, ?_⟩
        intro a ha hb
        have hacp : a = canonPair box t := List.mem_singleton.1 hb
        subst hacp
        exact (by simpa using hdup : canonPair box t ∉ acc) ha
    · rw [if_neg hc]; exact h

lemma mem_twinPairs (v : Board) (q : Nat × Nat) :
    q ∈ twinPairs v ↔
      ∃ s t, s < 81 ∧ (getCell v s).length = 2 ∧ t ∈ peers s ∧
        getCell v s = getCell v t ∧ q = canonPair s t := by
  unfold twinPairs
  have main : ∀ (l : List Nat) (acc : List (Nat × Nat)),
      (q ∈ l.foldl (fun acc box =>
        (peers box).foldl (fun acc2 twin =>
          if getCell v box = getCell v twin then
            if acc2.contains (canonPair box twin) then acc2
            else acc2 ++ [canonPair box twin]
          else acc2) acc) acc) ↔
      (q ∈ acc ∨ ∃ s ∈ l, ∃ t ∈ peers s, getCell v s = getCell v t ∧ q = canonPair s t) := by
    intro l
    induction l with
    | nil => intro acc; simp
    | cons s ss ih =>
      intro acc
      rw [List.foldl_cons, ih, twin_inner_mem]
      constructor
      · rintro ((hin | ⟨tw, htw, hcond, hq⟩) | ⟨s', hs', t', ht', hcond, hq⟩)
        · exact Or.inl hin
        · exact Or.inr ⟨s, List.mem_cons_self s ss, tw, htw, hcond, hq⟩
        · exact Or.inr ⟨s', List.mem_cons_of_mem s hs', t', ht', hcond, hq⟩
      · rintro (hin | ⟨s', hs', t', ht', hcond, hq⟩)
        · exact Or.inl (Or.inl hin)
        · rcases List.mem_cons.1 hs' with hs' | hs'
          · subst hs'
            exact Or.inl (Or.inr ⟨t', ht', hcond, hq⟩)
          · exact Or.inr ⟨s', hs', t', ht', hcond, hq⟩
  rw [main]
  simp only [List.not_mem_nil, false_or]
  constructor
  · rintro ⟨s, hs, t, ht, hcond, hq⟩
    have hsdb := List.mem_filter.1 hs
    refine ⟨s, t, List.mem_range.1 hsdb.1, by simpa using hsdb.2, ht, hcond, hq⟩
  · rintro ⟨s, t, hs81, hlen2, ht, hcond, hq⟩
    refine ⟨s, ?_, t, ht, hcond, hq⟩
    unfold doubles
    exact List.mem_filter.2 ⟨List.mem_range.2 hs81, by simpa using hlen2⟩

lemma twinPairs_nodup (v : Board) : (twinPairs v).Nodup := by
  unfold twinPairs
  have main : ∀ (l : List Nat) (acc : List (Nat × Nat)), acc.Nodup →
      (l.foldl (fun acc box =>
        (peers box).foldl (fun acc2 twin =>
          if getCell v box = getCell v twin then
            if acc2.contains (canonPair box twin) then acc2
            else acc2 ++ [canonPair box twin]
          else acc2) acc) acc).Nodup := by
    intro l
    induction l with
    | nil => intro acc h; exact h
    | cons s ss ih =>
      intro acc h
      rw [List.foldl_cons]
      exact ih _ (twin_inner_nodup v s (peers s) acc h)
  exact main (doubles v) [] List.nodup_nil

lemma mem_pairRemovals (v : Board) (p : Nat × Nat) (pr : Nat × Nat) :
    pr ∈ pairRemovals v p ↔
      pr.1 ∈ peers p.1 ∧ pr.1 ∈ peers p.2 ∧ pr.2 ∈ getCell v pr.1 ∧
        (pr.2 = (getCell v p.1).getD 0 0 ∨ pr.2 = (getCell v p.1).getD 1 0) := by
  unfold pairRemovals
  have main : ∀ (l : List Nat) (acc : List (Nat × Nat)),
      (pr ∈ l.foldl (fun acc box =>
        let acc1 := if (getCell v box).contains ((getCell v p.1).getD 0 0) then
          acc ++ [(box, (getCell v p.1).getD 0 0)] else acc
        if (getCell v box).contains ((getCell v p.1).getD 1 0) then
          acc1 ++ [(box, (getCell v p.1).getD 1 0)] else acc1) acc) ↔
      (pr ∈ acc ∨ ∃ box ∈ l, pr.1 = box ∧ pr.2 ∈ getCell v box ∧
        (pr.2 = (getCell v p.1).getD 0 0 ∨ pr.2 = (getCell v p.1).getD 1 0)) := by
    intro l
    induction l with
    | nil => intro acc; simp
    | cons x xs ih =>
      intro acc
      rw [List.foldl_cons, ih]
      constructor
      · rintro (hin | ⟨box, hbox, h1, h2, h3⟩)
        · simp only at hin
          by_cases hc2 : (getCell v x).contains ((getCell v p.1).getD 1 0)
          · rw [if_pos hc2] at hin
            rcases List.mem_append.1 hin with hin | hin
            · by_cases hc1 : (getCell v x).contains ((getCell v p.1).getD 0 0)
              · rw [if_pos hc1] at hin
                rcases List.mem_append.1 hin with hin | hin
                · exact Or.inl hin
                · have := List.mem_singleton.1 hin
                  refine Or.inr ⟨x, List.mem_cons_self x xs, ?_, ?_, Or.inl ?_⟩
                  · rw [this]
                  · rw [this]; simpa using hc1
                  · rw [this]
              · rw [if_neg hc1] at hin
                exact Or.inl hin
            · have := List.mem_singleton.1 hin
              refine Or.inr ⟨x, List.mem_cons_self x xs, ?_, ?_, Or.inr ?_⟩
              · rw [this]
              · rw [this]; simpa using hc2
              · rw [this]
          · rw [if_neg hc2] at hin
            by_cases hc1 : (getCell v x).contains ((getCell v p.1).getD 0 0)
            · rw [if_pos hc1] at hin
              rcases List.mem_append.1 hin with hin | hin
              · exact Or.inl hin
              · have := List.mem_singleton.1 hin
                refine Or.inr ⟨x, List.mem_cons_self x xs, ?_, ?_, Or.inl ?_⟩
                · rw [this]
                · rw [this]; simpa using hc1
                · rw [this]
            · rw [if_neg hc1] at hin
              exact Or.inl hin
        · exact Or.inr ⟨box, List.mem_cons_of_mem x hbox, h1, h2, h3⟩
      · rintro (hin | ⟨box, hbox, h1, h2, h3⟩)
        · left
          simp only
          by_cases hc2 : (getCell v x).contains ((getCell v p.1).getD 1 0)
          · rw [if_pos hc2]
            apply List.mem_append_left
            by_cases hc1 : (getCell v x).contains ((getCell v p.1).getD 0 0)
            · rw [if_pos hc1]
              exact List.mem_append_left _ hin
            · rw [if_neg hc1]; exact hin
          · rw [if_neg hc2]
            by_cases hc1 : (getCell v x).contains ((getCell v p.1).getD 0 0)
            · rw [if_pos hc1]
              exact List.mem_append_left _ hin
            · rw [if_neg hc1]; exact hin
        · rcases List.mem_cons.1 hbox with hbox | hbox
          · subst hbox
            left
            simp only
            have hpr : pr = (pr.1, pr.2) := rfl
            rcases h3 with h3 | h3
            · have hc1 : (getCell v box).contains ((getCell v p.1).getD 0 0) := by
                rw [← h3]
                simpa using h2
              rw [if_pos hc1]
              by_cases hc2 : (getCell v box).contains ((getCell v p.1).getD 1 0)
              · rw [if_pos hc2]
                apply List.mem_append_left
                apply List.mem_append_right
                apply List.mem_singleton.2
                rw [hpr, h1, h3]
              · rw [if_neg hc2]
                apply List.mem_append_right
                apply List.mem_singleton.2
                rw [hpr, h1, h3]
            · have hc2 : (getCell v box).contains ((getCell v p.1).getD 1 0) := by
                rw [← h3]
                simpa using h2
              rw [if_pos hc2]
              apply List.mem_append_right
              apply List.mem_singleton.2
              rw [hpr, h1, h3]
          · exact Or.inr ⟨box, hbox, h1, h2, h3⟩
  rw [main]
  simp only [List.not_mem_nil, false_or]
  constructor
  · rintro ⟨box, hbox, h1, h2, h3⟩
    have hfil := List.mem_filter.1 hbox
    subst h1
    exact ⟨hfil.1, by simpa using hfil.2, h2, h3⟩
  · rintro ⟨h1, h2, h3, h4⟩
    refine ⟨pr.1, List.mem_filter.2 ⟨h1, by simpa using h2⟩, rfl, h3, h4⟩

/-! ## Chunked evaluation of the propagation operators -/

lemma range81_split :
    List.range 81 =
      idxC0 ++ idxC1 ++ idxC2 ++ idxC3 ++ idxC4 ++ idxC5 ++ idxC6 ++ idxC7 ++ idxC8 := by rfl

lemma eliminate_chunks (b : Board) :
    eliminate b =
      List.foldl elimStep (List.foldl elimStep (List.foldl elimStep (List.foldl elimStep
        (List.foldl elimStep (List.foldl elimStep (List.foldl elimStep (List.foldl elimStep
          (List.foldl elimStep b idxC0) idxC1) idxC2) idxC3) idxC4) idxC5) idxC6) idxC7)
        idxC8 := by
  rw [eliminate, range81_split]
  rw [List.foldl_append, List.foldl_append, List.foldl_append, List.foldl_append,
      List.foldl_append, List.foldl_append, List.foldl_append, List.foldl_append]

lemma unitlist_split : unitlist = unitC0 ++ unitC1 ++ unitC2 := by rfl

lemma only_choice_chunks (b : Board) :
    only_choice b =
      List.foldl ocUnit (List.foldl ocUnit (List.foldl ocUnit b unitC0) unitC1) unitC2 := by
  rw [only_choice, unitlist_split, List.foldl_append, List.foldl_append]

lemma t3cnt0 : solvedCount gB0 = 67 := by decide!

lemma t3cnt1 : solvedCount gB1 = 67 := by decide!

lemma t3e0x0 : List.foldl elimStep gB0 idxC0 = gB2 := by decide!

lemma t3e0x1 : List.foldl elimStep gB2 idxC1 = gB3 := by decide!

lemma t3e0x2 : List.foldl elimStep gB3 idxC2 = gB4 := by decide!

lemma t3e0x3 : List.foldl elimStep gB4 idxC3 = gB5 := by decide!

lemma t3e0x4 : List.foldl elimStep gB5 idxC4 = gB6 := by decide!

lemma t3e0x5 : List.foldl elimStep gB6 idxC5 = gB7 := by decide!

lemma t3e0x6 : List.foldl elimStep gB7 idxC6 = gB8 := by decide!

lemma t3e0x7 : List.foldl elimStep gB8 idxC7 = gB1 := by decide!

lemma t3e0x8 : List.foldl elimStep gB1 idxC8 = gB1 := by decide!

lemma t3el0 : eliminate gB0 = gB1 := by
  rw [eliminate_chunks, t3e0x0, t3e0x1, t3e0x2, t3e0x3, t3e0x4, t3e0x5, t3e0x6, t3e0x7, t3e0x8]

lemma t3o0x0 : List.foldl ocUnit gB1 unitC0 = gB1 := by decide!

lemma t3o0x1 : List.foldl ocUnit gB1 unitC1 = gB1 := by decide!

lemma t3o0x2 : List.foldl ocUnit gB1 unitC2 = gB1 := by decide!

lemma t3oc0 : only_choice gB1 = gB1 := by
  rw [only_choice_chunks, t3o0x0, t3o0x1, t3o0x2]

lemma t3nt0 : naked_twins gB1 = gB1 := by decide!

lemma t3pass0 : onePass gB0 = gB1 := by
  rw [onePass, t3el0, t3oc0, t3nt0]

lemma t3red : reduceLoop 1 gB0 = some (RRes.board gB1) := by
  have hstop : reduceLoop 1 gB0 = some (RRes.board gB1) :=
    reduceLoop_step_stop_board 0 _ _ t3pass0 (by simp only [t3cnt1, t3cnt0]) (by decide!)
  rw [hstop]

lemma t3size : totalSize gB0 = 193 := by decide!

lemma t3reduce : reduce_puzzle gB0 = some (RRes.board gB1) := by
  apply reduce_puzzle_of_reduceLoop _ 1 _ t3red
  rw [t3size]
  omega

lemma t3c0cnt0 : solvedCount gB9 = 68 := by decide!

lemma t3c0cnt1 : solvedCount gB10 = 79 := by decide!

lemma t3c0cnt2 : solvedCount gB10 = 79 := by decide!

lemma t3c0e0x0 : List.foldl elimStep gB9 idxC0 = gB11 := by decide!

lemma t3c0e0x1 : List.foldl elimStep gB11 idxC1 = gB12 := by decide!

lemma t3c0e0x2 : List.foldl elimStep gB12 idxC2 = gB13 := by decide!

lemma t3c0e0x3 : List.foldl elimStep gB13 idxC3 = gB14 := by decide!

lemma t3c0e0x4 : List.foldl elimStep gB14 idxC4 = gB14 := by decide!

lemma t3c0e0x5 : List.foldl elimStep gB14 idxC5 = gB15 := by decide!

lemma t3c0e0x6 : List.foldl elimStep gB15 idxC6 = gB10 := by decide!

lemma t3c0e0x7 : List.foldl elimStep gB10 idxC7 = gB10 := by decide!

lemma t3c0e0x8 : List.foldl elimStep gB10 idxC8 = gB10 := by decide!

lemma t3c0el0 : eliminate gB9 = gB10 := by
  rw [eliminate_chunks, t3c0e0x0, t3c0e0x1, t3c0e0x2, t3c0e0x3, t3c0e0x4, t3c0e0x5, t3c0e0x6, t3c0e0x7, t3c0e0x8]

lemma t3c0o0x0 : List.foldl ocUnit gB10 unitC0 = gB10 := by decide!

lemma t3c0o0x1 : List.foldl ocUnit gB10 unitC1 = gB10 := by decide!

lemma t3c0o0x2 : List.foldl ocUnit gB10 unitC2 = gB10 := by decide!

lemma t3c0oc0 : only_choice gB10 = gB10 := by
  rw [only_choice_chunks, t3c0o0x0, t3c0o0x1, t3c0o0x2]

lemma t3c0nt0 : naked_twins gB10 = gB10 := by decide!

lemma t3c0pass0 : onePass gB9 = gB10 := by
  rw [onePass, t3c0el0, t3c0oc0, t3c0nt0]

lemma t3c0e1x0 : List.foldl elimStep gB10 idxC0 = gB10 := by decide!

lemma t3c0e1x1 : List.foldl elimStep gB10 idxC1 = gB10 := by decide!

lemma t3c0e1x2 : List.foldl elimStep gB10 idxC2 = gB10 := by decide!

lemma t3c0e1x3 : List.foldl elimStep gB10 idxC3 = gB10 := by decide!

lemma t3c0e1x4 : List.foldl elimStep gB10 idxC4 = gB10 := by decide!

lemma t3c0e1x5 : List.foldl elimStep gB10 idxC5 = gB10 := by decide!

lemma t3c0e1x6 : List.foldl elimStep gB10 idxC6 = gB10 := by decide!

lemma t3c0e1x7 : List.foldl elimStep gB10 idxC7 = gB10 := by decide!

lemma t3c0e1x8 : List.foldl elimStep gB10 idxC8 = gB10 := by decide!

lemma t3c0el1 : eliminate gB10 = gB10 := by
  rw [eliminate_chunks, t3c0e1x0, t3c0e1x1, t3c0e1x2, t3c0e1x3, t3c0e1x4, t3c0e1x5, t3c0e1x6, t3c0e1x7, t3c0e1x8]

lemma t3c0o1x0 : List.foldl ocUnit gB10 unitC0 = gB10 := by decide!

lemma t3c0o1x1 : List.foldl ocUnit gB10 unitC1 = gB10 := by decide!

lemma t3c0o1x2 : List.foldl ocUnit gB10 unitC2 = gB10 := by decide!

lemma t3c0oc1 : only_choice gB10 = gB10 := by
  rw [only_choice_chunks, t3c0o1x0, t3c0o1x1, t3c0o1x2]

lemma t3c0nt1 : naked_twins gB10 = gB10 := by decide!

lemma t3c0pass1 : onePass gB10 = gB10 := by
  rw [onePass, t3c0el1, t3c0oc1, t3c0nt1]

lemma t3c0red : reduceLoop 2 gB9 = some RRes.fail := by
  have h0 : reduceLoop 2 gB9 = reduceLoop 1 gB10 :=
    reduceLoop_step_cont 1 _ _ t3c0pass0 (by rw [t3c0cnt1, t3c0cnt0]; decide)
  have hstop : reduceLoop 1 gB10 = some RRes.fail :=
    reduceLoop_step_stop_fail 0 _ _ t3c0pass1 (by simp only [t3c0cnt2, t3c0cnt1]) (by decide!)
  rw [h0, hstop]

lemma t3c0size : totalSize gB9 = 94 := by decide!

lemma t3c0reduce : reduce_puzzle gB9 = some RRes.fail := by
  apply reduce_puzzle_of_reduceLoop _ 2 _ t3c0red
  rw [t3c0size]
  omega

lemma t3c0node : searchFuel 193 gB9 = SRes.pyFalse := by
  rw [show (193 : Nat) = 192 + 1 from rfl]
  exact searchFuel_succ_fail 192 _ t3c0reduce

lemma t3c1cnt0 : solvedCount gB16 = 68 := by decide!

lemma t3c1cnt1 : solvedCount gB17 = 79 := by decide!

lemma t3c1cnt2 : solvedCount gB17 = 79 := by decide!

lemma t3c1e0x0 : List.foldl elimStep gB16 idxC0 = gB18 := by decide!

lemma t3c1e0x1 : List.foldl elimStep gB18 idxC1 = gB19 := by decide!

lemma t3c1e0x2 : List.foldl elimStep gB19 idxC2 = gB20 := by decide!

lemma t3c1e0x3 : List.foldl elimStep gB20 idxC3 = gB21 := by decide!

lemma t3c1e0x4 : List.foldl elimStep gB21 idxC4 = gB21 := by decide!

lemma t3c1e0x5 : List.foldl elimStep gB21 idxC5 = gB22 := by decide!

lemma t3c1e0x6 : List.foldl elimStep gB22 idxC6 = gB17 := by decide!

lemma t3c1e0x7 : List.foldl elimStep gB17 idxC7 = gB17 := by decide!

lemma t3c1e0x8 : List.foldl elimStep gB17 idxC8 = gB17 := by decide!

lemma t3c1el0 : eliminate gB16 = gB17 := by
  rw [eliminate_chunks, t3c1e0x0, t3c1e0x1, t3c1e0x2, t3c1e0x3, t3c1e0x4, t3c1e0x5, t3c1e0x6, t3c1e0x7, t3c1e0x8]

lemma t3c1o0x0 : List.foldl ocUnit gB17 unitC0 = gB17 := by decide!

lemma t3c1o0x1 : List.foldl ocUnit gB17 unitC1 = gB17 := by decide!

lemma t3c1o0x2 : List.foldl ocUnit gB17 unitC2 = gB17 := by decide!

lemma t3c1oc0 : only_choice gB17 = gB17 := by
  rw [only_choice_chunks, t3c1o0x0, t3c1o0x1, t3c1o0x2]

lemma t3c1nt0 : naked_twins gB17 = gB17 := by decide!

lemma t3c1pass0 : onePass gB16 = gB17 := by
  rw [onePass, t3c1el0, t3c1oc0, t3c1nt0]

lemma t3c1e1x0 : List.foldl elimStep gB17 idxC0 = gB17 := by decide!

lemma t3c1e1x1 : List.foldl elimStep gB17 idxC1 = gB17 := by decide!

lemma t3c1e1x2 : List.foldl elimStep gB17 idxC2 = gB17 := by decide!

lemma t3c1e1x3 : List.foldl elimStep gB17 idxC3 = gB17 := by decide!

lemma t3c1e1x4 : List.foldl elimStep gB17 idxC4 = gB17 := by decide!

lemma t3c1e1x5 : List.foldl elimStep gB17 idxC5 = gB17 := by decide!

lemma t3c1e1x6 : List.foldl elimStep gB17 idxC6 = gB17 := by decide!

lemma t3c1e1x7 : List.foldl elimStep gB17 idxC7 = gB17 := by decide!

lemma t3c1e1x8 : List.foldl elimStep gB17 idxC8 = gB17 := by decide!

lemma t3c1el1 : eliminate gB17 = gB17 := by
  rw [eliminate_chunks, t3c1e1x0, t3c1e1x1, t3c1e1x2, t3c1e1x3, t3c1e1x4, t3c1e1x5, t3c1e1x6, t3c1e1x7, t3c1e1x8]

lemma t3c1o1x0 : List.foldl ocUnit gB17 unitC0 = gB17 := by decide!

lemma t3c1o1x1 : List.foldl ocUnit gB17 unitC1 = gB17 := by decide!

lemma t3c1o1x2 : List.foldl ocUnit gB17 unitC2 = gB17 := by decide!

lemma t3c1oc1 : only_choice gB17 = gB17 := by
  rw [only_choice_chunks, t3c1o1x0, t3c1o1x1, t3c1o1x2]

lemma t3c1nt1 : naked_twins gB17 = gB17 := by decide!

lemma t3c1pass1 : onePass gB17 = gB17 := by
  rw [onePass, t3c1el1, t3c1oc1, t3c1nt1]

lemma t3c1red : reduceLoop 2 gB16 = some RRes.fail := by
  have h0 : reduceLoop 2 gB16 = reduceLoop 1 gB17 :=
    reduceLoop_step_cont 1 _ _ t3c1pass0 (by rw [t3c1cnt1, t3c1cnt0]; decide)
  have hstop : reduceLoop 1 gB17 = some RRes.fail :=
    reduceLoop_step_stop_fail 0 _ _ t3c1pass1 (by simp only [t3c1cnt2, t3c1cnt1]) (by decide!)
  rw [h0, hstop]

lemma t3c1size : totalSize gB16 = 94 := by decide!

lemma t3c1reduce : reduce_puzzle gB16 = some RRes.fail := by
  apply reduce_puzzle_of_reduceLoop _ 2 _ t3c1red
  rw [t3c1size]
  omega

lemma t3c1node : searchFuel 193 gB16 = SRes.pyFalse := by
  rw [show (193 : Nat) = 192 + 1 from rfl]
  exact searchFuel_succ_fail 192 _ t3c1reduce

lemma t3node : searchFuel 194 gB0 = SRes.pyNone := by
  rw [show (194 : Nat) = 193 + 1 from rfl]
  rw [searchFuel_succ_branch 193 _ _ (0, 2) t3reduce (by decide!) (by decide!)]
  rw [show getCell gB1 0 = [1, 2] by decide!]
  rw [branch_foldl_cons_falsy _ _ _ _ _ (Or.inl (by
    show searchFuel 193 (setCell gB1 0 [1]) = SRes.pyFalse
    rw [show setCell gB1 0 [1] = gB9 by decide!]
    exact t3c0node))]
  rw [branch_foldl_cons_falsy _ _ _ _ _ (Or.inl (by
    show searchFuel 193 (setCell gB1 0 [2]) = SRes.pyFalse
    rw [show setCell gB1 0 [2] = gB16 by decide!]
    exact t3c1node))]
  exact branch_foldl_nil _ _ _

-- C3 root: result pyNone OK; board gB0, fuel 194

lemma t2cnt0 : solvedCount gB23 = 1 := by decide!

lemma t2cnt1 : solvedCount gB24 = 1 := by decide!

lemma t2e0x0 : List.foldl elimStep gB23 idxC0 = gB23 := by decide!

lemma t2e0x1 : List.foldl elimStep gB23 idxC1 = gB23 := by decide!

lemma t2e0x2 : List.foldl elimStep gB23 idxC2 = gB23 := by decide!

lemma t2e0x3 : List.foldl elimStep gB23 idxC3 = gB23 := by decide!

lemma t2e0x4 : List.foldl elimStep gB23 idxC4 = gB23 := by decide!

lemma t2e0x5 : List.foldl elimStep gB23 idxC5 = gB23 := by decide!

lemma t2e0x6 : List.foldl elimStep gB23 idxC6 = gB23 := by decide!

lemma t2e0x7 : List.foldl elimStep gB23 idxC7 = gB24 := by decide!

lemma t2e0x8 : List.foldl elimStep gB24 idxC8 = gB24 := by decide!

lemma t2el0 : eliminate gB23 = gB24 := by
  rw [eliminate_chunks, t2e0x0, t2e0x1, t2e0x2, t2e0x3, t2e0x4, t2e0x5, t2e0x6, t2e0x7, t2e0x8]

lemma t2o0x0 : List.foldl ocUnit gB24 unitC0 = gB24 := by decide!

lemma t2o0x1 : List.foldl ocUnit gB24 unitC1 = gB24 := by decide!

lemma t2o0x2 : List.foldl ocUnit gB24 unitC2 = gB24 := by decide!

lemma t2oc0 : only_choice gB24 = gB24 := by
  rw [only_choice_chunks, t2o0x0, t2o0x1, t2o0x2]

lemma t2nt0 : naked_twins gB24 = gB24 := by decide!

lemma t2pass0 : onePass gB23 = gB24 := by
  rw [onePass, t2el0, t2oc0, t2nt0]

lemma t2red : reduceLoop 1 gB23 = some (RRes.board gB24) := by
  have hstop : reduceLoop 1 gB23 = some (RRes.board gB24) :=
    reduceLoop_step_stop_board 0 _ _ t2pass0 (by simp only [t2cnt1, t2cnt0]) (by decide!)
  rw [hstop]

lemma t2size : totalSize gB23 = 721 := by decide!

lemma t2reduce : reduce_puzzle gB23 = some (RRes.board gB24) := by
  apply reduce_puzzle_of_reduceLoop _ 1 _ t2red
  rw [t2size]
  omega

-- C2: input gB23, reduced gB24, chooseBox some (0, 9), len cell69 8, len cell0 9

lemma t4cnt0 : solvedCount gB25 = 2 := by decide!

lemma t4cnt1 : solvedCount gB26 = 1 := by decide!

lemma t4cnt2 : solvedCount gB26 = 1 := by decide!

lemma t4e0x0 : List.foldl elimStep gB25 idxC0 = gB26 := by decide!

lemma t4e0x1 : List.foldl elimStep gB26 idxC1 = gB26 := by decide!

lemma t4e0x2 : List.foldl elimStep gB26 idxC2 = gB26 := by decide!

lemma t4e0x3 : List.foldl elimStep gB26 idxC3 = gB26 := by decide!

lemma t4e0x4 : List.foldl elimStep gB26 idxC4 = gB26 := by decide!

lemma t4e0x5 : List.foldl elimStep gB26 idxC5 = gB26 := by decide!

lemma t4e0x6 : List.foldl elimStep gB26 idxC6 = gB26 := by decide!

lemma t4e0x7 : List.foldl elimStep gB26 idxC7 = gB26 := by decide!

lemma t4e0x8 : List.foldl elimStep gB26 idxC8 = gB26 := by decide!

lemma t4el0 : eliminate gB25 = gB26 := by
  rw [eliminate_chunks, t4e0x0, t4e0x1, t4e0x2, t4e0x3, t4e0x4, t4e0x5, t4e0x6, t4e0x7, t4e0x8]

lemma t4o0x0 : List.foldl ocUnit gB26 unitC0 = gB26 := by decide!

lemma t4o0x1 : List.foldl ocUnit gB26 unitC1 = gB26 := by decide!

lemma t4o0x2 : List.foldl ocUnit gB26 unitC2 = gB26 := by decide!

lemma t4oc0 : only_choice gB26 = gB26 := by
  rw [only_choice_chunks, t4o0x0, t4o0x1, t4o0x2]

lemma t4nt0 : naked_twins gB26 = gB26 := by decide!

lemma t4pass0 : onePass gB25 = gB26 := by
  rw [onePass, t4el0, t4oc0, t4nt0]

lemma t4e1x0 : List.foldl elimStep gB26 idxC0 = gB26 := by decide!

lemma t4e1x1 : List.foldl elimStep gB26 idxC1 = gB26 := by decide!

lemma t4e1x2 : List.foldl elimStep gB26 idxC2 = gB26 := by decide!

lemma t4e1x3 : List.foldl elimStep gB26 idxC3 = gB26 := by decide!

lemma t4e1x4 : List.foldl elimStep gB26 idxC4 = gB26 := by decide!

lemma t4e1x5 : List.foldl elimStep gB26 idxC5 = gB26 := by decide!

lemma t4e1x6 : List.foldl elimStep gB26 idxC6 = gB26 := by decide!

lemma t4e1x7 : List.foldl elimStep gB26 idxC7 = gB26 := by decide!

lemma t4e1x8 : List.foldl elimStep gB26 idxC8 = gB26 := by decide!

lemma t4el1 : eliminate gB26 = gB26 := by
  rw [eliminate_chunks, t4e1x0, t4e1x1, t4e1x2, t4e1x3, t4e1x4, t4e1x5, t4e1x6, t4e1x7, t4e1x8]

lemma t4o1x0 : List.foldl ocUnit gB26 unitC0 = gB26 := by decide!

lemma t4o1x1 : List.foldl ocUnit gB26 unitC1 = gB26 := by decide!

lemma t4o1x2 : List.foldl ocUnit gB26 unitC2 = gB26 := by decide!

lemma t4oc1 : only_choice gB26 = gB26 := by
  rw [only_choice_chunks, t4o1x0, t4o1x1, t4o1x2]

lemma t4nt1 : naked_twins gB26 = gB26 := by decide!

lemma t4pass1 : onePass gB26 = gB26 := by
  rw [onePass, t4el1, t4oc1, t4nt1]

lemma t4red : reduceLoop 2 gB25 = some RRes.fail := by
  have h0 : reduceLoop 2 gB25 = reduceLoop 1 gB26 :=
    reduceLoop_step_cont 1 _ _ t4pass0 (by rw [t4cnt1, t4cnt0]; decide)
  have hstop : reduceLoop 1 gB26 = some RRes.fail :=
    reduceLoop_step_stop_fail 0 _ _ t4pass1 (by simp only [t4cnt2, t4cnt1]) (by decide!)
  rw [h0, hstop]

lemma t4size : totalSize gB25 = 713 := by decide!

lemma t4reduce : reduce_puzzle gB25 = some RRes.fail := by
  apply reduce_puzzle_of_reduceLoop _ 2 _ t4red
  rw [t4size]
  omega

-- C4: input gB25, result fail expected: fail OK

lemma t1cnt0 : solvedCount gB27 = 81 := by decide!

lemma t1cnt1 : solvedCount gB27 = 81 := by decide!

lemma t1e0x0 : List.foldl elimStep gB27 idxC0 = gB27 := by decide!

lemma t1e0x1 : List.foldl elimStep gB27 idxC1 = gB27 := by decide!

lemma t1e0x2 : List.foldl elimStep gB27 idxC2 = gB27 := by decide!

lemma t1e0x3 : List.foldl elimStep gB27 idxC3 = gB27 := by decide!

lemma t1e0x4 : List.foldl elimStep gB27 idxC4 = gB27 := by decide!

lemma t1e0x5 : List.foldl elimStep gB27 idxC5 = gB27 := by decide!

lemma t1e0x6 : List.foldl elimStep gB27 idxC6 = gB27 := by decide!

lemma t1e0x7 : List.foldl elimStep gB27 idxC7 = gB27 := by decide!

lemma t1e0x8 : List.foldl elimStep gB27 idxC8 = gB27 := by decide!

lemma t1el0 : eliminate gB27 = gB27 := by
  rw [eliminate_chunks, t1e0x0, t1e0x1, t1e0x2, t1e0x3, t1e0x4, t1e0x5, t1e0x6, t1e0x7, t1e0x8]

lemma t1o0x0 : List.foldl ocUnit gB27 unitC0 = gB27 := by decide!

lemma t1o0x1 : List.foldl ocUnit gB27 unitC1 = gB27 := by decide!

lemma t1o0x2 : List.foldl ocUnit gB27 unitC2 = gB27 := by decide!

lemma t1oc0 : only_choice gB27 = gB27 := by
  rw [only_choice_chunks, t1o0x0, t1o0x1, t1o0x2]

lemma t1nt0 : naked_twins gB27 = gB27 := by decide!

lemma t1pass0 : onePass gB27 = gB27 := by
  rw [onePass, t1el0, t1oc0, t1nt0]

lemma t1red : reduceLoop 1 gB27 = some (RRes.board gB27) := by
  have hstop : reduceLoop 1 gB27 = some (RRes.board gB27) :=
    reduceLoop_step_stop_board 0 _ _ t1pass0 (by simp only [t1cnt1, t1cnt0]) (by decide!)
  rw [hstop]

lemma t1size : totalSize gB27 = 81 := by decide!

lemma t1reduce : reduce_puzzle gB27 = some (RRes.board gB27) := by
  apply reduce_puzzle_of_reduceLoop _ 1 _ t1red
  rw [t1size]
  omega

lemma t1node : searchFuel 82 gB27 = SRes.ok gB27 := by
  rw [show (82 : Nat) = 81 + 1 from rfl]
  exact searchFuel_succ_solved 81 _ _ t1reduce (by decide!)

-- C1 witness: input gB27, fuel 82, result ok OK

/-! ## Bridging the evaluation boards to their grid strings -/

lemma grid_noneGrid_eq : grid2values noneGrid = gB0 := by decide!

lemma grid_c2Grid_eq : grid2values c2Grid = gB23 := by decide!

lemma grid_solvedGrid_eq : grid2values solvedGrid = gB27 := by decide!

lemma cexBoard_eq_gB25 : cexBoard = gB25 := by decide!

/-! ## Counting the passes of the reduce loop -/

lemma reducePassesAux_succ (fuel : Nat) (b : Board) :
    reducePassesAux (fuel + 1) b =
      if solvedCount (onePass b) == solvedCount b then 1
      else 1 + reducePassesAux fuel (onePass b) := rfl

lemma reducePassesAux_cont (fuel : Nat) (b b' : Board) (h : onePass b = b')
    (hne : solvedCount b' ≠ solvedCount b) :
    reducePassesAux (fuel + 1) b = 1 + reducePassesAux fuel b' := by
  rw [reducePassesAux_succ, h, if_neg (by simpa using hne)]

lemma reducePassesAux_stop (fuel : Nat) (b b' : Board) (h : onePass b = b')
    (heq : solvedCount b' = solvedCount b) :
    reducePassesAux (fuel + 1) b = 1 := by
  rw [reducePassesAux_succ, h, if_pos (by simpa using heq)]

lemma passIter_add (m k : Nat) (b : Board) :
    passIter (m + k) b = passIter m (passIter k b) := by
  induction k generalizing b with
  | zero => rfl
  | succ n ih =>
    have h1 : m + (n + 1) = (m + n) + 1 := rfl
    rw [h1]
    show passIter (m + n) (onePass b) = passIter m (passIter (n + 1) b)
    rw [ih (onePass b)]
    rfl

/-! ## The removal list of naked_twins, characterized -/

lemma mem_values_to_replace (v : Board) (pr : Nat × Nat) :
    pr ∈ values_to_replace v ↔ ∃ p ∈ twinPairs v, pr ∈ pairRemovals v p := by
  have main : ∀ (l : List (Nat × Nat)) (acc : List (Nat × Nat)),
      pr ∈ l.foldl (fun acc p => acc ++ pairRemovals v p) acc ↔
        pr ∈ acc ∨ ∃ p ∈ l, pr ∈ pairRemovals v p := by
    intro l
    induction l with
    | nil => intro acc; simp
    | cons x xs ih =>
      intro acc
      rw [List.foldl_cons, ih (acc ++ pairRemovals v x)]
      rw [List.mem_append]
      constructor
      · rintro ((h | h) | ⟨p, hp, hpr⟩)
        · exact Or.inl h
        · exact Or.inr ⟨x, List.mem_cons_self x xs, h⟩
        · exact Or.inr ⟨p, List.mem_cons_of_mem x hp, hpr⟩
      · rintro (h | ⟨p, hp, hpr⟩)
        · exact Or.inl (Or.inl h)
        · rcases List.mem_cons.1 hp with rfl | hp2
          · exact Or.inl (Or.inr hpr)
          · exact Or.inr ⟨p, hp2, hpr⟩
  unfold values_to_replace
  rw [main (twinPairs v) []]
  simp

/-! ## The claims -/

/-- C1: for every well-formed input board, if `search` returns a board rather
than a failure value, then that board has 81 cells, every cell's candidate set
has length exactly 1, and on each of the 29 units of `unitlist` the assigned
digits are a permutation of 1–9. -/
theorem C1_search_ok_solved_units (b v : Board) (hwf : WF b)
    (h : search b = SRes.ok v) :
    v.length = 81 ∧ allSolved v = true ∧
      ∀ u, u ∈ unitlist →
        List.Perm (u.map (fun s => (getCell v s).headD 0)) digits := by
  unfold search at h
  obtain ⟨hall, hwfv, hperm⟩ := search_ok_inv (totalSize b + 1) b v hwf h
  exact ⟨hwfv.1, hall, hperm⟩

/-- C1 at a concrete input: the already-solved grid `solvedGrid` is
well-formed, `search` returns its board, and the conclusions hold there. -/
theorem C1_witness :
    WF (grid2values solvedGrid) ∧
      search (grid2values solvedGrid) = SRes.ok gB27 ∧
      (gB27.length = 81 ∧ allSolved gB27 = true ∧
        ∀ u, u ∈ unitlist →
          List.Perm (u.map (fun s => (getCell gB27 s).headD 0)) digits) := by
  have hwf : WF (grid2values solvedGrid) := by
    rw [grid_solvedGrid_eq]
    constructor
    · decide!
    · decide!
  have hs : search (grid2values solvedGrid) = SRes.ok gB27 := by
    rw [grid_solvedGrid_eq]
    show searchFuel (totalSize gB27 + 1) gB27 = SRes.ok gB27
    rw [t1size]
    exact t1node
  exact ⟨hwf, hs, C1_search_ok_solved_units (grid2values solvedGrid) gB27 hwf hs⟩

/-- C2: the cell `search` branches on is NOT one with the fewest candidates.
On the reduced board of `c2Grid`, box 69 has 8 candidates but line 162's
`min(sorted_by_length)` compares the `(box, len)` tuples by box index first
and picks box 0, which has 9 candidates. -/
theorem C2_chooses_box_without_fewest_candidates :
    reduce_puzzle (grid2values c2Grid) = some (RRes.board gB24) ∧
      allSolved gB24 = false ∧
      chooseBox gB24 = some (0, 9) ∧
      (getCell gB24 0).length = 9 ∧
      (getCell gB24 69).length = 8 := by
  refine ⟨?_, ?_, ?_, ?_, ?_⟩
  · rw [grid_c2Grid_eq]
    exact t2reduce
  · decide!
  · decide!
  · decide!
  · decide!

/-- C3 (amended): `solve` returns a fully solved board, the failure value
`False`, or Python's `None` (the implicit return value when the candidate
loop of `search` finishes with no success); it never raises and never returns
a partially reduced board as success. -/
theorem C3_solve_outcomes (g : String) :
    (∃ v, solve g = SRes.ok v ∧ allSolved v = true) ∨
      solve g = SRes.pyFalse ∨ solve g = SRes.pyNone := by
  have hof : solve g ≠ SRes.outOfFuel :=
    searchFuel_enough_fuel (totalSize (grid2values g) + 1) (grid2values g)
      (Nat.lt_succ_self _)
  have herr : solve g ≠ SRes.error := searchFuel_ne_error _ _
  obtain ⟨r, hres⟩ : ∃ r, solve g = r := ⟨_, rfl⟩
  rw [hres]
  cases r with
  | ok v => exact Or.inl ⟨v, rfl, search_ok_solved _ _ v hres⟩
  | pyFalse => exact Or.inr (Or.inl rfl)
  | pyNone => exact Or.inr (Or.inr rfl)
  | error => exact absurd hres herr
  | outOfFuel => exact absurd hres hof

/-- C3 counterexample: on `noneGrid` every branch of the search dies in the
reducer, the candidate loop falls off its end, and `solve` returns `None` —
an outcome that is neither a board nor the claimed failure value `False`. -/
theorem C3_counterexample_solve_returns_none :
    solve noneGrid = SRes.pyNone ∧ solve noneGrid ≠ SRes.pyFalse ∧
      ∀ v, solve noneGrid ≠ SRes.ok v := by
  have h : solve noneGrid = SRes.pyNone := by
    show search (grid2values noneGrid) = SRes.pyNone
    rw [grid_noneGrid_eq]
    show searchFuel (totalSize gB0 + 1) gB0 = SRes.pyNone
    rw [t3size]
    exact t3node
  refine ⟨h, ?_, ?_⟩
  · rw [h]
    exact fun hh => SRes.noConfusion hh
  · intro v
    rw [h]
    exact fun hh => SRes.noConfusion hh

/-- C4 (amended): `reduce_puzzle` runs full passes until the first pass `k`
after which the solved-cell count is unchanged; only then does it check for
empty cells, returning `False` exactly if the stalled board has one. Empty
cells persist across passes, so an empty cell arising at any pass `j ≤ k`
does make the final answer `False` — but the check is at the stall, not
immediately when a cell becomes empty. -/
theorem C4_stall_then_contradiction_check (b : Board) :
    ∃ k, 1 ≤ k ∧
      solvedCount (passIter k b) = solvedCount (passIter (k - 1) b) ∧
      reduce_puzzle b =
        some (if hasEmpty (passIter k b) then RRes.fail
              else RRes.board (passIter k b)) ∧
      ∀ j, 1 ≤ j → j ≤ k → hasEmpty (passIter j b) = true →
        reduce_puzzle b = some RRes.fail := by
  obtain ⟨r, hr⟩ := Option.ne_none_iff_exists'.1 (reduce_puzzle_ne_none b)
  obtain ⟨k, hk1, hkf, hstall, hrr⟩ := reduceLoop_sound (totalSize b + 1) b r hr
  refine ⟨k, hk1, hstall, by rw [hr, hrr], ?_⟩
  intro j hj1 hjk hje
  have hkj : k - j + j = k := by omega
  have hsplit : passIter k b = passIter (k - j) (passIter j b) := by
    rw [← passIter_add, hkj]
  have hke : hasEmpty (passIter k b) = true := by
    rw [hsplit]
    exact hasEmpty_passIter_of_hasEmpty _ _ hje
  rw [hr, hrr, hke]
  simp

/-- C4 counterexample: on `cexBoard` the very first pass empties a cell, yet
the while-loop of `reduce_puzzle` runs a second full pass before it stalls
and reports the contradiction — the emptiness check is not immediate. -/
theorem C4_counterexample_not_immediate :
    hasEmpty (onePass cexBoard) = true ∧ reducePasses cexBoard = 2 ∧
      reduce_puzzle cexBoard = some RRes.fail := by
  refine ⟨?_, ?_, ?_⟩
  · rw [cexBoard_eq_gB25, t4pass0]
    decide!
  · show reducePassesAux (totalSize cexBoard + 1) cexBoard = 2
    rw [cexBoard_eq_gB25, t4size]
    rw [reducePassesAux_cont 713 gB25 gB26 t4pass0
      (by rw [t4cnt1, t4cnt0]; omega)]
    rw [show (713 : Nat) = 712 + 1 from rfl]
    rw [reducePassesAux_stop 712 gB26 gB26 t4pass1 rfl]
  · rw [cexBoard_eq_gB25]
    exact t4reduce

/-- C5 (amended): across one Elimination → Only-Choice → Naked-Twins pass, on
any board the pass does not drive into contradiction (no cell empty after the
pass), the count of solved cells never decreases. On contradictory boards it
can decrease: a solved cell can lose its only candidate. -/
theorem C5_pass_monotone_without_contradiction (b : Board)
    (h : hasEmpty (onePass b) = false) :
    solvedCount b ≤ solvedCount (onePass b) :=
  pass_mono b h

/-- C5 at a concrete input: the blank board passes the no-empty-cell test and
the count conclusion holds for it. -/
theorem C5_witness :
    hasEmpty (onePass blankBoard) = false ∧
      solvedCount blankBoard ≤ solvedCount (onePass blankBoard) := by
  have h : hasEmpty (onePass blankBoard) = false := by decide!
  exact ⟨h, C5_pass_monotone_without_contradiction blankBoard h⟩

/-- C5 counterexample: on `cexBoard` (two clashing 1s plus 79 blank cells) a
single pass lowers the solved-cell count from 2 to 1 — the reducer is not
monotonic as claimed. -/
theorem C5_counterexample_count_decreases :
    solvedCount cexBoard = 2 ∧ solvedCount (onePass cexBoard) = 1 := by
  constructor
  · rw [cexBoard_eq_gB25]
    exact t4cnt0
  · rw [cexBoard_eq_gB25, t4pass0]
    exact t4cnt1

/-- C6: termination — for every board, the while-loop of `reduce_puzzle`
reaches a stalled pass within its fuel (`totalSize b + 1` passes), and the
recursion of `search` bottoms out within its fuel (`totalSize b + 1` levels):
neither ever runs out. -/
theorem C6_reduce_and_search_terminate (b : Board) :
    reduce_puzzle b ≠ none ∧ search b ≠ SRes.outOfFuel :=
  ⟨reduce_puzzle_ne_none b,
    searchFuel_enough_fuel (totalSize b + 1) b (Nat.lt_succ_self _)⟩

/-- C7: every removal recorded by `naked_twins` for a twin pair targets a cell
in the intersection of the two twins' peer sets, and that cell is never one of
the twin cells themselves (no cell is its own peer). -/
theorem C7_twins_never_touched (v : Board) (p : Nat × Nat) (pr : Nat × Nat)
    (_hp : p ∈ twinPairs v) (hpr : pr ∈ pairRemovals v p) :
    pr.1 ∈ peers p.1 ∧ pr.1 ∈ peers p.2 ∧ pr.1 ≠ p.1 ∧ pr.1 ≠ p.2 := by
  obtain ⟨h1, h2, _, _⟩ := (mem_pairRemovals v p pr).1 hpr
  refine ⟨h1, h2, ?_, ?_⟩
  · exact fun hh => not_self_mem_peers p.1 (hh ▸ h1)
  · exact fun hh => not_self_mem_peers p.2 (hh ▸ h2)

/-- C7 at a concrete input: on `twinBoard`, boxes 0 and 1 are twins on
`[1, 2]`, the removal `(3, 1)` is recorded for the pair, and box 3 is a
shared peer distinct from both twins. -/
theorem C7_witness :
    (0, 1) ∈ twinPairs twinBoard ∧ (3, 1) ∈ pairRemovals twinBoard (0, 1) ∧
      ((3 : Nat) ∈ peers 0 ∧ (3 : Nat) ∈ peers 1 ∧
        (3 : Nat) ≠ 0 ∧ (3 : Nat) ≠ 1) := by
  have h1 : ((0, 1) : Nat × Nat) ∈ twinPairs twinBoard := by decide!
  have h2 : ((3, 1) : Nat × Nat) ∈ pairRemovals twinBoard (0, 1) := by decide!
  exact ⟨h1, h2, C7_twins_never_touched twinBoard (0, 1) (3, 1) h1 h2⟩

/-- C8: `naked_twins` is detect-then-mutate — the recorded twin pairs carry no
duplicates, a canonical pair is recorded exactly when two peer cells share an
identical two-candidate set (a condition on the input board only, independent
of discovery order), the removal list is likewise computed from the input
board only, and the result is that precomputed list applied to the input. -/
theorem C8_detect_then_mutate (v : Board) :
    (twinPairs v).Nodup ∧
      (∀ q, q ∈ twinPairs v ↔
        ∃ s t, s < 81 ∧ (getCell v s).length = 2 ∧ t ∈ peers s ∧
          getCell v s = getCell v t ∧ q = canonPair s t) ∧
      (∀ pr, pr ∈ values_to_replace v ↔
        ∃ p ∈ twinPairs v, pr ∈ pairRemovals v p) ∧
      naked_twins v = (values_to_replace v).foldl applyRemoval v :=
  ⟨twinPairs_nodup v, fun q => mem_twinPairs v q,
    fun pr => mem_values_to_replace v pr, rfl⟩

/-- C9 (amended): on a board whose every cell has length 1, `only_choice` and
`naked_twins` are the identity; `eliminate` is the identity provided the board
moreover has 81 cells and no two peers hold the same value (a consistent
solved board) — on conflicting solved boards it is not. -/
theorem C9_identity_on_solved_boards (b : Board) (h : allSolved b = true) :
    only_choice b = b ∧ naked_twins b = b ∧
      (b.length = 81 → noPeerConflict b → eliminate b = b) :=
  ⟨only_choice_id_of_allSolved b h, naked_twins_id_of_allSolved b h,
    fun hlen hv => eliminate_id_of_valid b hlen h hv⟩

/-- C9 at a concrete input: the consistent solved board `gB27` satisfies all
the hypotheses and all three strategies leave it unchanged. -/
theorem C9_witness :
    allSolved gB27 = true ∧ gB27.length = 81 ∧ noPeerConflict gB27 ∧
      only_choice gB27 = gB27 ∧ naked_twins gB27 = gB27 ∧
      eliminate gB27 = gB27 := by
  have h : allSolved gB27 = true := by decide!
  have hlen : gB27.length = 81 := by decide!
  have hv : noPeerConflict gB27 := by
    unfold noPeerConflict
    decide!
  obtain ⟨h1, h2, h3⟩ := C9_identity_on_solved_boards gB27 h
  exact ⟨h, hlen, hv, h1, h2, h3 hlen hv⟩

/-- C9 counterexample: the all-ones board is solved in the claim's sense
(every cell has length 1), yet `eliminate` empties cells instead of returning
it unchanged — idempotence on solved boards fails for `eliminate`. -/
theorem C9_counterexample_eliminate_changes_board :
    allSolved allOnes = true ∧ eliminate allOnes ≠ allOnes := by
  refine ⟨by decide!, ?_⟩
  intro h
  have h1 : getCell (eliminate allOnes) 1 = [] := by decide!
  rw [h] at h1
  have h2 : getCell allOnes 1 = [1] := by decide!
  rw [h1] at h2
  exact List.noConfusion h2

/-- C10: every propagation strategy only shrinks candidate sets — for every
board and every cell index, the cell after `eliminate`, `only_choice` or
`naked_twins` is an order-preserving subsequence (`List.Sublist`) of the cell
before; no strategy ever adds a candidate. -/
theorem C10_strategies_only_shrink (b : Board) (j : Nat) :
    List.Sublist (getCell (eliminate b) j) (getCell b j) ∧
      List.Sublist (getCell (only_choice b) j) (getCell b j) ∧
      List.Sublist (getCell (naked_twins b) j) (getCell b j) :=
  ⟨shrink_eliminate b j, shrink_only_choice b j, shrink_naked_twins b j⟩
